import Mathlib

/-!
SDL_shader: the blob container, the build tool and the run-time loader

A shallow embedding of `src/src/main.c` (the build tool: `write_le32`, `write_le64`,
`encode`, `compile`) and of `src/src/SDL_shader.c` (the loader: `read_le32`, `read_le64`,
`SDL_SHADER_Load_IO`, `SDL_SHADER_LoadCompute_IO`), with the structures of
`src/src/common.h`.

Conventions of the embedding.
* A byte is a `Nat` (meant to be below 256); a memory object is the `List Nat` of its bytes.
* A pointer into the buffer the loader reads is the offset from the start of that buffer; a
  pointer the build tool holds is modelled by the object it points to.
* C integers are `Nat`; a conversion to a fixed width is an explicit `%`.
* What the C code does without returning (an access outside an object, a use of `NULL`)
  is a `Fault`; the functions return `Except Fault _`.
* The host byte order is a parameter `big : Bool` (`true` on a big-endian host).
-/

namespace SDLShader

/-! ## Faults, bytes and byte order -/

/-- The ways the C code can leave defined behaviour in the parts embedded here. -/
inductive Fault where
  /-- an access to a byte outside the object a pointer refers to -/
  | out_of_bounds
  /-- a use of a `NULL` pointer as if it referred to an object -/
  | null_deref
  deriving DecidableEq, Repr

/-- The `w` bytes of `v`, least significant first. -/
def le_bytes : Nat → Nat → List Nat
  | 0, _ => []
  | w + 1, v => v % 256 :: le_bytes w (v / 256)

/-- The integer whose bytes, least significant first, are the given ones. -/
def le_value : List Nat → Nat
  | [] => 0
  | b :: bs => b + 256 * le_value bs

/-- The memory representation of the `w`-byte integer `v` on the host. -/
def host_bytes (big : Bool) (w v : Nat) : List Nat :=
  if big then (le_bytes w v).reverse else le_bytes w v

/-- The integer a `memcpy` of the given bytes into an integer variable yields on the host. -/
def host_value (big : Bool) (bs : List Nat) : Nat :=
  if big then le_value bs.reverse else le_value bs

/-- `SDL_Swap32` / `SDL_Swap64` of SDL3 (`SDL_endian.h`, not part of the sources): the
`w`-byte integer with the bytes of `v` in the opposite order. -/
def SDL_Swap (w v : Nat) : Nat := le_value (le_bytes w v).reverse

/-- `SDL_Swap32LE` / `SDL_Swap64LE` of SDL3 (`SDL_endian.h`): the identity on a little-endian
host, the byte swap on a big-endian one. -/
def SDL_SwapLE (big : Bool) (w v : Nat) : Nat :=
  if big then SDL_Swap w v else v

/-- `write_le32` of `main.c`: `dst` holds the bytes written so far, the result those after
the call (the returned pointer is the end of the list). The parameter is a `Uint32`. -/
def write_le32 (big : Bool) (dst : List Nat) (value : Nat) : List Nat :=
  let tmp := SDL_SwapLE big 4 (value % 2 ^ 32)
  dst ++ host_bytes big 4 tmp

/-- `write_le64` of `main.c`; the parameter is a `Uint64`. -/
def write_le64 (big : Bool) (dst : List Nat) (value : Nat) : List Nat :=
  let tmp := SDL_SwapLE big 8 (value % 2 ^ 64)
  dst ++ host_bytes big 8 tmp

/-- `SDL_memcpy(&temp, src, n)` where `src` is `data + p`: the `n` bytes at offset `p` of the
buffer `data`, a fault when they are not all inside it. -/
def load_bytes (data : List Nat) (p n : Nat) : Except Fault (List Nat) :=
  if p + n ≤ data.length then .ok ((data.drop p).take n) else .error .out_of_bounds

/-- `read_le32` of `SDL_shader.c`: the value read at offset `p` and the advanced pointer. -/
def read_le32 (big : Bool) (data : List Nat) (p : Nat) : Except Fault (Nat × Nat) := do
  let temp ← load_bytes data p 4
  pure (SDL_SwapLE big 4 (host_value big temp), p + 4)

/-- `read_le64` of `SDL_shader.c`. -/
def read_le64 (big : Bool) (data : List Nat) (p : Nat) : Except Fault (Nat × Nat) := do
  let temp ← load_bytes data p 8
  pure (SDL_SwapLE big 8 (host_value big temp), p + 8)

/-! ## The structures of `common.h` -/

/-- `SDL_SHADER_TYPE_VERTEX`. -/
def SDL_SHADER_TYPE_VERTEX : Nat := 0

/-- `SDL_SHADER_TYPE_FRAGMENT`. -/
def SDL_SHADER_TYPE_FRAGMENT : Nat := 1

/-- `SDL_SHADER_TYPE_COMPUTE`. -/
def SDL_SHADER_TYPE_COMPUTE : Nat := 2

/-- `struct SDL_SHADER_Code`. `P` is what models the pointer `code`: the object it points
to in the build tool, an offset into the loaded buffer in the loader. -/
structure SDL_SHADER_Code (P : Type) where
  code_size : Nat
  format : Nat
  code : P
  deriving DecidableEq, Repr

/-- `struct SDL_SHADER_Blob`; `shaders` is the array behind the pointer `shaders`. -/
structure SDL_SHADER_Blob (P : Type) where
  formats : Nat
  type : Nat
  num_samplers : Nat
  num_uniform_buffers : Nat
  num_storage_buffers : Nat
  num_storage_textures : Nat
  num_storage_buffers_readonly : Nat
  num_storage_textures_readonly : Nat
  thread_x : Nat
  thread_y : Nat
  thread_z : Nat
  entry_size : Nat
  entry : P
  num_shaders : Nat
  shaders : List (SDL_SHADER_Code P)
  deriving DecidableEq, Repr

/-! ## `encode` (main.c) -/

/-- A value stored in a `size_t` of `szt` bytes. -/
def size_t (szt : Nat) (x : Nat) : Nat := x % 2 ^ (8 * szt)

/-- `SDL_memcpy(p, src, n)` in `encode`: the `n` bytes copied from the object `src`, a fault
when the object is shorter. -/
def SDL_memcpy (src : List Nat) (n : Nat) : Except Fault (List Nat) :=
  if n ≤ src.length then .ok (src.take n) else .error .out_of_bounds

/-- The loop `for (i = 0; i < blob->num_shaders; i++) bin_size += blob->shaders[i]->code_size;`
with `k` iterations left, at index `i`. -/
def encode_size_loop (szt : Nat) (shaders : List (SDL_SHADER_Code (List Nat))) :
    Nat → Nat → Nat → Except Fault Nat
  | 0, _, bin_size => .ok bin_size
  | k + 1, i, bin_size =>
    match shaders[i]? with
    | none => .error .out_of_bounds
    | some s => encode_size_loop szt shaders k (i + 1) (size_t szt (bin_size + s.code_size))

/-- The loop of `encode` that writes the variants, with `k` iterations left, at index `i`;
`p` holds the bytes written so far. -/
def encode_write_loop (big : Bool) (shaders : List (SDL_SHADER_Code (List Nat))) :
    Nat → Nat → List Nat → Except Fault (List Nat)
  | 0, _, p => .ok p
  | k + 1, i, p =>
    match shaders[i]? with
    | none => .error .out_of_bounds
    | some s => do
      let p := write_le32 big p s.format
      let p := write_le64 big p s.code_size
      let c ← SDL_memcpy s.code s.code_size
      encode_write_loop big shaders k (i + 1) (p ++ c)

/-- The size computation of `encode` (`bin_size`), for a `size_t` of `szt` bytes;
`sizeof(Uint32) = sizeof(SDL_GPUShaderFormat) = 4`, `sizeof(char) = 1`. -/
def encode_bin_size (szt : Nat) (blob : SDL_SHADER_Blob (List Nat)) : Except Fault Nat := do
  let bin_size := 0
  let bin_size := size_t szt (bin_size + 8 * 4)
  let bin_size := size_t szt (bin_size + (1 * blob.entry_size + 1))
  let bin_size := size_t szt (bin_size + blob.num_shaders * (szt + 4))
  let bin_size :=
    if blob.type = SDL_SHADER_TYPE_COMPUTE then size_t szt (bin_size + 5 * 4) else bin_size
  encode_size_loop szt blob.shaders blob.num_shaders 0 bin_size

/-- `encode` of `main.c`: the bytes written into `bin`, from offset 0 on, and the value
stored in `*size` (the size of the allocation `bin`, and the number of bytes the caller
saves). The bytes of `bin` that `encode` does not write are not initialised. -/
def encode (big : Bool) (szt : Nat) (blob : SDL_SHADER_Blob (List Nat)) :
    Except Fault (List Nat × Nat) := do
  let bin_size ← encode_bin_size szt blob
  let p : List Nat := []
  let p := write_le32 big p blob.formats
  let p := write_le32 big p blob.type
  let p := write_le32 big p blob.num_samplers
  let p := write_le32 big p blob.num_uniform_buffers
  let p := write_le32 big p blob.num_storage_buffers
  let p := write_le32 big p blob.num_storage_textures
  let p :=
    if blob.type = SDL_SHADER_TYPE_COMPUTE then
      let p := write_le32 big p blob.num_storage_buffers_readonly
      let p := write_le32 big p blob.num_storage_textures_readonly
      let p := write_le32 big p blob.thread_x
      let p := write_le32 big p blob.thread_y
      write_le32 big p blob.thread_z
    else p
  let p := write_le32 big p blob.num_shaders
  let p := write_le32 big p blob.entry_size
  let e ← SDL_memcpy blob.entry (blob.entry_size * 1)
  let p := p ++ e
  let p ← encode_write_loop big blob.shaders blob.num_shaders 0 p
  pure (p, bin_size)

/-- The blob's pointers refer to objects that hold what the blob declares: `entry` to at
least `entry_size` bytes, `shaders` to `num_shaders` entries, each `code` to at least
`code_size` bytes. `encode` reads no byte outside these objects exactly on such blobs. -/
def SDL_SHADER_Blob.Valid (b : SDL_SHADER_Blob (List Nat)) : Prop :=
  b.entry_size ≤ b.entry.length ∧ b.num_shaders = b.shaders.length ∧
    ∀ s ∈ b.shaders, s.code_size ≤ s.code.length

instance (b : SDL_SHADER_Blob (List Nat)) : Decidable b.Valid := by
  unfold SDL_SHADER_Blob.Valid
  infer_instance

/-- A well-formed blob: `entry_size` is the length of the entry string with its NUL,
`num_shaders` the number of variants, each `code_size` the length of the bytecode. -/
def SDL_SHADER_Blob.WellFormed (b : SDL_SHADER_Blob (List Nat)) : Prop :=
  b.entry_size = b.entry.length ∧ b.num_shaders = b.shaders.length ∧
    ∀ s ∈ b.shaders, s.code_size = s.code.length

instance (b : SDL_SHADER_Blob (List Nat)) : Decidable b.WellFormed := by
  unfold SDL_SHADER_Blob.WellFormed
  infer_instance

/-- The fields fit their C types: `Uint32` for the fields of the blob and the format of a
variant, a 64-bit `code_size`. -/
def SDL_SHADER_Blob.InRange (b : SDL_SHADER_Blob (List Nat)) : Prop :=
  b.formats < 2 ^ 32 ∧ b.type < 2 ^ 32 ∧ b.num_samplers < 2 ^ 32 ∧
    b.num_uniform_buffers < 2 ^ 32 ∧ b.num_storage_buffers < 2 ^ 32 ∧
    b.num_storage_textures < 2 ^ 32 ∧ b.num_storage_buffers_readonly < 2 ^ 32 ∧
    b.num_storage_textures_readonly < 2 ^ 32 ∧ b.thread_x < 2 ^ 32 ∧ b.thread_y < 2 ^ 32 ∧
    b.thread_z < 2 ^ 32 ∧ b.entry_size < 2 ^ 32 ∧ b.num_shaders < 2 ^ 32 ∧
    ∀ s ∈ b.shaders, s.format < 2 ^ 32 ∧ s.code_size < 2 ^ 64

instance (b : SDL_SHADER_Blob (List Nat)) : Decidable b.InRange := by
  unfold SDL_SHADER_Blob.InRange
  infer_instance

/-- The layout of one variant as the specification gives it: format (4 bytes), size
(8 bytes), then the `code_size` bytes of the bytecode. -/
def spec_variant (s : SDL_SHADER_Code (List Nat)) : List Nat :=
  le_bytes 4 s.format ++ (le_bytes 8 s.code_size ++ s.code.take s.code_size)

/-- The variants of the specification's layout, in stored order. -/
def spec_variants : List (SDL_SHADER_Code (List Nat)) → List Nat
  | [] => []
  | s :: ss => spec_variant s ++ spec_variants ss

/-- The five compute-only fields of the specification's layout. -/
def spec_compute_fields (b : SDL_SHADER_Blob (List Nat)) : List Nat :=
  le_bytes 4 b.num_storage_buffers_readonly ++
    (le_bytes 4 b.num_storage_textures_readonly ++
      (le_bytes 4 b.thread_x ++ (le_bytes 4 b.thread_y ++ le_bytes 4 b.thread_z)))

/-- What follows the six common fields in the specification's layout. -/
def spec_tail (b : SDL_SHADER_Blob (List Nat)) : List Nat :=
  le_bytes 4 b.num_shaders ++ (le_bytes 4 b.entry_size ++
    (b.entry.take b.entry_size ++ spec_variants b.shaders))

/-- The byte layout of section 4.1 of the specification, every integer little-endian. -/
def spec_layout (b : SDL_SHADER_Blob (List Nat)) : List Nat :=
  le_bytes 4 b.formats ++ (le_bytes 4 b.type ++ (le_bytes 4 b.num_samplers ++
    (le_bytes 4 b.num_uniform_buffers ++ (le_bytes 4 b.num_storage_buffers ++
      (le_bytes 4 b.num_storage_textures ++
        ((if b.type = 2 then spec_compute_fields b else []) ++ spec_tail b))))))

/-- The value of `bin_size` after the loop over the variants that starts from `start`. -/
def size_sum (szt : Nat) (start : Nat) (shaders : List (SDL_SHADER_Code (List Nat))) : Nat :=
  shaders.foldl (fun acc s => size_t szt (acc + s.code_size)) start

/-- The value of `bin_size` before the loop over the variants. -/
def size_header (szt : Nat) (b : SDL_SHADER_Blob (List Nat)) : Nat :=
  let s := size_t szt (size_t szt (size_t szt (0 + 8 * 4) + (1 * b.entry_size + 1)) +
    b.num_shaders * (szt + 4))
  if b.type = SDL_SHADER_TYPE_COMPUTE then size_t szt (s + 5 * 4) else s

/-! ## The loader (SDL_shader.c) -/

/-- `SDL_GPU_SHADERFORMAT_SPIRV` of SDL3 (`SDL_gpu.h`, not part of the sources): `1u << 1`. -/
def SDL_GPU_SHADERFORMAT_SPIRV : Nat := 2

/-- `SDL_GPU_SHADERFORMAT_DXBC` of SDL3 (`SDL_gpu.h`): `1u << 2`. -/
def SDL_GPU_SHADERFORMAT_DXBC : Nat := 4

/-- `SDL_GPU_SHADERFORMAT_DXIL` of SDL3 (`SDL_gpu.h`): `1u << 3`. -/
def SDL_GPU_SHADERFORMAT_DXIL : Nat := 8

/-- `SDL_GPU_SHADERFORMAT_MSL` of SDL3 (`SDL_gpu.h`): `1u << 4`. -/
def SDL_GPU_SHADERFORMAT_MSL : Nat := 16

/-- `SDL_GPU_SHADERSTAGE_VERTEX` of SDL3 (`SDL_gpu.h`), the first enumerator. -/
def SDL_GPU_SHADERSTAGE_VERTEX : Nat := 0

/-- `SDL_GPU_SHADERSTAGE_FRAGMENT` of SDL3 (`SDL_gpu.h`), the second enumerator. -/
def SDL_GPU_SHADERSTAGE_FRAGMENT : Nat := 1

/-- The characters of the literal `"main"`. -/
def str_main : List Nat := [109, 97, 105, 110]

/-- The characters of the literal `"main0"`. -/
def str_main0 : List Nat := [109, 97, 105, 110, 48]

/-- The value of the pointer `info.entrypoint`: `blob.entry`, which points into the loaded
buffer, or the string literal `"main0"`. -/
inductive Entrypoint where
  | buffer (offset : Nat)
  | main0
  deriving DecidableEq, Repr

/-- `SDL_GPUShaderCreateInfo` of SDL3, the fields the loader sets; `code` is `none` for
`NULL` and an offset into the loaded buffer otherwise. -/
structure SDL_GPUShaderCreateInfo where
  code_size : Nat
  code : Option Nat
  entrypoint : Entrypoint
  format : Nat
  stage : Nat
  num_samplers : Nat
  num_storage_textures : Nat
  num_storage_buffers : Nat
  num_uniform_buffers : Nat
  deriving DecidableEq, Repr

/-- `SDL_GPUComputePipelineCreateInfo` of SDL3, the fields the loader sets. -/
structure SDL_GPUComputePipelineCreateInfo where
  code_size : Nat
  code : Option Nat
  entrypoint : Entrypoint
  format : Nat
  num_samplers : Nat
  num_readonly_storage_textures : Nat
  num_readonly_storage_buffers : Nat
  num_readwrite_storage_textures : Nat
  num_readwrite_storage_buffers : Nat
  num_uniform_buffers : Nat
  threadcount_x : Nat
  threadcount_y : Nat
  threadcount_z : Nat
  props : Nat
  deriving DecidableEq, Repr

/-- The GPU device, an external collaborator: the mask `SDL_GetGPUShaderFormats` returns and
the two creation calls, which see the loaded buffer and the descriptor and return a handle
or `NULL` (`none`). -/
structure SDL_GPUDevice where
  SDL_GetGPUShaderFormats : Nat
  SDL_CreateGPUShader : List Nat → SDL_GPUShaderCreateInfo → Option Nat
  SDL_CreateGPUComputePipeline : List Nat → SDL_GPUComputePipelineCreateInfo → Option Nat

/-- One byte of the buffer, as `*(data + p)` reads it. -/
def load_byte (data : List Nat) (p : Nat) : Except Fault Nat :=
  match data[p]? with
  | some b => .ok b
  | none => .error .out_of_bounds

/-- `SDL_strcmp(data + p, lit) == 0` for a literal `lit` without NUL: the bytes are compared
one by one up to the first difference or the terminating NUL. -/
def SDL_strcmp_eq (data : List Nat) : Nat → List Nat → Except Fault Bool
  | p, [] => do
    let b ← load_byte data p
    pure (b == 0)
  | p, c :: cs => do
    let b ← load_byte data p
    if b ≠ c then pure false else SDL_strcmp_eq data (p + 1) cs

/-- The loop of the loaders that reads the variants, with `k` iterations left; `shaders`
holds the entries of `blob.shaders` filled so far. -/
def decode_shaders_loop (big : Bool) (data : List Nat) :
    Nat → Nat → List (SDL_SHADER_Code Nat) → Except Fault (Nat × List (SDL_SHADER_Code Nat))
  | 0, p, shaders => .ok (p, shaders)
  | k + 1, p, shaders => do
    let (format, p) ← read_le32 big data p
    let (code_size, p) ← read_le64 big data p
    let code := p
    let p := p + code_size
    decode_shaders_loop big data k p (shaders ++ [⟨code_size, format, code⟩])

/-- The loop of the loaders that selects a variant, with `k` iterations left, at index `i`:
the variant at which the loop breaks, `none` when it runs to the end (`info.code` stays
`NULL`). `formats` is `SDL_GetGPUShaderFormats(device)`. -/
def select_loop (formats : Nat) (shaders : List (SDL_SHADER_Code Nat)) :
    Nat → Nat → Except Fault (Option (SDL_SHADER_Code Nat))
  | 0, _ => .ok none
  | k + 1, i =>
    match shaders[i]? with
    | none => .error .out_of_bounds
    | some shader =>
      if formats &&& shader.format ≠ 0 then .ok (some shader)
      else select_loop formats shaders k (i + 1)

/-- The field reads of `SDL_SHADER_Load_IO` (lines 44 to 98): `none` where the function
returns `NULL` (nothing was read from the stream, or the blob is a compute blob), the
decoded blob otherwise. `data` is the content of the stream, read in full. The fields the
function does not assign keep the zero of `blob = {0}`. -/
def SDL_SHADER_Load_decode (big : Bool) (data : List Nat) :
    Except Fault (Option (SDL_SHADER_Blob Nat)) := do
  if data.length = 0 then return none
  let p := 0
  let (formats, p) ← read_le32 big data p
  let (type, p) ← read_le32 big data p
  if type = SDL_SHADER_TYPE_COMPUTE then return none
  let (num_samplers, p) ← read_le32 big data p
  let (num_uniform_buffers, p) ← read_le32 big data p
  let (num_storage_buffers, p) ← read_le32 big data p
  let (num_storage_textures, p) ← read_le32 big data p
  let (num_shaders, p) ← read_le32 big data p
  let (entry_size, p) ← read_le32 big data p
  let entry := p
  let p := p + entry_size * 1
  let (_, shaders) ← decode_shaders_loop big data num_shaders p []
  return some
    { formats := formats, type := type, num_samplers := num_samplers,
      num_uniform_buffers := num_uniform_buffers,
      num_storage_buffers := num_storage_buffers,
      num_storage_textures := num_storage_textures,
      num_storage_buffers_readonly := 0, num_storage_textures_readonly := 0,
      thread_x := 0, thread_y := 0, thread_z := 0,
      entry_size := entry_size, entry := entry,
      num_shaders := num_shaders, shaders := shaders }

/-- The field reads of `SDL_SHADER_LoadCompute_IO` (lines 175 to 236). -/
def SDL_SHADER_LoadCompute_decode (big : Bool) (data : List Nat) :
    Except Fault (Option (SDL_SHADER_Blob Nat)) := do
  if data.length = 0 then return none
  let p := 0
  let (formats, p) ← read_le32 big data p
  let (type, p) ← read_le32 big data p
  if type ≠ SDL_SHADER_TYPE_COMPUTE then return none
  let (num_samplers, p) ← read_le32 big data p
  let (num_uniform_buffers, p) ← read_le32 big data p
  let (num_storage_buffers, p) ← read_le32 big data p
  let (num_storage_textures, p) ← read_le32 big data p
  let (num_storage_buffers_readonly, p) ← read_le32 big data p
  let (num_storage_textures_readonly, p) ← read_le32 big data p
  let (thread_x, p) ← read_le32 big data p
  let (thread_y, p) ← read_le32 big data p
  let (thread_z, p) ← read_le32 big data p
  let (num_shaders, p) ← read_le32 big data p
  let (entry_size, p) ← read_le32 big data p
  let entry := p
  let p := p + entry_size * 1
  let (_, shaders) ← decode_shaders_loop big data num_shaders p []
  return some
    { formats := formats, type := type, num_samplers := num_samplers,
      num_uniform_buffers := num_uniform_buffers,
      num_storage_buffers := num_storage_buffers,
      num_storage_textures := num_storage_textures,
      num_storage_buffers_readonly := num_storage_buffers_readonly,
      num_storage_textures_readonly := num_storage_textures_readonly,
      thread_x := thread_x, thread_y := thread_y, thread_z := thread_z,
      entry_size := entry_size, entry := entry,
      num_shaders := num_shaders, shaders := shaders }

/-- The descriptor `SDL_SHADER_Load_IO` builds from the decoded blob (lines 100 to 139):
`none` where no variant was selected (`info.code == NULL`, the device is not asked),
otherwise the descriptor handed to `SDL_CreateGPUShader`. -/
def SDL_SHADER_Load_build (formats : Nat) (data : List Nat) (blob : SDL_SHADER_Blob Nat) :
    Except Fault (Option SDL_GPUShaderCreateInfo) := do
  let info : SDL_GPUShaderCreateInfo :=
    { code_size := 0, code := none, entrypoint := .buffer blob.entry, format := 0,
      stage := 0, num_samplers := blob.num_samplers,
      num_storage_textures := blob.num_storage_textures,
      num_storage_buffers := blob.num_storage_buffers,
      num_uniform_buffers := blob.num_uniform_buffers }
  let info :=
    if blob.type = SDL_SHADER_TYPE_VERTEX then
      { info with stage := SDL_GPU_SHADERSTAGE_VERTEX }
    else if blob.type = SDL_SHADER_TYPE_FRAGMENT then
      { info with stage := SDL_GPU_SHADERSTAGE_FRAGMENT }
    else info
  let info := { info with code := none }
  let sel ← select_loop formats blob.shaders blob.num_shaders 0
  let info : SDL_GPUShaderCreateInfo :=
    match sel with
    | some shader =>
      { info with code := some shader.code, code_size := shader.code_size,
                  format := shader.format }
    | none => info
  if info.code ≠ none then
    let is_main ←
      if info.format = SDL_GPU_SHADERFORMAT_MSL then SDL_strcmp_eq data blob.entry str_main
      else pure false
    let info := if is_main then { info with entrypoint := .main0 } else info
    return some info
  else
    return none

/-- The descriptor `SDL_SHADER_LoadCompute_IO` builds from the decoded blob (lines 238 to
274). -/
def SDL_SHADER_LoadCompute_build (formats : Nat) (data : List Nat)
    (blob : SDL_SHADER_Blob Nat) : Except Fault (Option SDL_GPUComputePipelineCreateInfo) := do
  let info : SDL_GPUComputePipelineCreateInfo :=
    { code_size := 0, code := none, entrypoint := .buffer blob.entry, format := 0,
      num_samplers := blob.num_samplers,
      num_uniform_buffers := blob.num_uniform_buffers,
      num_readwrite_storage_buffers := blob.num_storage_buffers,
      num_readwrite_storage_textures := blob.num_storage_textures,
      num_readonly_storage_buffers := blob.num_storage_buffers_readonly,
      num_readonly_storage_textures := blob.num_storage_textures_readonly,
      threadcount_x := blob.thread_x, threadcount_y := blob.thread_y,
      threadcount_z := blob.thread_z, props := 0 }
  let info := { info with code := none }
  let sel ← select_loop formats blob.shaders blob.num_shaders 0
  let info : SDL_GPUComputePipelineCreateInfo :=
    match sel with
    | some shader =>
      { info with code := some shader.code, code_size := shader.code_size,
                  format := shader.format }
    | none => info
  if info.code ≠ none then
    let is_main ←
      if info.format = SDL_GPU_SHADERFORMAT_MSL then SDL_strcmp_eq data blob.entry str_main
      else pure false
    let info := if is_main then { info with entrypoint := .main0 } else info
    return some info
  else
    return none

/-- The descriptor `SDL_SHADER_Load_IO` hands to the device, `none` where it returns `NULL`
without asking the device. -/
def SDL_SHADER_Load_info (big : Bool) (formats : Nat) (data : List Nat) :
    Except Fault (Option SDL_GPUShaderCreateInfo) := do
  match ← SDL_SHADER_Load_decode big data with
  | none => return none
  | some blob => SDL_SHADER_Load_build formats data blob

/-- The descriptor `SDL_SHADER_LoadCompute_IO` hands to the device. -/
def SDL_SHADER_LoadCompute_info (big : Bool) (formats : Nat) (data : List Nat) :
    Except Fault (Option SDL_GPUComputePipelineCreateInfo) := do
  match ← SDL_SHADER_LoadCompute_decode big data with
  | none => return none
  | some blob => SDL_SHADER_LoadCompute_build formats data blob

/-- `SDL_SHADER_Load_IO` of `SDL_shader.c`: the returned `SDL_GPUShader*`, `none` for
`NULL`. -/
def SDL_SHADER_Load_IO (big : Bool) (device : SDL_GPUDevice) (data : List Nat) :
    Except Fault (Option Nat) := do
  match ← SDL_SHADER_Load_info big device.SDL_GetGPUShaderFormats data with
  | none => return none
  | some info => return device.SDL_CreateGPUShader data info

/-- `SDL_SHADER_LoadCompute_IO` of `SDL_shader.c`: the returned `SDL_GPUComputePipeline*`,
`none` for `NULL`. -/
def SDL_SHADER_LoadCompute_IO (big : Bool) (device : SDL_GPUDevice) (data : List Nat) :
    Except Fault (Option Nat) := do
  match ← SDL_SHADER_LoadCompute_info big device.SDL_GetGPUShaderFormats data with
  | none => return none
  | some info => return device.SDL_CreateGPUComputePipeline data info

/-- The variant a decoded entry denotes: the pointer `code` replaced by the `code_size`
bytes of the buffer it points to. -/
def deref_code (data : List Nat) (d : SDL_SHADER_Code Nat) : SDL_SHADER_Code (List Nat) :=
  { code_size := d.code_size, format := d.format,
    code := (data.drop d.code).take d.code_size }

/-- The blob a decoded blob denotes: the pointers `entry` and `code` replaced by the bytes
of the buffer they point to. -/
def deref_blob (data : List Nat) (d : SDL_SHADER_Blob Nat) : SDL_SHADER_Blob (List Nat) :=
  { formats := d.formats, type := d.type, num_samplers := d.num_samplers,
    num_uniform_buffers := d.num_uniform_buffers,
    num_storage_buffers := d.num_storage_buffers,
    num_storage_textures := d.num_storage_textures,
    num_storage_buffers_readonly := d.num_storage_buffers_readonly,
    num_storage_textures_readonly := d.num_storage_textures_readonly,
    thread_x := d.thread_x, thread_y := d.thread_y, thread_z := d.thread_z,
    entry_size := d.entry_size, entry := (data.drop d.entry).take d.entry_size,
    num_shaders := d.num_shaders, shaders := d.shaders.map (deref_code data) }

/-- The blob with the compute-only fields zero, as the graphics loader leaves them. -/
def graphics_part (b : SDL_SHADER_Blob (List Nat)) : SDL_SHADER_Blob (List Nat) :=
  { b with num_storage_buffers_readonly := 0, num_storage_textures_readonly := 0,
           thread_x := 0, thread_y := 0, thread_z := 0 }

/-- The C string that starts with the given bytes: the characters before the first NUL,
`none` when there is no NUL. -/
def c_string_of : List Nat → Option (List Nat)
  | [] => none
  | b :: bs => if b = 0 then some [] else (c_string_of bs).map (b :: ·)

/-- The C string at offset `p` of the buffer, `none` when it is not terminated inside the
buffer. -/
def c_string (data : List Nat) (p : Nat) : Option (List Nat) := c_string_of (data.drop p)

/-- The string `info.entrypoint` points to. -/
def entry_string (data : List Nat) : Entrypoint → Option (List Nat)
  | .main0 => some str_main0
  | .buffer p => c_string data p

/-- The variant `s` is at the smallest index `i` of `shaders` whose format shares a bit
with the mask `formats`. -/
def FirstMatch (formats : Nat) (shaders : List (SDL_SHADER_Code Nat)) (i : Nat)
    (s : SDL_SHADER_Code Nat) : Prop :=
  shaders[i]? = some s ∧ formats &&& s.format ≠ 0 ∧
    ∀ j t, j < i → shaders[j]? = some t → formats &&& t.format = 0

/-! ## `compile` (main.c) -/

/-- `SDL_SHADER_LANG_UNKNOWN`. -/
def SDL_SHADER_LANG_UNKNOWN : Nat := 0

/-- `SDL_SHADER_LANG_GLSL`. -/
def SDL_SHADER_LANG_GLSL : Nat := 1

/-- `SDL_SHADER_LANG_SPIRV`. -/
def SDL_SHADER_LANG_SPIRV : Nat := 2

/-- `SDL_SHADER_LANG_HLSL`. -/
def SDL_SHADER_LANG_HLSL : Nat := 3

/-- `SDL_ShaderCross_GraphicsShaderMetadata` of SDL_shadercross, the fields of
`resource_info` that `compile` reads. -/
structure SDL_ShaderCross_GraphicsShaderMetadata where
  num_samplers : Nat
  num_storage_textures : Nat
  num_storage_buffers : Nat
  num_uniform_buffers : Nat
  deriving DecidableEq, Repr

/-- `SDL_ShaderCross_ComputePipelineMetadata` of SDL_shadercross. -/
structure SDL_ShaderCross_ComputePipelineMetadata where
  num_samplers : Nat
  num_readonly_storage_textures : Nat
  num_readonly_storage_buffers : Nat
  num_readwrite_storage_textures : Nat
  num_readwrite_storage_buffers : Nat
  num_uniform_buffers : Nat
  threadcount_x : Nat
  threadcount_y : Nat
  threadcount_z : Nat
  deriving DecidableEq, Repr

/-- `SDL_ShaderCross_SPIRV_Info`, the fields `compile` sets. `shader_stage` is `none` while
the variable `stage` is not initialised (a `type` outside the three enumerators). -/
structure SDL_ShaderCross_SPIRV_Info where
  bytecode : List Nat
  bytecode_size : Nat
  entrypoint : List Nat
  shader_stage : Option Nat
  deriving DecidableEq, Repr

/-- The external compilers, translators and the reflector `compile` calls. A returned
pointer is `none` for `NULL` and the object it points to otherwise; a returned C string is
given by its characters, without the terminating NUL. -/
structure Toolchain where
  /-- `shaderc_compile_into_spv(compiler, code, code_size, kind, filename, entry, options)`:
  the bytes of the result when its status is success, `none` otherwise -/
  shaderc_compile_into_spv : List Nat → Option Nat → List Nat → List Nat → Option (List Nat)
  /-- `SDL_ShaderCross_CompileSPIRVFromHLSL` on `source`, `entrypoint`, `shader_stage` -/
  SDL_ShaderCross_CompileSPIRVFromHLSL : List Nat → List Nat → Option Nat → Option (List Nat)
  SDL_ShaderCross_ReflectComputeSPIRV : List Nat →
    Option SDL_ShaderCross_ComputePipelineMetadata
  SDL_ShaderCross_ReflectGraphicsSPIRV : List Nat →
    Option SDL_ShaderCross_GraphicsShaderMetadata
  SDL_ShaderCross_CompileDXILFromSPIRV : SDL_ShaderCross_SPIRV_Info → Option (List Nat)
  SDL_ShaderCross_CompileDXBCFromSPIRV : SDL_ShaderCross_SPIRV_Info → Option (List Nat)
  SDL_ShaderCross_TranspileMSLFromSPIRV : SDL_ShaderCross_SPIRV_Info → Option (List Nat)

/-- `SDL_strlen` on the characters of a C string: the number of characters before the
first NUL. -/
def SDL_strlen (s : List Nat) : Nat := (s.takeWhile (· ≠ 0)).length

/-- `SDL_strlen(ptr)` for a pointer that may be `NULL`: SDL3 reads `*ptr` without a test. -/
def SDL_strlen_ptr (ptr : Option (List Nat)) : Except Fault Nat :=
  match ptr with
  | none => .error .null_deref
  | some s => .ok (SDL_strlen s)

/-- The object a C string pointer refers to: the characters and the terminating NUL. -/
def c_object (s : List Nat) : List Nat := s ++ [0]

/-- `formats &= ~bit` on a `Uint32`. -/
def clear_format (formats bit : Nat) : Nat := formats &&& (bit ^^^ 0xFFFFFFFF)

/-- The variable `stage` of `compile` (lines 173 to 185), with the enumerators of
`SDL_ShaderCross_ShaderStage` in their order; `none` while it is not initialised. -/
def compile_stage (type : Nat) : Option Nat :=
  if type = SDL_SHADER_TYPE_VERTEX then some 0
  else if type = SDL_SHADER_TYPE_FRAGMENT then some 1
  else if type = SDL_SHADER_TYPE_COMPUTE then some 2
  else none

/-- The part of `compile` that obtains the SPIR-V (lines 187 to 252): the pointer `spirv`,
`none` for `NULL`. For GLSL and HLSL the front-end compiler is called; otherwise the input
is copied. -/
def compile_spirv (tc : Toolchain) (code : List Nat) (type lang : Nat)
    (entry filename : List Nat) : Option (List Nat) :=
  if lang = SDL_SHADER_LANG_GLSL then
    let kind : Option Nat :=
      if type = SDL_SHADER_TYPE_VERTEX then some 0
      else if type = SDL_SHADER_TYPE_FRAGMENT then some 1
      else if type = SDL_SHADER_TYPE_COMPUTE then some 2
      else none
    tc.shaderc_compile_into_spv code kind filename entry
  else if lang = SDL_SHADER_LANG_HLSL then
    tc.SDL_ShaderCross_CompileSPIRVFromHLSL code entry (compile_stage type)
  else some code

/-- The structure `spirv_info` of `compile` (lines 262 to 267). -/
def compile_spirv_info (type : Nat) (entry spirv : List Nat) : SDL_ShaderCross_SPIRV_Info :=
  { shader_stage := compile_stage type, bytecode := spirv, bytecode_size := spirv.length,
    entrypoint := entry }

/-- The four blocks `// DXIL`, `// DXBC`, `// MSL`, `// SPIRV` of `compile` (lines 298 to
370): the value of `formats` and the variants stored in `blob.shaders` after them. -/
def compile_variants (tc : Toolchain) (spirv_info : SDL_ShaderCross_SPIRV_Info)
    (spirv : List Nat) (formats : Nat) :
    Except Fault (Nat × List (SDL_SHADER_Code (List Nat))) := do
  let shaders : List (SDL_SHADER_Code (List Nat)) := []
  -- DXIL
  let (formats, shaders) :=
    if formats &&& SDL_GPU_SHADERFORMAT_DXIL ≠ 0 then
      match tc.SDL_ShaderCross_CompileDXILFromSPIRV spirv_info with
      | none => (clear_format formats SDL_GPU_SHADERFORMAT_DXIL, shaders)
      | some c => (formats, shaders ++ [⟨c.length, SDL_GPU_SHADERFORMAT_DXIL, c⟩])
    else (formats, shaders)
  -- DXBC
  let (formats, shaders) :=
    if formats &&& SDL_GPU_SHADERFORMAT_DXBC ≠ 0 then
      match tc.SDL_ShaderCross_CompileDXBCFromSPIRV spirv_info with
      | none => (clear_format formats SDL_GPU_SHADERFORMAT_DXBC, shaders)
      | some c => (formats, shaders ++ [⟨c.length, SDL_GPU_SHADERFORMAT_DXBC, c⟩])
    else (formats, shaders)
  -- MSL
  let (formats, shaders) ←
    if formats &&& SDL_GPU_SHADERFORMAT_MSL ≠ 0 then do
      let c := tc.SDL_ShaderCross_TranspileMSLFromSPIRV spirv_info
      let code_size := (← SDL_strlen_ptr c) + 1
      match c with
      | none => pure (clear_format formats SDL_GPU_SHADERFORMAT_MSL, shaders)
      | some c => pure (formats, shaders ++ [⟨code_size, SDL_GPU_SHADERFORMAT_MSL, c_object c⟩])
    else pure (formats, shaders)
  -- SPIRV
  let shaders :=
    if formats &&& SDL_GPU_SHADERFORMAT_SPIRV ≠ 0 then
      shaders ++ [⟨spirv.length, SDL_GPU_SHADERFORMAT_SPIRV, spirv⟩]
    else shaders
  return (formats, shaders)

/-- The part of `compile` before the call of `encode` (lines 163 to 374): the blob handed
to `encode`, `none` where `compile` returns `NULL` (no SPIR-V was obtained). The result of
a reflection call is used without a test for `NULL`. -/
def compile_blob (tc : Toolchain) (code : List Nat) (type lang formats : Nat)
    (entry filename : List Nat) : Except Fault (Option (SDL_SHADER_Blob (List Nat))) := do
  let entry_size := (SDL_strlen entry + 1) % 2 ^ 32
  match compile_spirv tc code type lang entry filename with
  | none => return none
  | some spirv =>
    let spirv_info := compile_spirv_info type entry spirv
    -- reflection
    let (samplers, ubufs, sbufs, stex, sbufs_ro, stex_ro, tx, ty, tz) ←
      if type = SDL_SHADER_TYPE_COMPUTE then
        match tc.SDL_ShaderCross_ReflectComputeSPIRV spirv with
        | none => throw Fault.null_deref
        | some m =>
          pure (m.num_samplers, m.num_uniform_buffers, m.num_readwrite_storage_buffers,
            m.num_readwrite_storage_textures, m.num_readonly_storage_buffers,
            m.num_readonly_storage_textures, m.threadcount_x, m.threadcount_y,
            m.threadcount_z)
      else
        match tc.SDL_ShaderCross_ReflectGraphicsSPIRV spirv with
        | none => throw Fault.null_deref
        | some m =>
          pure (m.num_samplers, m.num_uniform_buffers, m.num_storage_buffers,
            m.num_storage_textures, 0, 0, 0, 0, 0)
    let (formats, shaders) ← compile_variants tc spirv_info spirv formats
    return some
      { formats := formats, type := type, num_samplers := samplers,
        num_uniform_buffers := ubufs, num_storage_buffers := sbufs,
        num_storage_textures := stex, num_storage_buffers_readonly := sbufs_ro,
        num_storage_textures_readonly := stex_ro, thread_x := tx, thread_y := ty,
        thread_z := tz, entry_size := entry_size, entry := c_object entry,
        num_shaders := shaders.length, shaders := shaders }

/-- `compile` of `main.c`: the returned pointer (`none` for `NULL`, otherwise the bytes
`encode` wrote into the returned buffer) and the value stored in `*size`. -/
def compile (big : Bool) (szt : Nat) (tc : Toolchain) (code : List Nat)
    (type lang formats : Nat) (entry filename : List Nat) :
    Except Fault (Option (List Nat) × Nat) := do
  match ← compile_blob tc code type lang formats entry filename with
  | none => return (none, 0)
  | some blob =>
    let (bin, bin_size) ← encode big szt blob
    return (some bin, bin_size)

/-- The call `SDL_SaveFile(target, bin, bin_size)` of `run` (lines 718 to 725), made when
`bin != NULL`: the `bin_size` bytes saved, `none` for a byte of the buffer that `encode` did
not write (not initialised); the result is `none` when nothing is saved. -/
def run_save (r : Option (List Nat) × Nat) : Option (List (Option Nat)) :=
  match r.1 with
  | none => none
  | some bin => some ((bin.map some ++ List.replicate (r.2 - bin.length) none).take r.2)

/-- Whether the step of `compile` for the format `f` yields a variant once it is taken: the
translator returned a result for DXIL, DXBC and MSL; always for SPIR-V, which is copied. -/
def produced (tc : Toolchain) (spirv_info : SDL_ShaderCross_SPIRV_Info) (f : Nat) : Bool :=
  if f = SDL_GPU_SHADERFORMAT_DXIL then
    (tc.SDL_ShaderCross_CompileDXILFromSPIRV spirv_info).isSome
  else if f = SDL_GPU_SHADERFORMAT_DXBC then
    (tc.SDL_ShaderCross_CompileDXBCFromSPIRV spirv_info).isSome
  else if f = SDL_GPU_SHADERFORMAT_MSL then
    (tc.SDL_ShaderCross_TranspileMSLFromSPIRV spirv_info).isSome
  else true

/-- The bitwise OR of the formats of the variants. -/
def formats_union (shaders : List (SDL_SHADER_Code (List Nat))) : Nat :=
  (shaders.map (·.format)).foldl (· ||| ·) 0

/-- A tool chain whose front ends return the SPIR-V `[3, 2, 35, 7]`, whose reflector
reports one uniform buffer (and thread counts 1, 1, 1), and whose translators return the
given results. -/
def tc_example (dxil dxbc msl : Option (List Nat)) : Toolchain :=
  { shaderc_compile_into_spv := fun _ _ _ _ => some [3, 2, 35, 7],
    SDL_ShaderCross_CompileSPIRVFromHLSL := fun _ _ _ => some [3, 2, 35, 7],
    SDL_ShaderCross_ReflectComputeSPIRV := fun _ => some ⟨0, 0, 0, 0, 0, 1, 1, 1, 1⟩,
    SDL_ShaderCross_ReflectGraphicsSPIRV := fun _ => some ⟨0, 0, 0, 1⟩,
    SDL_ShaderCross_CompileDXILFromSPIRV := fun _ => dxil,
    SDL_ShaderCross_CompileDXBCFromSPIRV := fun _ => dxbc,
    SDL_ShaderCross_TranspileMSLFromSPIRV := fun _ => msl }

/-! ## The command line (main.c): `parse_arg`, `main`, `run` -/

/-- `SDL_PATHTYPE_DIRECTORY` of SDL3 (`SDL_filesystem.h`), the third enumerator of
`SDL_PathType`. -/
def SDL_PATHTYPE_DIRECTORY : Nat := 2

/-- `SDL_PathInfo` of SDL3, the fields the tool reads. -/
structure SDL_PathInfo where
  type : Nat
  modify_time : Int
  deriving DecidableEq, Repr

/-- `struct SDL_SHADER_Input`; a string is the list of its characters (none of them NUL),
each taken to be one `char`: lengths and indices are those of `SDL_strlen` for strings of
one-byte characters. -/
structure SDL_SHADER_Input where
  path : List Char
  base : List Char
  type : Nat
  lang : Nat
  last_modified : Int
  deriving DecidableEq, Repr

/-- `struct SDL_SHADER_Output`. -/
structure SDL_SHADER_Output where
  path : List Char
  folder : Bool
  deriving DecidableEq, Repr

/-- `struct SDL_SHADER_State`; the two vectors are the lists of their elements
(`vector_push` appends, `vector_get` returns `NULL` from the size on). -/
structure SDL_SHADER_State where
  inputs : List SDL_SHADER_Input
  outputs : List SDL_SHADER_Output
  shader_type : Nat
  shader_formats : Nat
  extension : List Char
  entry : List Char
  recompile : Bool
  sync : Bool
  silent : Bool
  is_output : Bool
  is_extension : Bool
  is_entry : Bool
  deriving DecidableEq, Repr

/-- The file system, an external collaborator, in a state of type `W`: the calls of SDL3
the tool makes. `SDL_GlobDirectory` returns the entries (`none` for `NULL`),
`SDL_GetPathInfo` the information (`none` when it returns false), `SDL_LoadFile` the content
(`none` for `NULL`); `SDL_SaveFile` gets the bytes to save, `none` standing for a byte that
was never written, and returns the new state and whether it succeeded. -/
structure FileSystem (W : Type) where
  SDL_GlobDirectory : W → List Char → Option (List (List Char))
  SDL_GetPathInfo : W → List Char → Option SDL_PathInfo
  SDL_LoadFile : W → List Char → Option (List Nat)
  SDL_SaveFile : W → List Char → List (Option Nat) → W × Bool
  SDL_CreateDirectory : W → List Char → W

/-- The character `\`. -/
def backslash : Char := Char.ofNat 92

/-- The apostrophe. -/
def apostrophe : Char := Char.ofNat 39

/-- The language `parse_arg` gives an input, from its path (lines 559 to 576);
`SDL_strcmp(&path[len - n], lit) == 0` holds when the last `n` characters are `lit`. -/
def detect_lang (path : List Char) : Nat :=
  let len := path.length
  if len > 6 ∧ path.drop (len - 5) = ".glsl".toList then SDL_SHADER_LANG_GLSL
  else if len > 6 ∧ path.drop (len - 5) = ".hlsl".toList then SDL_SHADER_LANG_HLSL
  else if len > 5 ∧ path.drop (len - 4) = ".spv".toList then SDL_SHADER_LANG_SPIRV
  else SDL_SHADER_LANG_UNKNOWN

/-- The variable `extension_offset` of `parse_arg` (lines 578 to 587). -/
def extension_offset (lang : Nat) : Int :=
  if lang = SDL_SHADER_LANG_GLSL ∨ lang = SDL_SHADER_LANG_HLSL then 5
  else if lang = SDL_SHADER_LANG_SPIRV then 4
  else 0

/-- The loop of `parse_arg` that finds `filename_start` (lines 602 to 609): the index of
the last `/` or `\` of the first `i` characters, `start` when there is none. -/
def filename_start_loop (path : List Char) : Nat → Nat → Nat
  | 0, start => start
  | i + 1, start =>
    let start := filename_start_loop path i start
    match path[i]? with
    | some c => if c = '/' ∨ c = backslash then i else start
    | none => start

/-- `base = SDL_calloc(base_size, sizeof(char)); SDL_strlcat(base, src, base_size)`: the
string left in the zeroed buffer `base`, the first `base_size - 1` characters of `src`. A
negative `base_size` makes the allocation fail, and `SDL_strlcat` then uses `NULL`. -/
def calloc_strlcat (src : List Char) (base_size : Int) : Except Fault (List Char) :=
  if base_size < 0 then .error .null_deref
  else .ok (src.take (base_size.toNat - 1))

/-- The string at `&input->base[base_size - 6]`, which the type tests of `parse_arg` (lines
616 to 627) compare with `".vert"`, `".frag"`, `".comp"`: the base name from that index
on; the pointer lies in front of the buffer when `base_size < 6`. -/
def base_suffix (base : List Char) (base_size : Int) : Except Fault (List Char) :=
  if base_size - 6 < 0 then .error .out_of_bounds
  else .ok (base.drop (base_size - 6).toNat)

/-- The type `parse_arg` gives an input (lines 556 and 616 to 627): the one of the name's
suffix, else the current `state->shader_type`. -/
def detect_type (shader_type : Nat) (base : List Char) (base_size : Int) :
    Except Fault Nat := do
  let suffix ← base_suffix base base_size
  if suffix = ".vert".toList then return SDL_SHADER_TYPE_VERTEX
  else if suffix = ".frag".toList then return SDL_SHADER_TYPE_FRAGMENT
  else if suffix = ".comp".toList then return SDL_SHADER_TYPE_COMPUTE
  else return shader_type

/-- The loop `// inputs` of `parse_arg` (lines 523 to 631), with `k` iterations left, at
index `i`; `files` is the array `SDL_GlobDirectory` returned. A `return` inside the loop
ends `parse_arg` with the state reached. -/
def parse_inputs {W : Type} (fs : FileSystem W) (w : W) (arg : List Char) (globbed : Bool)
    (files : Option (List (List Char))) : Nat → Nat → SDL_SHADER_State →
    Except Fault SDL_SHADER_State
  | 0, _, state => .ok state
  | k + 1, i, state => do
    let file ←
      if globbed then
        match files with
        | none => throw Fault.null_deref
        | some fl =>
          match fl[i]? with
          | none => throw Fault.out_of_bounds
          | some f => pure f
      else pure []
    let path := if globbed then arg ++ file else arg
    -- skip missing files
    match fs.SDL_GetPathInfo w path with
    | none => return state
    | some info =>
      -- skip directories in a glob
      if globbed ∧ info.type = SDL_PATHTYPE_DIRECTORY then return state
      let len := path.length
      let lang := detect_lang path
      let base_size : Int :=
        if globbed then (file.length : Int) - extension_offset lang + 1
        else (len : Int) - (filename_start_loop path len 0 : Int) - extension_offset lang
      let base ←
        if globbed then calloc_strlcat file base_size
        else calloc_strlcat (path.drop (filename_start_loop path len 0 + 1)) base_size
      let type ← detect_type state.shader_type base base_size
      let input : SDL_SHADER_Input :=
        { path := path, base := base, type := type, lang := lang,
          last_modified := info.modify_time }
      parse_inputs fs w arg globbed files k (i + 1)
        { state with inputs := state.inputs ++ [input] }

/-- `parse_arg` of `main.c`; what it prints is left out. -/
def parse_arg {W : Type} (fs : FileSystem W) (w : W) (state : SDL_SHADER_State)
    (arg : List Char) : Except Fault SDL_SHADER_State :=
  -- main
  if arg = "-h".toList ∨ arg = "--help".toList then .ok state
  else if arg = "-o".toList ∨ arg = "--out".toList ∨ arg = "--output".toList then
    .ok { state with is_output := true }
  else if arg = "-e".toList ∨ arg = "--entry".toList then .ok { state with is_entry := true }
  else if arg = "--extension".toList then .ok { state with is_extension := true }
  else if arg = "--silent".toList then .ok { state with silent := true }
  else if arg = "--recompile".toList then .ok { state with recompile := true }
  else if arg = "--sync-folders".toList then .ok { state with sync := true }
  -- formats
  else if arg = "--spv".toList then
    .ok { state with shader_formats := state.shader_formats ||| SDL_GPU_SHADERFORMAT_SPIRV }
  else if arg = "--msl".toList then
    .ok { state with shader_formats := state.shader_formats ||| SDL_GPU_SHADERFORMAT_MSL }
  else if arg = "--dxil".toList then
    .ok { state with shader_formats := state.shader_formats ||| SDL_GPU_SHADERFORMAT_DXIL }
  else if arg = "--dxbc".toList then
    .ok { state with shader_formats := state.shader_formats ||| SDL_GPU_SHADERFORMAT_DXBC }
  -- type
  else if arg = "-v".toList ∨ arg = "--vert".toList ∨ arg = "--vertex".toList then
    .ok { state with shader_type := SDL_SHADER_TYPE_VERTEX }
  else if arg = "-f".toList ∨ arg = "--frag".toList ∨ arg = "--fragment".toList then
    .ok { state with shader_type := SDL_SHADER_TYPE_FRAGMENT }
  else if arg = "-c".toList ∨ arg = "--comp".toList ∨ arg = "--compute".toList then
    .ok { state with shader_type := SDL_SHADER_TYPE_COMPUTE }
  else if arg.head? = some '-' then .ok state
  -- change the entry point
  else if state.is_entry then .ok { state with is_entry := false, entry := arg }
  -- change the default file extension
  else if state.is_extension then .ok { state with is_extension := false, extension := arg }
  else
    -- check folders
    match arg.getLast? with
    | none => .error .out_of_bounds
    | some last =>
      let is_folder : Bool := last = '/' ∨ last = backslash ∨ last = '.'
      -- outputs
      if state.is_output then
        .ok { state with outputs := state.outputs ++ [{ path := arg, folder := is_folder }] }
      else
        -- find all files in a directory
        let files := if is_folder then fs.SDL_GlobDirectory w arg else none
        let count :=
          if is_folder then
            match files with
            | none => 0
            | some fl => fl.length
          else 1
        parse_inputs fs w arg is_folder files count 0 state

/-- The state `main` starts from (lines 768 to 783). -/
def state_init : SDL_SHADER_State :=
  { inputs := [], outputs := [], shader_type := SDL_SHADER_TYPE_VERTEX, shader_formats := 0,
    extension := ".bin".toList, entry := "main".toList, recompile := false, sync := false,
    silent := false, is_output := false, is_extension := false, is_entry := false }

/-- The loop `for (int i = 1; i < argc; i++) parse_arg(&state, argv[i]);` of `main`, on the
arguments `argv[1]`, ..., from the state `state`. -/
def parse_args {W : Type} (fs : FileSystem W) (w : W) :
    SDL_SHADER_State → List (List Char) → Except Fault SDL_SHADER_State
  | state, [] => .ok state
  | state, arg :: args => do
    let state ← parse_arg fs w state arg
    parse_args fs w state args

/-- The state `main` hands to `run` (lines 768 to 797), for the arguments `argv[1]`, ...:
every argument is parsed, then the four formats are the default where none is set. -/
def main_state {W : Type} (fs : FileSystem W) (w : W) (args : List (List Char)) :
    Except Fault SDL_SHADER_State := do
  let state ← parse_args fs w state_init args
  if state.shader_formats = 0 then
    let formats := 0 ||| SDL_GPU_SHADERFORMAT_SPIRV
    let formats := formats ||| SDL_GPU_SHADERFORMAT_MSL
    let formats := formats ||| SDL_GPU_SHADERFORMAT_DXIL
    let formats := formats ||| SDL_GPU_SHADERFORMAT_DXBC
    return { state with shader_formats := formats }
  else
    return state

/-- What `run` prints and what it asks of the file system, in order. -/
inductive Event where
  /-- `ERROR: no input files.` -/
  | no_input_files
  /-- `ERROR: no output for "path"` -/
  | no_output (path : List Char)
  /-- `ERROR: "path" has unknown file extension.` -/
  | unknown_extension (path : List Char)
  /-- `COMPILING: "path" -> "target".` -/
  | compiling (path target : List Char)
  /-- `ERROR: could not open file "path".` -/
  | could_not_open (path : List Char)
  /-- a call `SDL_SaveFile(target, bin, bin_size)` and whether it succeeded -/
  | save_file (target : List Char) (bytes : List (Option Nat)) (done : Bool)
  /-- a call `SDL_CreateDirectory(dir)` -/
  | create_directory (dir : List Char)
  /-- `ERROR: could not write "target"` -/
  | could_not_write (target : List Char)
  deriving DecidableEq, Repr

/-- The loop of `run` that finds the last slash of `target` (lines 732 to 738): the index
of the last `/` or apostrophe among the first `i` characters, `pos` when there is none. -/
def last_slash_loop (target : List Char) : Nat → Nat → Nat
  | 0, pos => pos
  | i + 1, pos =>
    let pos := last_slash_loop target i pos
    match target[i]? with
    | some c => if c = '/' ∨ c = apostrophe then i else pos
    | none => pos

/-- The loop over the inputs of `run` (lines 648 to 760), with `k` iterations left, at
index `i`; `w` is the state of the file system and `log` what was printed and asked so
far. A string handed to `compile` is the list of the codes of its characters. -/
def run_loop {W : Type} (big : Bool) (szt : Nat) (tc : Toolchain) (fs : FileSystem W)
    (state : SDL_SHADER_State) : Nat → Nat → Nat → W → List Event →
    Except Fault (W × List Event)
  | 0, _, _, w, log => .ok (w, log)
  | k + 1, i, output_index, w, log =>
    match state.inputs[i]? with
    | none => .error .null_deref
    | some input =>
      match state.outputs[output_index]? with
      | none => run_loop big szt tc fs state k (i + 1) output_index w
          (log ++ [.no_output input.path])
      | some output =>
        if input.lang = SDL_SHADER_LANG_UNKNOWN then
          run_loop big szt tc fs state k (i + 1) output_index w
            (log ++ [.unknown_extension input.path])
        else
          match fs.SDL_GetPathInfo w input.path with
          | none => run_loop big szt tc fs state k (i + 1) output_index w log
          | some _ =>
            let target :=
              if output.folder then output.path ++ input.base ++ state.extension
              else output.path
            let output_index := if output.folder then output_index else output_index + 1
            -- skip modified file
            let newer : Bool :=
              match fs.SDL_GetPathInfo w target with
              | some target_info => target_info.modify_time > input.last_modified
              | none => false
            if !state.recompile ∧ newer then
              run_loop big szt tc fs state k (i + 1) output_index w log
            else
              -- print progress
              let log := if !state.silent then log ++ [.compiling input.path target] else log
              match fs.SDL_LoadFile w input.path with
              | none => run_loop big szt tc fs state k (i + 1) output_index w
                  (log ++ [.could_not_open input.path])
              | some code =>
                match compile big szt tc code input.type input.lang state.shader_formats
                    (state.entry.map Char.toNat) (input.path.map Char.toNat) with
                | .error e => .error e
                | .ok r =>
                  match run_save r with
                  | none => run_loop big szt tc fs state k (i + 1) output_index w log
                  | some bytes =>
                    -- create a directory and try again if failed
                    let saved := fs.SDL_SaveFile w target bytes
                    if saved.2 then
                      run_loop big szt tc fs state k (i + 1) output_index saved.1
                        (log ++ [.save_file target bytes true])
                    else
                      let pos := last_slash_loop target target.length 0
                      let dir := target.take pos
                      let w := fs.SDL_CreateDirectory saved.1 dir
                      let again := fs.SDL_SaveFile w target bytes
                      let log := log ++ [.save_file target bytes false, .create_directory dir,
                        .save_file target bytes again.2]
                      let log := if again.2 then log else log ++ [.could_not_write target]
                      run_loop big szt tc fs state k (i + 1) output_index again.1 log

/-- `run` of `main.c`: the state of the file system it leaves and what it printed and
asked of the file system. -/
def run {W : Type} (big : Bool) (szt : Nat) (tc : Toolchain) (fs : FileSystem W)
    (state : SDL_SHADER_State) (w : W) : Except Fault (W × List Event) :=
  -- skip when no inputs are available
  if state.inputs.length = 0 then .ok (w, [.no_input_files])
  else run_loop big szt tc fs state state.inputs.length 0 0 w []

/-- `main` of `main.c`, for the arguments `argv[1]`, ...: the arguments are parsed, the
formats get their default, the command is executed. -/
def main {W : Type} (big : Bool) (szt : Nat) (tc : Toolchain) (fs : FileSystem W)
    (w : W) (args : List (List Char)) : Except Fault (W × List Event) := do
  let state ← main_state fs w args
  run big szt tc fs state w

/-! ## Definitions used by the statements, and example data -/

/-- The descriptor of the graphics loader once the variant `s` is selected, up to the
entry point. -/
def graphics_info (d : SDL_SHADER_Blob Nat) (s : SDL_SHADER_Code Nat) (is_main : Bool) :
    SDL_GPUShaderCreateInfo :=
  { code_size := s.code_size, code := some s.code,
    entrypoint := if is_main then .main0 else .buffer d.entry, format := s.format,
    stage := if d.type = SDL_SHADER_TYPE_FRAGMENT then SDL_GPU_SHADERSTAGE_FRAGMENT
      else SDL_GPU_SHADERSTAGE_VERTEX,
    num_samplers := d.num_samplers, num_storage_textures := d.num_storage_textures,
    num_storage_buffers := d.num_storage_buffers,
    num_uniform_buffers := d.num_uniform_buffers }

/-- The descriptor of the compute loader once the variant `s` is selected, up to the
entry point. -/
def compute_info (d : SDL_SHADER_Blob Nat) (s : SDL_SHADER_Code Nat) (is_main : Bool) :
    SDL_GPUComputePipelineCreateInfo :=
  { code_size := s.code_size, code := some s.code,
    entrypoint := if is_main then .main0 else .buffer d.entry, format := s.format,
    num_samplers := d.num_samplers, num_uniform_buffers := d.num_uniform_buffers,
    num_readwrite_storage_buffers := d.num_storage_buffers,
    num_readwrite_storage_textures := d.num_storage_textures,
    num_readonly_storage_buffers := d.num_storage_buffers_readonly,
    num_readonly_storage_textures := d.num_storage_textures_readonly,
    threadcount_x := d.thread_x, threadcount_y := d.thread_y, threadcount_z := d.thread_z,
    props := 0 }

/-- The bytes of a vertex blob with entry point `"main"`, an MSL variant of three bytes and
a SPIR-V variant of four bytes. -/
def buf_graphics : List Nat :=
  [18, 0, 0, 0, 0, 0, 0, 0, 0, 0, 0, 0, 1, 0, 0, 0, 0, 0, 0, 0, 0, 0, 0, 0, 2, 0, 0, 0,
   5, 0, 0, 0, 109, 97, 105, 110, 0,
   16, 0, 0, 0, 3, 0, 0, 0, 0, 0, 0, 0, 65, 66, 0,
   2, 0, 0, 0, 4, 0, 0, 0, 0, 0, 0, 0, 3, 2, 35, 7]

/-- What the graphics loader decodes from `buf_graphics`. -/
def dec_graphics : SDL_SHADER_Blob Nat :=
  { formats := 18, type := 0, num_samplers := 0, num_uniform_buffers := 1,
    num_storage_buffers := 0, num_storage_textures := 0,
    num_storage_buffers_readonly := 0, num_storage_textures_readonly := 0,
    thread_x := 0, thread_y := 0, thread_z := 0, entry_size := 5, entry := 32,
    num_shaders := 2, shaders := [⟨3, 16, 49⟩, ⟨4, 2, 64⟩] }

/-- The bytes of the same blob as a compute blob, with thread counts 8, 4, 1. -/
def buf_compute : List Nat :=
  [18, 0, 0, 0, 2, 0, 0, 0, 0, 0, 0, 0, 1, 0, 0, 0, 0, 0, 0, 0, 0, 0, 0, 0,
   0, 0, 0, 0, 0, 0, 0, 0, 8, 0, 0, 0, 4, 0, 0, 0, 1, 0, 0, 0, 2, 0, 0, 0,
   5, 0, 0, 0, 109, 97, 105, 110, 0,
   16, 0, 0, 0, 3, 0, 0, 0, 0, 0, 0, 0, 65, 66, 0,
   2, 0, 0, 0, 4, 0, 0, 0, 0, 0, 0, 0, 3, 2, 35, 7]

/-- What the compute loader decodes from `buf_compute`. -/
def dec_compute : SDL_SHADER_Blob Nat :=
  { formats := 18, type := 2, num_samplers := 0, num_uniform_buffers := 1,
    num_storage_buffers := 0, num_storage_textures := 0,
    num_storage_buffers_readonly := 0, num_storage_textures_readonly := 0,
    thread_x := 8, thread_y := 4, thread_z := 1, entry_size := 5, entry := 52,
    num_shaders := 2, shaders := [⟨3, 16, 69⟩, ⟨4, 2, 84⟩] }

/-- The test `compile` leaves out: the reflection call for the stage returned a result. -/
def reflection_ok (tc : Toolchain) (type : Nat) (spirv : List Nat) : Prop :=
  if type = SDL_SHADER_TYPE_COMPUTE then tc.SDL_ShaderCross_ReflectComputeSPIRV spirv ≠ none
  else tc.SDL_ShaderCross_ReflectGraphicsSPIRV spirv ≠ none

instance (tc : Toolchain) (type : Nat) (spirv : List Nat) :
    Decidable (reflection_ok tc type spirv) := by
  unfold reflection_ok
  infer_instance

/-- A device that supports the given formats and accepts every descriptor. -/
def device_example (formats : Nat) : SDL_GPUDevice :=
  { SDL_GetGPUShaderFormats := formats,
    SDL_CreateGPUShader := fun _ _ => some 1,
    SDL_CreateGPUComputePipeline := fun _ _ => some 1 }

/-- A vertex blob with entry point `"main"` and one SPIR-V variant of four bytes. -/
def blob_vertex : SDL_SHADER_Blob (List Nat) :=
  { formats := 2, type := 0, num_samplers := 0, num_uniform_buffers := 1,
    num_storage_buffers := 0, num_storage_textures := 0,
    num_storage_buffers_readonly := 0, num_storage_textures_readonly := 0,
    thread_x := 0, thread_y := 0, thread_z := 0,
    entry_size := 5, entry := [109, 97, 105, 110, 0], num_shaders := 1,
    shaders := [⟨4, 2, [3, 2, 35, 7]⟩] }

/-- A compute blob with entry point `"main"`, an MSL and a SPIR-V variant. -/
def blob_compute : SDL_SHADER_Blob (List Nat) :=
  { formats := 18, type := 2, num_samplers := 1, num_uniform_buffers := 2,
    num_storage_buffers := 3, num_storage_textures := 4,
    num_storage_buffers_readonly := 5, num_storage_textures_readonly := 6,
    thread_x := 8, thread_y := 4, thread_z := 1,
    entry_size := 5, entry := [109, 97, 105, 110, 0], num_shaders := 2,
    shaders := [⟨3, 16, [65, 66, 0]⟩, ⟨4, 2, [3, 2, 35, 7]⟩] }

/-- A device that supports the given formats and rejects every descriptor (both creation
calls return `NULL`). -/
def device_reject (formats : Nat) : SDL_GPUDevice :=
  { SDL_GetGPUShaderFormats := formats,
    SDL_CreateGPUShader := fun _ _ => none,
    SDL_CreateGPUComputePipeline := fun _ _ => none }

/-- A tool chain whose front ends fail and whose reflector returns `NULL`. -/
def tc_front_end_fails : Toolchain :=
  { shaderc_compile_into_spv := fun _ _ _ _ => none,
    SDL_ShaderCross_CompileSPIRVFromHLSL := fun _ _ _ => none,
    SDL_ShaderCross_ReflectComputeSPIRV := fun _ => none,
    SDL_ShaderCross_ReflectGraphicsSPIRV := fun _ => none,
    SDL_ShaderCross_CompileDXILFromSPIRV := fun _ => none,
    SDL_ShaderCross_CompileDXBCFromSPIRV := fun _ => none,
    SDL_ShaderCross_TranspileMSLFromSPIRV := fun _ => none }

/-- The blob with each object cut to the size the blob declares for it. -/
def trim_blob (b : SDL_SHADER_Blob (List Nat)) : SDL_SHADER_Blob (List Nat) :=
  { b with entry := b.entry.take b.entry_size,
           shaders := b.shaders.map fun s => { s with code := s.code.take s.code_size } }

/-- The blob `compile` hands to `encode` for a vertex shader with entry point `"main"` and
the request `MSL | SPIRV`, with the tool chain `tc_example none none (some [65])`. -/
def blob_msl_spirv : SDL_SHADER_Blob (List Nat) :=
  { formats := 18, type := 0, num_samplers := 0, num_uniform_buffers := 1,
    num_storage_buffers := 0, num_storage_textures := 0,
    num_storage_buffers_readonly := 0, num_storage_textures_readonly := 0,
    thread_x := 0, thread_y := 0, thread_z := 0,
    entry_size := 5, entry := [109, 97, 105, 110, 0], num_shaders := 2,
    shaders := [⟨2, 16, [65, 0]⟩, ⟨4, 2, [3, 2, 35, 7]⟩] }

/-- A tool chain whose reflector reports pairwise different counts: for graphics 1 sampler,
2 storage textures, 3 storage buffers, 4 uniform buffers; for compute 1 sampler, 2 and 3
read-only storage textures and buffers, 4 and 5 read-write storage textures and buffers,
6 uniform buffers, thread counts 7, 8, 9. -/
def tc_counts : Toolchain :=
  { shaderc_compile_into_spv := fun _ _ _ _ => some [3, 2, 35, 7],
    SDL_ShaderCross_CompileSPIRVFromHLSL := fun _ _ _ => some [3, 2, 35, 7],
    SDL_ShaderCross_ReflectComputeSPIRV := fun _ => some ⟨1, 2, 3, 4, 5, 6, 7, 8, 9⟩,
    SDL_ShaderCross_ReflectGraphicsSPIRV := fun _ => some ⟨1, 2, 3, 4⟩,
    SDL_ShaderCross_CompileDXILFromSPIRV := fun _ => none,
    SDL_ShaderCross_CompileDXBCFromSPIRV := fun _ => none,
    SDL_ShaderCross_TranspileMSLFromSPIRV := fun _ => some [65] }

/-- The blob `compile` hands to `encode` for a compute shader with entry point `"main"` and
the request `SPIRV`, with the tool chain `tc_counts`. -/
def blob_counts : SDL_SHADER_Blob (List Nat) :=
  { formats := 2, type := 2, num_samplers := 1, num_uniform_buffers := 6,
    num_storage_buffers := 5, num_storage_textures := 4,
    num_storage_buffers_readonly := 3, num_storage_textures_readonly := 2,
    thread_x := 7, thread_y := 8, thread_z := 9,
    entry_size := 5, entry := [109, 97, 105, 110, 0], num_shaders := 1,
    shaders := [⟨4, 2, [3, 2, 35, 7]⟩] }

/-- The format an argument adds to `state->shader_formats`: that of the format flag it
is, 0 for every other argument. -/
def flag_bit (arg : List Char) : Nat :=
  if arg = "--spv".toList then SDL_GPU_SHADERFORMAT_SPIRV
  else if arg = "--msl".toList then SDL_GPU_SHADERFORMAT_MSL
  else if arg = "--dxil".toList then SDL_GPU_SHADERFORMAT_DXIL
  else if arg = "--dxbc".toList then SDL_GPU_SHADERFORMAT_DXBC
  else 0

/-- The union of the formats whose flags are among the arguments. -/
def flag_formats (args : List (List Char)) : Nat :=
  (if "--spv".toList ∈ args then SDL_GPU_SHADERFORMAT_SPIRV else 0) |||
  (if "--msl".toList ∈ args then SDL_GPU_SHADERFORMAT_MSL else 0) |||
  (if "--dxil".toList ∈ args then SDL_GPU_SHADERFORMAT_DXIL else 0) |||
  (if "--dxbc".toList ∈ args then SDL_GPU_SHADERFORMAT_DXBC else 0)

/-- A file system for the examples: the listed paths are regular files with the content
`[3, 2, 35, 7]`, nothing else exists, nothing is a folder, and every save succeeds. -/
def fs_example (files : List (List Char)) : FileSystem Unit :=
  { SDL_GlobDirectory := fun _ _ => none,
    SDL_GetPathInfo := fun _ p => if p ∈ files then some ⟨1, 0⟩ else none,
    SDL_LoadFile := fun _ p => if p ∈ files then some [3, 2, 35, 7] else none,
    SDL_SaveFile := fun _ _ _ => ((), true),
    SDL_CreateDirectory := fun _ _ => () }

/-- A file system for the examples with one folder: `SDL_GlobDirectory` returns `listing`
for `folder` and `NULL` for every other path; the paths of `dirs` are directories, the
paths of `files` regular files with the given modification time and the content
`[3, 2, 35, 7]`; nothing else exists, and every save succeeds. -/
def fs_tree (folder : List Char) (listing : List (List Char)) (dirs : List (List Char))
    (files : List (List Char × Int)) : FileSystem Unit :=
  { SDL_GlobDirectory := fun _ p => if p = folder then some listing else none,
    SDL_GetPathInfo := fun _ p =>
      if p ∈ dirs then some ⟨SDL_PATHTYPE_DIRECTORY, 0⟩
      else (files.lookup p).map fun t => ⟨1, t⟩,
    SDL_LoadFile := fun _ p => if (files.lookup p).isSome then some [3, 2, 35, 7] else none,
    SDL_SaveFile := fun _ _ _ => ((), true),
    SDL_CreateDirectory := fun _ _ => () }

/-- The path, base name and type of each input of a parsed state. -/
def input_names (r : Except Fault SDL_SHADER_State) :
    Except Fault (List (List Char × List Char × Nat)) :=
  r.map fun state => state.inputs.map fun input => (input.path, input.base, input.type)

/-- A blob with the stage value 7, which is none of Vertex, Fragment, Compute, with entry
point `"main"` and one SPIR-V variant of four bytes. -/
def blob_stage7 : SDL_SHADER_Blob (List Nat) :=
  { formats := 2, type := 7, num_samplers := 0, num_uniform_buffers := 1,
    num_storage_buffers := 0, num_storage_textures := 0,
    num_storage_buffers_readonly := 0, num_storage_textures_readonly := 0,
    thread_x := 0, thread_y := 0, thread_z := 0,
    entry_size := 5, entry := [109, 97, 105, 110, 0], num_shaders := 1,
    shaders := [⟨4, 2, [3, 2, 35, 7]⟩] }

/-! # Theorems -/

/-! ## Bytes and byte order: lemmas -/

theorem le_bytes_length (w v : Nat) : (le_bytes w v).length = w := by
  induction w generalizing v with
  | zero => rfl
  | succ w ih => simp [le_bytes, ih]

theorem le_bytes_lt (w v : Nat) : ∀ b ∈ le_bytes w v, b < 256 := by
  induction w generalizing v with
  | zero => intro b hb; simp [le_bytes] at hb
  | succ w ih =>
    intro b hb
    simp only [le_bytes, List.mem_cons] at hb
    rcases hb with rfl | hb
    · exact Nat.mod_lt _ (by decide)
    · exact ih _ b hb

theorem le_value_le_bytes (w v : Nat) : le_value (le_bytes w v) = v % 256 ^ w := by
  induction w generalizing v with
  | zero => simp [le_bytes, le_value, Nat.mod_one]
  | succ w ih =>
    simp only [le_bytes, le_value, ih]
    rw [pow_succ, Nat.mul_comm (256 ^ w) 256, Nat.mod_mul]

theorem le_bytes_le_value (l : List Nat) (h : ∀ b ∈ l, b < 256) :
    le_bytes l.length (le_value l) = l := by
  induction l with
  | nil => rfl
  | cons b bs ih =>
    have hb : b < 256 := h b (List.mem_cons_self _ _)
    have hbs : ∀ x ∈ bs, x < 256 := fun x hx => h x (List.mem_cons_of_mem _ hx)
    simp only [List.length_cons, le_bytes, le_value]
    have h1 : (b + 256 * le_value bs) % 256 = b := by omega
    have h2 : (b + 256 * le_value bs) / 256 = le_value bs := by omega
    rw [h1, h2, ih hbs]

theorem le_bytes_mod (w v : Nat) : le_bytes w (v % 256 ^ w) = le_bytes w v := by
  have h := le_bytes_le_value (le_bytes w v) (le_bytes_lt w v)
  rw [le_bytes_length, le_value_le_bytes] at h
  exact h

/-- On either host, the bytes stored for a `w`-byte value are the little-endian ones. -/
theorem host_bytes_SwapLE (big : Bool) (w v : Nat) :
    host_bytes big w (SDL_SwapLE big w v) = le_bytes w v := by
  cases big
  · simp [host_bytes, SDL_SwapLE]
  · simp only [host_bytes, SDL_SwapLE, SDL_Swap, if_true]
    have hl : (le_bytes w v).reverse.length = w := by simp [le_bytes_length]
    have h := le_bytes_le_value (le_bytes w v).reverse
      (fun b hb => le_bytes_lt w v b (List.mem_reverse.mp hb))
    rw [hl] at h
    rw [h, List.reverse_reverse]

/-- On either host, the value read from bytes below 256 is the little-endian one. -/
theorem SwapLE_host_value (big : Bool) (bs : List Nat) (h : ∀ b ∈ bs, b < 256) :
    SDL_SwapLE big bs.length (host_value big bs) = le_value bs := by
  cases big
  · simp [host_value, SDL_SwapLE]
  · simp only [host_value, SDL_SwapLE, SDL_Swap, if_true]
    have h1 := le_bytes_le_value bs.reverse (fun b hb => h b (List.mem_reverse.mp hb))
    rw [List.length_reverse] at h1
    rw [h1, List.reverse_reverse]

theorem write_le32_eq (big : Bool) (dst : List Nat) (v : Nat) :
    write_le32 big dst v = dst ++ le_bytes 4 v := by
  simp only [write_le32, host_bytes_SwapLE]
  rw [show (2 : Nat) ^ 32 = 256 ^ 4 by norm_num, le_bytes_mod]

theorem write_le64_eq (big : Bool) (dst : List Nat) (v : Nat) :
    write_le64 big dst v = dst ++ le_bytes 8 v := by
  simp only [write_le64, host_bytes_SwapLE]
  rw [show (2 : Nat) ^ 64 = 256 ^ 8 by norm_num, le_bytes_mod]

/-- Reading where the buffer continues with the little-endian bytes of `v`. -/
theorem read_le32_drop (big : Bool) (data : List Nat) (p v : Nat) (suf : List Nat)
    (h : data.drop p = le_bytes 4 v ++ suf) (hv : v < 2 ^ 32) :
    read_le32 big data p = .ok (v, p + 4) ∧ data.drop (p + 4) = suf := by
  have hlen : p + 4 ≤ data.length := by
    have := congrArg List.length h
    simp [le_bytes_length] at this
    omega
  have htake : (data.drop p).take 4 = le_bytes 4 v := by
    rw [h, List.take_left' (le_bytes_length 4 v)]
  constructor
  · simp only [read_le32, load_bytes, hlen, if_true, htake, bind, Except.bind, pure,
      Except.pure]
    have := SwapLE_host_value big (le_bytes 4 v) (le_bytes_lt 4 v)
    rw [le_bytes_length, le_value_le_bytes] at this
    rw [this, Nat.mod_eq_of_lt (by norm_num; omega)]
  · rw [← List.drop_drop, h, List.drop_left' (le_bytes_length 4 v)]

theorem read_le64_drop (big : Bool) (data : List Nat) (p v : Nat) (suf : List Nat)
    (h : data.drop p = le_bytes 8 v ++ suf) (hv : v < 2 ^ 64) :
    read_le64 big data p = .ok (v, p + 8) ∧ data.drop (p + 8) = suf := by
  have hlen : p + 8 ≤ data.length := by
    have := congrArg List.length h
    simp [le_bytes_length] at this
    omega
  have htake : (data.drop p).take 8 = le_bytes 8 v := by
    rw [h, List.take_left' (le_bytes_length 8 v)]
  constructor
  · simp only [read_le64, load_bytes, hlen, if_true, htake, bind, Except.bind, pure,
      Except.pure]
    have := SwapLE_host_value big (le_bytes 8 v) (le_bytes_lt 8 v)
    rw [le_bytes_length, le_value_le_bytes] at this
    rw [this, Nat.mod_eq_of_lt (by norm_num; omega)]
  · rw [← List.drop_drop, h, List.drop_left' (le_bytes_length 8 v)]

/-! ## `encode`: lemmas -/

theorem encode_size_loop_eq (szt : Nat) (shaders : List (SDL_SHADER_Code (List Nat))) :
    ∀ (k i acc : Nat), i + k = shaders.length →
      encode_size_loop szt shaders k i acc = .ok (size_sum szt acc (shaders.drop i)) := by
  intro k
  induction k with
  | zero =>
    intro i acc h
    have : shaders.drop i = [] := List.drop_eq_nil_of_le (by omega)
    simp [encode_size_loop, size_sum, this]
  | succ k ih =>
    intro i acc h
    have hi : i < shaders.length := by omega
    have hd : shaders.drop i = shaders[i] :: shaders.drop (i + 1) :=
      List.drop_eq_getElem_cons hi
    simp only [encode_size_loop, List.getElem?_eq_getElem hi]
    rw [ih (i + 1) _ (by omega), hd]
    rfl

theorem encode_write_loop_eq (big : Bool) (shaders : List (SDL_SHADER_Code (List Nat)))
    (hwf : ∀ s ∈ shaders, s.code_size ≤ s.code.length) :
    ∀ (k i : Nat) (p : List Nat), i + k = shaders.length →
      encode_write_loop big shaders k i p = .ok (p ++ spec_variants (shaders.drop i)) := by
  intro k
  induction k with
  | zero =>
    intro i p h
    have : shaders.drop i = [] := List.drop_eq_nil_of_le (by omega)
    simp [encode_write_loop, spec_variants, this]
  | succ k ih =>
    intro i p h
    have hi : i < shaders.length := by omega
    have hd : shaders.drop i = shaders[i] :: shaders.drop (i + 1) :=
      List.drop_eq_getElem_cons hi
    have hs := hwf shaders[i] (List.getElem_mem hi)
    simp only [encode_write_loop, List.getElem?_eq_getElem hi, SDL_memcpy, hs,
      if_true, bind, Except.bind]
    rw [ih (i + 1) _ (by omega), hd]
    simp only [spec_variants, spec_variant, write_le32_eq, write_le64_eq,
      List.append_assoc]

/-- On a valid blob `encode` returns: it writes the layout of the specification and
reports the size computed by its first part. -/
theorem encode_ok (big : Bool) (szt : Nat) (b : SDL_SHADER_Blob (List Nat))
    (hwf : b.Valid) :
    encode big szt b = .ok (spec_layout b, size_sum szt (size_header szt b) b.shaders) := by
  obtain ⟨he, hn, hs⟩ := hwf
  have h1 := encode_size_loop_eq szt b.shaders b.num_shaders 0
    (size_header szt b) (by omega)
  have hsz : encode_bin_size szt b = .ok (size_sum szt (size_header szt b) b.shaders) := by
    simp only [encode_bin_size, size_header] at h1 ⊢
    simpa using h1
  simp only [encode, hsz, bind, Except.bind, SDL_memcpy, Nat.mul_one, he, if_true]
  rw [encode_write_loop_eq big b.shaders hs b.num_shaders 0 _ (by omega)]
  simp only [pure, Except.pure, List.drop_zero, write_le32_eq, spec_layout, spec_tail,
    spec_compute_fields, SDL_SHADER_TYPE_COMPUTE]
  split <;> simp

/-! ## The decode sequence of the loaders: lemmas -/

theorem decode_shaders_loop_spec (big : Bool) (data : List Nat) :
    ∀ (ss : List (SDL_SHADER_Code (List Nat))) (p : Nat) (acc : List (SDL_SHADER_Code Nat))
      (suf : List Nat),
      (∀ s ∈ ss, s.code_size = s.code.length) →
      (∀ s ∈ ss, s.format < 2 ^ 32 ∧ s.code_size < 2 ^ 64) →
      data.drop p = spec_variants ss ++ suf →
      ∃ ds p', decode_shaders_loop big data ss.length p acc = .ok (p', acc ++ ds) ∧
        ds.map (deref_code data) = ss := by
  intro ss
  induction ss with
  | nil =>
    intro p acc suf _ _ _
    exact ⟨[], p, by simp [decode_shaders_loop], rfl⟩
  | cons s ss ih =>
    intro p acc suf hwf hr hd
    have hs := hwf s (List.mem_cons_self _ _)
    obtain ⟨hf, hc⟩ := hr s (List.mem_cons_self _ _)
    have hd1 : data.drop p = le_bytes 4 s.format ++
        (le_bytes 8 s.code_size ++ (s.code ++ (spec_variants ss ++ suf))) := by
      rw [hd]; simp [spec_variants, spec_variant, hs]
    obtain ⟨r1, hd2⟩ := read_le32_drop big data p s.format _ hd1 hf
    obtain ⟨r2, hd3⟩ := read_le64_drop big data (p + 4) s.code_size _ hd2 hc
    have hd4 : data.drop (p + 4 + 8 + s.code_size) = spec_variants ss ++ suf := by
      rw [← List.drop_drop, hd3, hs, List.drop_left]
    obtain ⟨ds, p', hl, hm⟩ := ih (p + 4 + 8 + s.code_size)
      (acc ++ [⟨s.code_size, s.format, p + 4 + 8⟩]) suf
      (fun x hx => hwf x (List.mem_cons_of_mem _ hx))
      (fun x hx => hr x (List.mem_cons_of_mem _ hx)) hd4
    refine ⟨⟨s.code_size, s.format, p + 4 + 8⟩ :: ds, p', ?_, ?_⟩
    · simp only [List.length_cons, decode_shaders_loop, r1, r2, bind, Except.bind]
      rw [hl]; simp
    · simp only [List.map_cons, hm, deref_code, hd3, hs, List.take_left]
      rw [← hs]

theorem Load_decode_layout (big : Bool) (b : SDL_SHADER_Blob (List Nat)) (tail : List Nat)
    (hwf : b.WellFormed) (hr : b.InRange) (ht : b.type ≠ SDL_SHADER_TYPE_COMPUTE) :
    ∃ d, SDL_SHADER_Load_decode big (spec_layout b ++ tail) = .ok (some d) ∧
      deref_blob (spec_layout b ++ tail) d = graphics_part b := by
  obtain ⟨he, hn, hs⟩ := hwf
  obtain ⟨r1, r2, r3, r4, r5, r6, _, _, _, _, _, r12, r13, rs⟩ := hr
  have ht2 : ¬ b.type = 2 := ht
  generalize hdata : spec_layout b ++ tail = data
  have h0 : data.drop 0 = le_bytes 4 b.formats ++ (le_bytes 4 b.type ++
      (le_bytes 4 b.num_samplers ++ (le_bytes 4 b.num_uniform_buffers ++
        (le_bytes 4 b.num_storage_buffers ++ (le_bytes 4 b.num_storage_textures ++
          (le_bytes 4 b.num_shaders ++ (le_bytes 4 b.entry_size ++
            (b.entry ++ (spec_variants b.shaders ++ tail))))))))) := by
    rw [← hdata]
    simp [spec_layout, spec_tail, ht2, he]
  have hlen : ¬ data.length = 0 := by
    have := congrArg List.length h0
    simp [le_bytes_length] at this
    omega
  obtain ⟨e1, h1⟩ := read_le32_drop big data 0 _ _ h0 r1
  obtain ⟨e2, h2⟩ := read_le32_drop big data _ _ _ h1 r2
  obtain ⟨e3, h3⟩ := read_le32_drop big data _ _ _ h2 r3
  obtain ⟨e4, h4⟩ := read_le32_drop big data _ _ _ h3 r4
  obtain ⟨e5, h5⟩ := read_le32_drop big data _ _ _ h4 r5
  obtain ⟨e6, h6⟩ := read_le32_drop big data _ _ _ h5 r6
  obtain ⟨e7, h7⟩ := read_le32_drop big data _ _ _ h6 r13
  obtain ⟨e8, h8⟩ := read_le32_drop big data _ _ _ h7 r12
  have h9 : data.drop (0 + 4 + 4 + 4 + 4 + 4 + 4 + 4 + 4 + b.entry_size * 1) =
      spec_variants b.shaders ++ tail := by
    rw [← List.drop_drop, h8, Nat.mul_one, he, List.drop_left]
  obtain ⟨ds, p', hl, hm⟩ := decode_shaders_loop_spec big data b.shaders _ [] tail hs rs h9
  rw [← hn] at hl
  refine ⟨{ formats := b.formats, type := b.type, num_samplers := b.num_samplers,
            num_uniform_buffers := b.num_uniform_buffers,
            num_storage_buffers := b.num_storage_buffers,
            num_storage_textures := b.num_storage_textures,
            num_storage_buffers_readonly := 0, num_storage_textures_readonly := 0,
            thread_x := 0, thread_y := 0, thread_z := 0,
            entry_size := b.entry_size, entry := 0 + 4 + 4 + 4 + 4 + 4 + 4 + 4 + 4,
            num_shaders := b.num_shaders, shaders := ds }, ?_, ?_⟩
  · simp only [SDL_SHADER_Load_decode, hlen, if_false, e1, e2, e3, e4, e5, e6, e7, e8, hl,
      ht, bind, Except.bind, pure, Except.pure, List.nil_append]
  · simp only [deref_blob, graphics_part, hm, h8, he, List.take_left]

theorem LoadCompute_decode_layout (big : Bool) (b : SDL_SHADER_Blob (List Nat))
    (tail : List Nat) (hwf : b.WellFormed) (hr : b.InRange)
    (ht : b.type = SDL_SHADER_TYPE_COMPUTE) :
    ∃ d, SDL_SHADER_LoadCompute_decode big (spec_layout b ++ tail) = .ok (some d) ∧
      deref_blob (spec_layout b ++ tail) d = b := by
  obtain ⟨he, hn, hs⟩ := hwf
  obtain ⟨r1, r2, r3, r4, r5, r6, r7, r8, r9, r10, r11, r12, r13, rs⟩ := hr
  have ht2 : b.type = 2 := ht
  generalize hdata : spec_layout b ++ tail = data
  have h0 : data.drop 0 = le_bytes 4 b.formats ++ (le_bytes 4 b.type ++
      (le_bytes 4 b.num_samplers ++ (le_bytes 4 b.num_uniform_buffers ++
        (le_bytes 4 b.num_storage_buffers ++ (le_bytes 4 b.num_storage_textures ++
          (le_bytes 4 b.num_storage_buffers_readonly ++
            (le_bytes 4 b.num_storage_textures_readonly ++
              (le_bytes 4 b.thread_x ++ (le_bytes 4 b.thread_y ++ (le_bytes 4 b.thread_z ++
                (le_bytes 4 b.num_shaders ++ (le_bytes 4 b.entry_size ++
                  (b.entry ++ (spec_variants b.shaders ++ tail)))))))))))))) := by
    rw [← hdata]
    simp [spec_layout, spec_tail, spec_compute_fields, ht2, he]
  have hlen : ¬ data.length = 0 := by
    have := congrArg List.length h0
    simp [le_bytes_length] at this
    omega
  obtain ⟨e1, h1⟩ := read_le32_drop big data 0 _ _ h0 r1
  obtain ⟨e2, h2⟩ := read_le32_drop big data _ _ _ h1 r2
  obtain ⟨e3, h3⟩ := read_le32_drop big data _ _ _ h2 r3
  obtain ⟨e4, h4⟩ := read_le32_drop big data _ _ _ h3 r4
  obtain ⟨e5, h5⟩ := read_le32_drop big data _ _ _ h4 r5
  obtain ⟨e6, h6⟩ := read_le32_drop big data _ _ _ h5 r6
  obtain ⟨e7, h7⟩ := read_le32_drop big data _ _ _ h6 r7
  obtain ⟨e8, h8⟩ := read_le32_drop big data _ _ _ h7 r8
  obtain ⟨e9, h9⟩ := read_le32_drop big data _ _ _ h8 r9
  obtain ⟨e10, h10⟩ := read_le32_drop big data _ _ _ h9 r10
  obtain ⟨e11, h11⟩ := read_le32_drop big data _ _ _ h10 r11
  obtain ⟨e12, h12⟩ := read_le32_drop big data _ _ _ h11 r13
  obtain ⟨e13, h13⟩ := read_le32_drop big data _ _ _ h12 r12
  have h14 : data.drop (0 + 4 + 4 + 4 + 4 + 4 + 4 + 4 + 4 + 4 + 4 + 4 + 4 + 4 +
      b.entry_size * 1) = spec_variants b.shaders ++ tail := by
    rw [← List.drop_drop, h13, Nat.mul_one, he, List.drop_left]
  obtain ⟨ds, p', hl, hm⟩ := decode_shaders_loop_spec big data b.shaders _ [] tail hs rs h14
  rw [← hn] at hl
  refine ⟨{ formats := b.formats, type := b.type, num_samplers := b.num_samplers,
            num_uniform_buffers := b.num_uniform_buffers,
            num_storage_buffers := b.num_storage_buffers,
            num_storage_textures := b.num_storage_textures,
            num_storage_buffers_readonly := b.num_storage_buffers_readonly,
            num_storage_textures_readonly := b.num_storage_textures_readonly,
            thread_x := b.thread_x, thread_y := b.thread_y, thread_z := b.thread_z,
            entry_size := b.entry_size,
            entry := 0 + 4 + 4 + 4 + 4 + 4 + 4 + 4 + 4 + 4 + 4 + 4 + 4 + 4,
            num_shaders := b.num_shaders, shaders := ds }, ?_, ?_⟩
  · simp only [SDL_SHADER_LoadCompute_decode, hlen, if_false, e1, e2, e3, e4, e5, e6, e7, e8,
      e9, e10, e11, e12, e13, hl, ht, bind, Except.bind, pure, Except.pure, List.nil_append,
      ne_eq, not_true_eq_false]
  · simp only [deref_blob, hm, h13, he, List.take_left]
    rw [← he]

/-! ## The container: round trip, layout, size -/

/-- C1 (round trip). For every well-formed blob `b` whose fields fit their C types (of stage
Vertex, Fragment or Compute in particular), on any host byte order of the build tool and of
the loader: `encode` returns, and the decode sequence of the loader for that stage, run on the
bytes `encode` wrote (followed by anything, such as the rest of the saved buffer), returns a
blob that denotes `b` again: same format mask, stage, resource counts, entry size and entry
bytes, variant count and the same variants in the same order (format, size, bytes); the
graphics loader leaves the compute-only fields zero. -/
theorem C1_round_trip (big_tool big_loader : Bool) (szt : Nat)
    (b : SDL_SHADER_Blob (List Nat)) (tail : List Nat)
    (hwf : b.WellFormed) (hr : b.InRange) :
    ∃ bin size, encode big_tool szt b = .ok (bin, size) ∧
      (b.type ≠ SDL_SHADER_TYPE_COMPUTE →
        ∃ d, SDL_SHADER_Load_decode big_loader (bin ++ tail) = .ok (some d) ∧
          deref_blob (bin ++ tail) d = graphics_part b) ∧
      (b.type = SDL_SHADER_TYPE_COMPUTE →
        ∃ d, SDL_SHADER_LoadCompute_decode big_loader (bin ++ tail) = .ok (some d) ∧
          deref_blob (bin ++ tail) d = b) := by
  have hv : b.Valid := ⟨le_of_eq hwf.1, hwf.2.1, fun s hs => le_of_eq (hwf.2.2 s hs)⟩
  refine ⟨_, _, encode_ok big_tool szt b hv, ?_, ?_⟩
  · intro ht
    exact Load_decode_layout big_loader b tail hwf hr ht
  · intro ht
    exact LoadCompute_decode_layout big_loader b tail hwf hr ht

/-- C1, at a vertex blob and at a compute blob. -/
theorem C1_round_trip_witness :
    (∃ bin size, encode false 8 blob_compute = .ok (bin, size) ∧
      (blob_compute.type ≠ SDL_SHADER_TYPE_COMPUTE →
        ∃ d, SDL_SHADER_Load_decode true (bin ++ [7]) = .ok (some d) ∧
          deref_blob (bin ++ [7]) d = graphics_part blob_compute) ∧
      (blob_compute.type = SDL_SHADER_TYPE_COMPUTE →
        ∃ d, SDL_SHADER_LoadCompute_decode true (bin ++ [7]) = .ok (some d) ∧
          deref_blob (bin ++ [7]) d = blob_compute)) :=
  C1_round_trip false true 8 blob_compute [7] (by decide) (by decide)

/-- C2 (byte layout). For every blob whose pointers are valid for the sizes it declares, on
a little-endian and on a big-endian host alike and for any width of `size_t`, `encode`
returns and the bytes it writes from offset 0 on are the layout of the specification:
the six common fields, the five compute-only fields exactly when the stage is Compute (2),
the variant count, `entry_size`, the `entry_size` entry bytes, then per variant in stored
order the format (4 bytes), `code_size` (8 bytes) and the `code_size` bytes of code, every
integer least-significant byte first. -/
theorem C2_byte_layout (big : Bool) (szt : Nat) (b : SDL_SHADER_Blob (List Nat))
    (hv : b.Valid) :
    ∃ size, encode big szt b = .ok (spec_layout b, size) :=
  ⟨_, encode_ok big szt b hv⟩

/-- C2, at a compute blob on a big-endian host. -/
theorem C2_byte_layout_witness :
    ∃ size, encode true 8 blob_compute = .ok (spec_layout blob_compute, size) :=
  C2_byte_layout true 8 blob_compute (by decide)

/-- C3 (exact blob size), evaluated at a vertex blob with entry point `"main"` and one
variant of four bytes: the layout has `32 + 5 + (12 + 4) = 53` bytes and `encode` writes 53
bytes, but it reports (and `run` saves) 54: the last byte saved is one `encode` never
wrote. -/
theorem C3_encode_size_off_by_one :
    (encode false 8 blob_vertex).map (fun r => (r.1.length, r.2)) = .ok (53, 54) ∧
    (spec_layout blob_vertex).length = 32 + blob_vertex.entry_size + (12 + 4) ∧
    (encode false 8 blob_vertex).map
        (fun r => (run_save (some r.1, r.2)).map List.getLast?) = .ok (some (some none)) := by
  refine ⟨by rfl, by rfl, by rfl⟩

/-! ## Selection and the entry point: lemmas -/

theorem decode_shaders_loop_length (big : Bool) (data : List Nat) :
    ∀ (k p : Nat) (acc : List (SDL_SHADER_Code Nat)) (p' : Nat)
      (l : List (SDL_SHADER_Code Nat)),
      decode_shaders_loop big data k p acc = .ok (p', l) → l.length = acc.length + k := by
  intro k
  induction k with
  | zero =>
    intro p acc p' l h
    simp only [decode_shaders_loop, Except.ok.injEq, Prod.mk.injEq] at h
    simp [← h.2]
  | succ k ih =>
    intro p acc p' l h
    simp only [decode_shaders_loop, bind, Except.bind] at h
    split at h
    · exact absurd h (by simp)
    · split at h
      · exact absurd h (by simp)
      · have := ih _ _ _ _ h
        simp at this
        omega

theorem select_loop_eq (formats : Nat) (shaders : List (SDL_SHADER_Code Nat)) :
    ∀ (k i : Nat), i + k = shaders.length →
      select_loop formats shaders k i =
        .ok ((shaders.drop i).find? (fun s => decide (formats &&& s.format ≠ 0))) := by
  intro k
  induction k with
  | zero =>
    intro i h
    have : shaders.drop i = [] := List.drop_eq_nil_of_le (by omega)
    simp [select_loop, this]
  | succ k ih =>
    intro i h
    have hi : i < shaders.length := by omega
    have hd : shaders.drop i = shaders[i] :: shaders.drop (i + 1) :=
      List.drop_eq_getElem_cons hi
    simp only [select_loop, List.getElem?_eq_getElem hi]
    rw [hd, List.find?_cons]
    by_cases hm : formats &&& shaders[i].format ≠ 0
    · simp [hm]
    · simp only [hm, if_false, decide_False]
      exact ih (i + 1) (by omega)

theorem find_first_match (formats : Nat) :
    ∀ (shaders : List (SDL_SHADER_Code Nat)) (i : Nat) (s : SDL_SHADER_Code Nat),
      FirstMatch formats shaders i s →
      shaders.find? (fun s => decide (formats &&& s.format ≠ 0)) = some s := by
  intro shaders
  induction shaders with
  | nil => intro i s h; simp [FirstMatch] at h
  | cons t ts ih =>
    intro i s h
    obtain ⟨h1, h2, h3⟩ := h
    cases i with
    | zero =>
      simp only [List.getElem?_cons_zero, Option.some.injEq] at h1
      subst h1
      simp [List.find?_cons, h2]
    | succ i =>
      have ht : formats &&& t.format = 0 := h3 0 t (by omega) (by simp)
      simp only [List.getElem?_cons_succ] at h1
      rw [List.find?_cons]
      simp only [ht, ne_eq, not_true_eq_false, decide_False]
      exact ih i s ⟨h1, h2, fun j u hj hu => h3 (j + 1) u (by omega) (by simpa using hu)⟩

theorem find_none_no_match (formats : Nat) (shaders : List (SDL_SHADER_Code Nat))
    (h : ∀ s ∈ shaders, formats &&& s.format = 0) :
    shaders.find? (fun s => decide (formats &&& s.format ≠ 0)) = none := by
  rw [List.find?_eq_none]
  intro s hs
  simp [h s hs]

theorem drop_eq_cons {data : List Nat} {p b : Nat} {rest : List Nat}
    (h : data.drop p = b :: rest) : data[p]? = some b ∧ data.drop (p + 1) = rest := by
  constructor
  · have := congrArg (fun l => l[0]?) h
    simpa using this
  · rw [← List.drop_drop, h]; rfl

/-- On a string that is terminated inside the buffer, `SDL_strcmp` does not leave the
buffer and decides equality with the literal. -/
theorem strcmp_eq_c_string (data : List Nat) :
    ∀ (lit : List Nat) (p : Nat) (e : List Nat), (∀ c ∈ lit, c ≠ 0) →
      c_string data p = some e →
      SDL_strcmp_eq data p lit = .ok (decide (e = lit)) := by
  intro lit
  induction lit with
  | nil =>
    intro p e _ he
    unfold c_string at he
    cases hd : data.drop p with
    | nil => rw [hd] at he; simp [c_string_of] at he
    | cons b rest =>
      rw [hd] at he
      obtain ⟨hb, _⟩ := drop_eq_cons hd
      simp only [SDL_strcmp_eq, load_byte, hb, bind, Except.bind, pure, Except.pure]
      by_cases hz : b = 0
      · simp [c_string_of, hz] at he
        simp [hz, ← he]
      · simp only [c_string_of, hz, if_false, Option.map_eq_some'] at he
        obtain ⟨e', _, rfl⟩ := he
        simp [hz]
  | cons c cs ih =>
    intro p e hlit he
    have hc : c ≠ 0 := hlit c (List.mem_cons_self _ _)
    unfold c_string at he
    cases hd : data.drop p with
    | nil => rw [hd] at he; simp [c_string_of] at he
    | cons b rest =>
      rw [hd] at he
      obtain ⟨hb, hrest⟩ := drop_eq_cons hd
      simp only [SDL_strcmp_eq, load_byte, hb, bind, Except.bind, pure, Except.pure]
      by_cases hz : b = 0
      · simp only [c_string_of, hz, if_true, Option.some.injEq] at he
        have hbc : b ≠ c := by rw [hz]; exact fun h => hc h.symm
        simp [hbc, ← he]
      · simp only [c_string_of, hz, if_false, Option.map_eq_some'] at he
        obtain ⟨e', he', rfl⟩ := he
        by_cases hbc : b = c
        · subst hbc
          have := ih (p + 1) e' (fun x hx => hlit x (List.mem_cons_of_mem _ hx))
            (by unfold c_string; rw [hrest]; exact he')
          simp [this]
        · simp [hbc]

theorem Load_decode_num_shaders (big : Bool) (data : List Nat) (d : SDL_SHADER_Blob Nat)
    (h : SDL_SHADER_Load_decode big data = .ok (some d)) :
    d.num_shaders = d.shaders.length := by
  unfold SDL_SHADER_Load_decode at h
  simp only [bind, Except.bind, pure, Except.pure] at h
  repeat' split at h
  all_goals try (simp at h; done)
  rename_i v8 hl
  simp only [Except.ok.injEq, Option.some.injEq] at h
  subst h
  have := decode_shaders_loop_length big data _ _ _ _ _ hl
  simpa using this.symm

theorem LoadCompute_decode_num_shaders (big : Bool) (data : List Nat)
    (d : SDL_SHADER_Blob Nat)
    (h : SDL_SHADER_LoadCompute_decode big data = .ok (some d)) :
    d.num_shaders = d.shaders.length := by
  unfold SDL_SHADER_LoadCompute_decode at h
  simp only [bind, Except.bind, pure, Except.pure] at h
  repeat' split at h
  all_goals try (simp at h; done)
  rename_i v8 hl
  simp only [Except.ok.injEq, Option.some.injEq] at h
  subst h
  have := decode_shaders_loop_length big data _ _ _ _ _ hl
  simpa using this.symm

theorem select_loop_first (formats : Nat) (d : SDL_SHADER_Blob Nat) (i : Nat)
    (s : SDL_SHADER_Code Nat) (hn : d.num_shaders = d.shaders.length)
    (hm : FirstMatch formats d.shaders i s) :
    select_loop formats d.shaders d.num_shaders 0 = .ok (some s) := by
  rw [select_loop_eq formats d.shaders d.num_shaders 0 (by omega), List.drop_zero,
    find_first_match formats d.shaders i s hm]

theorem Load_build_first (formats : Nat) (data : List Nat) (d : SDL_SHADER_Blob Nat)
    (i : Nat) (s : SDL_SHADER_Code Nat) (hn : d.num_shaders = d.shaders.length)
    (hm : FirstMatch formats d.shaders i s) :
    SDL_SHADER_Load_build formats data d =
      (if s.format = SDL_GPU_SHADERFORMAT_MSL then SDL_strcmp_eq data d.entry str_main
        else .ok false).map (fun is_main => some (graphics_info d s is_main)) := by
  by_cases h0 : d.type = 0 <;> by_cases h1 : d.type = 1 <;>
    by_cases hf : s.format = SDL_GPU_SHADERFORMAT_MSL <;>
    simp only [SDL_SHADER_Load_build, select_loop_first formats d i s hn hm, bind,
      Except.bind, pure, Except.pure, graphics_info, SDL_SHADER_TYPE_VERTEX,
      SDL_SHADER_TYPE_FRAGMENT, SDL_GPU_SHADERSTAGE_VERTEX, SDL_GPU_SHADERSTAGE_FRAGMENT,
      Except.map, h0, h1, hf, if_true, if_false] <;>
    (cases SDL_strcmp_eq data d.entry str_main with
      | error e => simp
      | ok r => cases r <;> simp)

theorem LoadCompute_build_first (formats : Nat) (data : List Nat) (d : SDL_SHADER_Blob Nat)
    (i : Nat) (s : SDL_SHADER_Code Nat) (hn : d.num_shaders = d.shaders.length)
    (hm : FirstMatch formats d.shaders i s) :
    SDL_SHADER_LoadCompute_build formats data d =
      (if s.format = SDL_GPU_SHADERFORMAT_MSL then SDL_strcmp_eq data d.entry str_main
        else .ok false).map (fun is_main => some (compute_info d s is_main)) := by
  simp only [SDL_SHADER_LoadCompute_build, select_loop_first formats d i s hn hm, bind,
    Except.bind, pure, Except.pure, compute_info, Except.map]
  by_cases hf : s.format = SDL_GPU_SHADERFORMAT_MSL
  · simp only [hf, if_true]
    cases SDL_strcmp_eq data d.entry str_main with
    | error e => simp
    | ok r => cases r <;> simp
  · simp only [hf, if_false]
    simp

/-! ## The loader: selection and the Metal entry point -/

theorem Load_info_first (big : Bool) (formats : Nat) (data : List Nat)
    (d : SDL_SHADER_Blob Nat) (i : Nat) (s : SDL_SHADER_Code Nat)
    (hd : SDL_SHADER_Load_decode big data = .ok (some d))
    (hm : FirstMatch formats d.shaders i s) :
    SDL_SHADER_Load_info big formats data =
      (if s.format = SDL_GPU_SHADERFORMAT_MSL then SDL_strcmp_eq data d.entry str_main
        else .ok false).map (fun is_main => some (graphics_info d s is_main)) := by
  simp only [SDL_SHADER_Load_info, hd, bind, Except.bind]
  exact Load_build_first formats data d i s (Load_decode_num_shaders big data d hd) hm

theorem LoadCompute_info_first (big : Bool) (formats : Nat) (data : List Nat)
    (d : SDL_SHADER_Blob Nat) (i : Nat) (s : SDL_SHADER_Code Nat)
    (hd : SDL_SHADER_LoadCompute_decode big data = .ok (some d))
    (hm : FirstMatch formats d.shaders i s) :
    SDL_SHADER_LoadCompute_info big formats data =
      (if s.format = SDL_GPU_SHADERFORMAT_MSL then SDL_strcmp_eq data d.entry str_main
        else .ok false).map (fun is_main => some (compute_info d s is_main)) := by
  simp only [SDL_SHADER_LoadCompute_info, hd, bind, Except.bind]
  exact LoadCompute_build_first formats data d i s
    (LoadCompute_decode_num_shaders big data d hd) hm

/-- C4 (first-match selection). For every buffer that a loader decodes to a blob `d` and
every device mask: when `s` is the variant at the smallest index `i` whose format shares a
bit with the mask, the selection loop stops at `s`, and the descriptor the loader hands to
the device has exactly the code pointer, the code size and the format of `s` (so no variant
at a larger index is chosen); the only other outcome is that the comparison of the entry
point with `"main"`, made when the format of `s` is MSL, runs off the buffer. This holds for `SDL_SHADER_Load_IO` and for
`SDL_SHADER_LoadCompute_IO`. -/
theorem C4_first_match (big : Bool) (formats : Nat) (data : List Nat)
    (d : SDL_SHADER_Blob Nat) (i : Nat) (s : SDL_SHADER_Code Nat)
    (hm : FirstMatch formats d.shaders i s) :
    (SDL_SHADER_Load_decode big data = .ok (some d) →
      select_loop formats d.shaders d.num_shaders 0 = .ok (some s) ∧
      ((∃ info, SDL_SHADER_Load_info big formats data = .ok (some info) ∧
        info.code = some s.code ∧ info.code_size = s.code_size ∧ info.format = s.format) ∨
      (s.format = SDL_GPU_SHADERFORMAT_MSL ∧
        ∃ e, SDL_strcmp_eq data d.entry str_main = .error e ∧
          SDL_SHADER_Load_info big formats data = .error e))) ∧
    (SDL_SHADER_LoadCompute_decode big data = .ok (some d) →
      select_loop formats d.shaders d.num_shaders 0 = .ok (some s) ∧
      ((∃ info, SDL_SHADER_LoadCompute_info big formats data = .ok (some info) ∧
        info.code = some s.code ∧ info.code_size = s.code_size ∧ info.format = s.format) ∨
      (s.format = SDL_GPU_SHADERFORMAT_MSL ∧
        ∃ e, SDL_strcmp_eq data d.entry str_main = .error e ∧
          SDL_SHADER_LoadCompute_info big formats data = .error e))) := by
  constructor
  · intro hd
    refine ⟨select_loop_first formats d i s (Load_decode_num_shaders big data d hd) hm, ?_⟩
    rw [Load_info_first big formats data d i s hd hm]
    by_cases hf : s.format = SDL_GPU_SHADERFORMAT_MSL
    · simp only [hf, if_true]
      cases hc : SDL_strcmp_eq data d.entry str_main with
      | error e => exact Or.inr ⟨trivial, e, rfl, rfl⟩
      | ok r => exact Or.inl ⟨_, rfl, rfl, rfl, hf⟩
    · simp only [hf, if_false]
      exact Or.inl ⟨_, rfl, rfl, rfl, rfl⟩
  · intro hd
    refine ⟨select_loop_first formats d i s
      (LoadCompute_decode_num_shaders big data d hd) hm, ?_⟩
    rw [LoadCompute_info_first big formats data d i s hd hm]
    by_cases hf : s.format = SDL_GPU_SHADERFORMAT_MSL
    · simp only [hf, if_true]
      cases hc : SDL_strcmp_eq data d.entry str_main with
      | error e => exact Or.inr ⟨trivial, e, rfl, rfl⟩
      | ok r => exact Or.inl ⟨_, rfl, rfl, rfl, hf⟩
    · simp only [hf, if_false]
      exact Or.inl ⟨_, rfl, rfl, rfl, rfl⟩

/-- C5 (Metal entry-point rule). For every buffer that a loader decodes to a blob `d` whose
entry point is the string `e` (terminated inside the buffer) and in which the variant `s`
is selected: the loader returns a descriptor; its entry point is the literal `"main0"` if
and only if the format of `s` is MSL and `e` is exactly `"main"`; in every other case it
is the pointer to the blob's entry point, unchanged; so the string the descriptor names is
`"main0"` in the first case and `e` otherwise. This holds for both loaders. -/
theorem C5_metal_entry_point (big : Bool) (formats : Nat) (data : List Nat)
    (d : SDL_SHADER_Blob Nat) (i : Nat) (s : SDL_SHADER_Code Nat) (e : List Nat)
    (hm : FirstMatch formats d.shaders i s) (he : c_string data d.entry = some e) :
    (SDL_SHADER_Load_decode big data = .ok (some d) →
      ∃ info, SDL_SHADER_Load_info big formats data = .ok (some info) ∧
        (info.entrypoint = .main0 ↔ s.format = SDL_GPU_SHADERFORMAT_MSL ∧ e = str_main) ∧
        (¬ (s.format = SDL_GPU_SHADERFORMAT_MSL ∧ e = str_main) →
          info.entrypoint = .buffer d.entry) ∧
        entry_string data info.entrypoint =
          some (if s.format = SDL_GPU_SHADERFORMAT_MSL ∧ e = str_main then str_main0
            else e)) ∧
    (SDL_SHADER_LoadCompute_decode big data = .ok (some d) →
      ∃ info, SDL_SHADER_LoadCompute_info big formats data = .ok (some info) ∧
        (info.entrypoint = .main0 ↔ s.format = SDL_GPU_SHADERFORMAT_MSL ∧ e = str_main) ∧
        (¬ (s.format = SDL_GPU_SHADERFORMAT_MSL ∧ e = str_main) →
          info.entrypoint = .buffer d.entry) ∧
        entry_string data info.entrypoint =
          some (if s.format = SDL_GPU_SHADERFORMAT_MSL ∧ e = str_main then str_main0
            else e)) := by
  have hcmp := strcmp_eq_c_string data str_main d.entry e (by decide) he
  constructor
  · intro hd
    rw [Load_info_first big formats data d i s hd hm, hcmp]
    by_cases hf : s.format = SDL_GPU_SHADERFORMAT_MSL <;> by_cases hs : e = str_main <;>
      simp [hf, hs, Except.map, graphics_info, entry_string, he]
  · intro hd
    rw [LoadCompute_info_first big formats data d i s hd hm, hcmp]
    by_cases hf : s.format = SDL_GPU_SHADERFORMAT_MSL <;> by_cases hs : e = str_main <;>
      simp [hf, hs, Except.map, compute_info, entry_string, he]

theorem first_match_second (formats : Nat) (x y : SDL_SHADER_Code Nat)
    (hx : formats &&& x.format = 0) (hy : formats &&& y.format ≠ 0) :
    FirstMatch formats [x, y] 1 y := by
  refine ⟨rfl, hy, ?_⟩
  intro j t hj ht
  have : j = 0 := by omega
  subst this
  simp only [List.getElem?_cons_zero, Option.some.injEq] at ht
  rw [← ht]; exact hx

theorem first_match_head (formats : Nat) (x : SDL_SHADER_Code Nat)
    (l : List (SDL_SHADER_Code Nat)) (hx : formats &&& x.format ≠ 0) :
    FirstMatch formats (x :: l) 0 x :=
  ⟨by simp, hx, fun j _ hj _ => absurd hj (Nat.not_lt_zero j)⟩

/-- C4, at a device that takes SPIR-V only: the second variant is selected, by both
loaders. -/
theorem C4_first_match_witness :
    ((∃ info, SDL_SHADER_Load_info false 2 buf_graphics = .ok (some info) ∧
        info.code = some 64 ∧ info.code_size = 4 ∧ info.format = 2) ∨
      ((2 : Nat) = SDL_GPU_SHADERFORMAT_MSL ∧
        ∃ e, SDL_strcmp_eq buf_graphics 32 str_main = .error e ∧
          SDL_SHADER_Load_info false 2 buf_graphics = .error e)) ∧
    ((∃ info, SDL_SHADER_LoadCompute_info true 2 buf_compute = .ok (some info) ∧
        info.code = some 84 ∧ info.code_size = 4 ∧ info.format = 2) ∨
      ((2 : Nat) = SDL_GPU_SHADERFORMAT_MSL ∧
        ∃ e, SDL_strcmp_eq buf_compute 52 str_main = .error e ∧
          SDL_SHADER_LoadCompute_info true 2 buf_compute = .error e)) :=
  ⟨((C4_first_match false 2 buf_graphics dec_graphics 1 ⟨4, 2, 64⟩
      (first_match_second 2 _ _ (by decide) (by decide))).1 (by rfl)).2,
   ((C4_first_match true 2 buf_compute dec_compute 1 ⟨4, 2, 84⟩
      (first_match_second 2 _ _ (by decide) (by decide))).2 (by rfl)).2⟩

/-- C5, at a device that takes MSL: the first variant is selected and the entry point
`"main"` becomes `"main0"`, in both loaders. -/
theorem C5_metal_entry_point_witness :
    (∃ info, SDL_SHADER_Load_info false 16 buf_graphics = .ok (some info) ∧
        (info.entrypoint = .main0 ↔
          (16 : Nat) = SDL_GPU_SHADERFORMAT_MSL ∧ str_main = str_main) ∧
        (¬ ((16 : Nat) = SDL_GPU_SHADERFORMAT_MSL ∧ str_main = str_main) →
          info.entrypoint = .buffer 32) ∧
        entry_string buf_graphics info.entrypoint =
          some (if (16 : Nat) = SDL_GPU_SHADERFORMAT_MSL ∧ str_main = str_main
            then str_main0 else str_main)) ∧
    (∃ info, SDL_SHADER_LoadCompute_info true 16 buf_compute = .ok (some info) ∧
        (info.entrypoint = .main0 ↔
          (16 : Nat) = SDL_GPU_SHADERFORMAT_MSL ∧ str_main = str_main) ∧
        (¬ ((16 : Nat) = SDL_GPU_SHADERFORMAT_MSL ∧ str_main = str_main) →
          info.entrypoint = .buffer 52) ∧
        entry_string buf_compute info.entrypoint =
          some (if (16 : Nat) = SDL_GPU_SHADERFORMAT_MSL ∧ str_main = str_main
            then str_main0 else str_main)) :=
  ⟨(C5_metal_entry_point false 16 buf_graphics dec_graphics 0 ⟨3, 16, 49⟩ str_main
      (first_match_head 16 _ _ (by decide)) (by rfl)).1 (by rfl),
   (C5_metal_entry_point true 16 buf_compute dec_compute 0 ⟨3, 16, 69⟩ str_main
      (first_match_head 16 _ _ (by decide)) (by rfl)).2 (by rfl)⟩

/-! ## `compile`: lemmas -/

theorem and_clear_aux (f a b : Nat) (hab : a ≠ b) (hb : b < 32) :
    (f &&& (2 ^ a ^^^ (2 ^ 32 - 1))) &&& 2 ^ b = f &&& 2 ^ b := by
  apply Nat.eq_of_testBit_eq
  intro i
  simp only [Nat.testBit_and, Nat.testBit_xor, Nat.testBit_two_pow,
    Nat.testBit_two_pow_sub_one]
  by_cases hbi : b = i
  · subst hbi
    simp [hab, hb]
  · simp [hbi]

theorem clear_8_and_4 (f : Nat) : clear_format f 8 &&& 4 = f &&& 4 := by
  simpa [clear_format] using and_clear_aux f 3 2 (by decide) (by decide)

theorem clear_8_and_16 (f : Nat) : clear_format f 8 &&& 16 = f &&& 16 := by
  simpa [clear_format] using and_clear_aux f 3 4 (by decide) (by decide)

theorem clear_8_and_2 (f : Nat) : clear_format f 8 &&& 2 = f &&& 2 := by
  simpa [clear_format] using and_clear_aux f 3 1 (by decide) (by decide)

theorem clear_4_and_16 (f : Nat) : clear_format f 4 &&& 16 = f &&& 16 := by
  simpa [clear_format] using and_clear_aux f 2 4 (by decide) (by decide)

theorem clear_4_and_2 (f : Nat) : clear_format f 4 &&& 2 = f &&& 2 := by
  simpa [clear_format] using and_clear_aux f 2 1 (by decide) (by decide)

theorem compile_variants_order (tc : Toolchain) (info : SDL_ShaderCross_SPIRV_Info)
    (spirv : List Nat) (formats f' : Nat) (l : List (SDL_SHADER_Code (List Nat)))
    (h : compile_variants tc info spirv formats = .ok (f', l)) :
    l.map (·.format) =
      [SDL_GPU_SHADERFORMAT_DXIL, SDL_GPU_SHADERFORMAT_DXBC, SDL_GPU_SHADERFORMAT_MSL,
        SDL_GPU_SHADERFORMAT_SPIRV].filter
        (fun f => decide (formats &&& f ≠ 0) && produced tc info f) := by
  unfold compile_variants at h
  simp only [SDL_GPU_SHADERFORMAT_DXIL, SDL_GPU_SHADERFORMAT_DXBC, SDL_GPU_SHADERFORMAT_MSL,
    SDL_GPU_SHADERFORMAT_SPIRV, produced] at h ⊢
  by_cases h8 : formats &&& 8 = 0 <;> by_cases h4 : formats &&& 4 = 0 <;>
    by_cases h16 : formats &&& 16 = 0 <;> by_cases h2 : formats &&& 2 = 0 <;>
    rcases hd : tc.SDL_ShaderCross_CompileDXILFromSPIRV info with _ | cd <;>
    rcases hb : tc.SDL_ShaderCross_CompileDXBCFromSPIRV info with _ | cb <;>
    rcases hm : tc.SDL_ShaderCross_TranspileMSLFromSPIRV info with _ | cm <;>
    simp [hd, hb, hm, h8, h4, h16, h2, clear_8_and_4, clear_8_and_16, clear_8_and_2,
      clear_4_and_16, clear_4_and_2, SDL_strlen_ptr, bind, Except.bind, pure,
      Except.pure] at h <;>
    (obtain ⟨-, rfl⟩ := h) <;>
    simp [h8, h4, h16, h2, List.filter]

theorem compile_variants_mask (tc : Toolchain) (info : SDL_ShaderCross_SPIRV_Info)
    (spirv : List Nat) (formats f' : Nat) (l : List (SDL_SHADER_Code (List Nat)))
    (h30 : formats &&& 30 = formats)
    (h : compile_variants tc info spirv formats = .ok (f', l)) :
    f' = formats_union l := by
  have hle : formats ≤ 30 := by rw [← h30]; exact Nat.and_le_right
  unfold compile_variants at h
  simp only [SDL_GPU_SHADERFORMAT_DXIL, SDL_GPU_SHADERFORMAT_DXBC, SDL_GPU_SHADERFORMAT_MSL,
    SDL_GPU_SHADERFORMAT_SPIRV] at h
  interval_cases formats <;> simp +decide at h30 <;>
    rcases hd : tc.SDL_ShaderCross_CompileDXILFromSPIRV info with _ | cd <;>
    rcases hb : tc.SDL_ShaderCross_CompileDXBCFromSPIRV info with _ | cb <;>
    rcases hm : tc.SDL_ShaderCross_TranspileMSLFromSPIRV info with _ | cm <;>
    simp +decide [hd, hb, hm, clear_format, SDL_strlen_ptr, bind, Except.bind, pure,
      Except.pure] at h <;>
    (obtain ⟨rfl, rfl⟩ := h) <;>
    simp +decide [formats_union]

theorem strlen_le (c : List Nat) : SDL_strlen c ≤ c.length :=
  (List.takeWhile_sublist _).length_le

theorem compile_variants_valid (tc : Toolchain) (info : SDL_ShaderCross_SPIRV_Info)
    (spirv : List Nat) (formats f' : Nat) (l : List (SDL_SHADER_Code (List Nat)))
    (h : compile_variants tc info spirv formats = .ok (f', l)) :
    ∀ s ∈ l, s.code_size ≤ s.code.length := by
  have hstr : ∀ c : List Nat, SDL_strlen c + 1 ≤ (c_object c).length := by
    intro c
    have := strlen_le c
    simp only [c_object, List.length_append, List.length_singleton]
    omega
  unfold compile_variants at h
  by_cases h8 : formats &&& SDL_GPU_SHADERFORMAT_DXIL = 0 <;>
    rcases hd : tc.SDL_ShaderCross_CompileDXILFromSPIRV info with _ | cd <;>
    simp only [h8, hd, ne_eq, not_true_eq_false, not_false_eq_true, if_true, if_false] at h <;>
    split at h <;>
    rcases hb : tc.SDL_ShaderCross_CompileDXBCFromSPIRV info with _ | cb <;>
    simp only [hb] at h <;>
    split at h <;>
    rcases hm : tc.SDL_ShaderCross_TranspileMSLFromSPIRV info with _ | cm <;>
    simp only [hm, SDL_strlen_ptr, bind, Except.bind, pure, Except.pure] at h <;>
    (try split at h) <;>
    simp at h <;>
    (obtain ⟨-, rfl⟩ := h) <;>
    simp [hstr]

theorem compile_blob_some (tc : Toolchain) (code : List Nat) (type lang formats : Nat)
    (entry filename : List Nat) (b : SDL_SHADER_Blob (List Nat))
    (h : compile_blob tc code type lang formats entry filename = .ok (some b)) :
    ∃ spirv, compile_spirv tc code type lang entry filename = some spirv ∧
      compile_variants tc (compile_spirv_info type entry spirv) spirv formats =
        .ok (b.formats, b.shaders) ∧
      b.num_shaders = b.shaders.length ∧ b.entry = c_object entry ∧
      b.entry_size = (SDL_strlen entry + 1) % 2 ^ 32 ∧ b.type = type := by
  unfold compile_blob at h
  simp only [bind, Except.bind, pure, Except.pure] at h
  split at h
  · simp at h
  · rename_i spirv hs
    refine ⟨spirv, hs, ?_⟩
    repeat' split at h
    all_goals try (simp at h; done)
    all_goals
      simp only [Except.ok.injEq, Option.some.injEq] at h
      subst h
      exact ⟨by assumption, rfl, rfl, rfl, rfl⟩

theorem compile_blob_valid (tc : Toolchain) (code : List Nat) (type lang formats : Nat)
    (entry filename : List Nat) (b : SDL_SHADER_Blob (List Nat))
    (h : compile_blob tc code type lang formats entry filename = .ok (some b)) :
    b.Valid := by
  obtain ⟨spirv, _, hv, hn, he, hes, _⟩ := compile_blob_some _ _ _ _ _ _ _ _ h
  refine ⟨?_, hn, compile_variants_valid _ _ _ _ _ _ hv⟩
  rw [he, hes]
  have := strlen_le entry
  have h2 := Nat.mod_le (SDL_strlen entry + 1) (2 ^ 32)
  simp only [c_object, List.length_append, List.length_singleton]
  omega

theorem compile_variants_ok (tc : Toolchain) (info : SDL_ShaderCross_SPIRV_Info)
    (spirv : List Nat) (formats : Nat)
    (hm : formats &&& SDL_GPU_SHADERFORMAT_MSL ≠ 0 →
      tc.SDL_ShaderCross_TranspileMSLFromSPIRV info ≠ none) :
    ∃ f' l, compile_variants tc info spirv formats = .ok (f', l) := by
  unfold compile_variants
  simp only [SDL_GPU_SHADERFORMAT_DXIL, SDL_GPU_SHADERFORMAT_DXBC, SDL_GPU_SHADERFORMAT_MSL,
    SDL_GPU_SHADERFORMAT_SPIRV] at hm ⊢
  by_cases h8 : formats &&& 8 = 0 <;> by_cases h4 : formats &&& 4 = 0 <;>
    by_cases h16 : formats &&& 16 = 0 <;>
    rcases hd : tc.SDL_ShaderCross_CompileDXILFromSPIRV info with _ | cd <;>
    rcases hb : tc.SDL_ShaderCross_CompileDXBCFromSPIRV info with _ | cb <;>
    rcases hmsl : tc.SDL_ShaderCross_TranspileMSLFromSPIRV info with _ | cm <;>
    simp [hd, hb, hmsl, h8, h4, h16, clear_8_and_4, clear_8_and_16,
      clear_4_and_16, SDL_strlen_ptr, bind, Except.bind, pure, Except.pure] <;>
    simp [hmsl, h16] at hm

theorem compile_variants_msl (tc : Toolchain) (info : SDL_ShaderCross_SPIRV_Info)
    (spirv : List Nat) (formats f' : Nat) (l : List (SDL_SHADER_Code (List Nat)))
    (h16 : formats &&& SDL_GPU_SHADERFORMAT_MSL ≠ 0)
    (h : compile_variants tc info spirv formats = .ok (f', l)) :
    tc.SDL_ShaderCross_TranspileMSLFromSPIRV info ≠ none := by
  unfold compile_variants at h
  simp only [SDL_GPU_SHADERFORMAT_DXIL, SDL_GPU_SHADERFORMAT_DXBC, SDL_GPU_SHADERFORMAT_MSL,
    SDL_GPU_SHADERFORMAT_SPIRV] at h h16
  by_cases h8 : formats &&& 8 = 0 <;> by_cases h4 : formats &&& 4 = 0 <;>
    rcases hd : tc.SDL_ShaderCross_CompileDXILFromSPIRV info with _ | cd <;>
    rcases hb : tc.SDL_ShaderCross_CompileDXBCFromSPIRV info with _ | cb <;>
    rcases hm : tc.SDL_ShaderCross_TranspileMSLFromSPIRV info with _ | cm <;>
    simp [hd, hb, hm, h8, h4, h16, clear_8_and_4, clear_8_and_16,
      clear_4_and_16, SDL_strlen_ptr, bind, Except.bind, pure, Except.pure] at h ⊢

theorem compile_blob_ok (tc : Toolchain) (code : List Nat) (type lang formats : Nat)
    (entry filename spirv : List Nat)
    (hs : compile_spirv tc code type lang entry filename = some spirv)
    (hr : reflection_ok tc type spirv)
    (hm : formats &&& SDL_GPU_SHADERFORMAT_MSL ≠ 0 →
      tc.SDL_ShaderCross_TranspileMSLFromSPIRV (compile_spirv_info type entry spirv) ≠ none) :
    ∃ b, compile_blob tc code type lang formats entry filename = .ok (some b) := by
  obtain ⟨f', l, hv⟩ := compile_variants_ok tc (compile_spirv_info type entry spirv) spirv
    formats hm
  unfold compile_blob
  unfold reflection_ok at hr
  simp only [hs, bind, Except.bind, pure, Except.pure, hv]
  by_cases ht : type = SDL_SHADER_TYPE_COMPUTE
  · simp only [ht, if_true] at hr ⊢
    rcases hc : tc.SDL_ShaderCross_ReflectComputeSPIRV spirv with _ | m
    · exact absurd hc hr
    · exact ⟨_, rfl⟩
  · simp only [ht, if_false] at hr ⊢
    rcases hc : tc.SDL_ShaderCross_ReflectGraphicsSPIRV spirv with _ | m
    · exact absurd hc hr
    · exact ⟨_, rfl⟩

theorem compile_of_blob (big : Bool) (szt : Nat) (tc : Toolchain) (code : List Nat)
    (type lang formats : Nat) (entry filename : List Nat) (b : SDL_SHADER_Blob (List Nat))
    (h : compile_blob tc code type lang formats entry filename = .ok (some b)) :
    compile big szt tc code type lang formats entry filename =
      .ok (some (spec_layout b), size_sum szt (size_header szt b) b.shaders) := by
  have hv := compile_blob_valid _ _ _ _ _ _ _ _ h
  simp only [compile, h, encode_ok big szt b hv, bind, Except.bind, pure, Except.pure]

theorem run_save_some (bin : List Nat) (size : Nat) : run_save (some bin, size) ≠ none := by
  simp [run_save]

/-! ## `compile`: the declared mask, failures, the order of the variants -/

/-- C7 (partial backend failure), evaluated where it fails: with `MSL | SPIRV` requested and
the MSL translator returning `NULL`, `compile` hands the `NULL` to `SDL_strlen` before it
tests it, and does not return; with `DXIL | SPIRV` requested and the DXIL translator
failing, it does what the claim says (mask `SPIRV`, one variant, SPIR-V). -/
theorem C7_msl_failure_uses_null :
    compile false 8 (tc_example none none none) [3, 2, 35, 7] SDL_SHADER_TYPE_VERTEX
        SDL_SHADER_LANG_SPIRV (SDL_GPU_SHADERFORMAT_MSL ||| SDL_GPU_SHADERFORMAT_SPIRV)
        str_main [] = .error .null_deref ∧
    (compile_blob (tc_example none none none) [3, 2, 35, 7] SDL_SHADER_TYPE_VERTEX
        SDL_SHADER_LANG_SPIRV (SDL_GPU_SHADERFORMAT_DXIL ||| SDL_GPU_SHADERFORMAT_SPIRV)
        str_main []).map (Option.map fun b => (b.formats, b.shaders.map (·.format))) =
      .ok (some (SDL_GPU_SHADERFORMAT_SPIRV, [SDL_GPU_SHADERFORMAT_SPIRV])) :=
  ⟨rfl, rfl⟩

/-- C8, as stated, fails: with `DXIL | DXBC` requested and both translators failing,
`compile` obtains the SPIR-V, produces no variant, and still returns an encoded blob (of
zero variants, declared mask 0), which `run` saves. -/
theorem C8_counterexample :
    ∃ b bin size,
      compile_blob (tc_example none none none) [3, 2, 35, 7] SDL_SHADER_TYPE_VERTEX
        SDL_SHADER_LANG_SPIRV (SDL_GPU_SHADERFORMAT_DXIL ||| SDL_GPU_SHADERFORMAT_DXBC)
        str_main [] = .ok (some b) ∧
      b.shaders = [] ∧ b.num_shaders = 0 ∧ b.formats = 0 ∧
      compile false 8 (tc_example none none none) [3, 2, 35, 7] SDL_SHADER_TYPE_VERTEX
        SDL_SHADER_LANG_SPIRV (SDL_GPU_SHADERFORMAT_DXIL ||| SDL_GPU_SHADERFORMAT_DXBC)
        str_main [] = .ok (some bin, size) ∧
      run_save (some bin, size) ≠ none :=
  ⟨_, _, _, rfl, rfl, rfl, rfl, rfl, by decide⟩

/-- C8 (total backend failure), amended. `compile` returns no blob (`NULL`, size 0, nothing
saved) when no SPIR-V is obtained. When the SPIR-V is obtained (and the reflection returns
a result, and the MSL translator does not fail on a request for MSL), `compile` returns an
encoded blob, which `run` saves, whatever the number of variants: also when no requested
format is produced, in which case the blob has no variant. -/
theorem C8_blob_iff_spirv (big : Bool) (szt : Nat) (tc : Toolchain) (code : List Nat)
    (type lang formats : Nat) (entry filename : List Nat) :
    (compile_spirv tc code type lang entry filename = none →
      compile big szt tc code type lang formats entry filename = .ok (none, 0) ∧
      run_save (none, 0) = none) ∧
    (∀ spirv, compile_spirv tc code type lang entry filename = some spirv →
      reflection_ok tc type spirv →
      (formats &&& SDL_GPU_SHADERFORMAT_MSL ≠ 0 →
        tc.SDL_ShaderCross_TranspileMSLFromSPIRV (compile_spirv_info type entry spirv)
          ≠ none) →
      ∃ b bin size,
        compile_blob tc code type lang formats entry filename = .ok (some b) ∧
        compile big szt tc code type lang formats entry filename = .ok (some bin, size) ∧
        run_save (some bin, size) ≠ none ∧
        ((∀ f ∈ [SDL_GPU_SHADERFORMAT_DXIL, SDL_GPU_SHADERFORMAT_DXBC,
            SDL_GPU_SHADERFORMAT_MSL, SDL_GPU_SHADERFORMAT_SPIRV],
            ¬ (formats &&& f ≠ 0 ∧ produced tc (compile_spirv_info type entry spirv) f)) →
          b.shaders = [] ∧ b.num_shaders = 0)) := by
  constructor
  · intro hs
    refine ⟨?_, rfl⟩
    simp [compile, compile_blob, hs, bind, Except.bind, pure, Except.pure]
  · intro spirv hs hr hm
    obtain ⟨b, hb⟩ := compile_blob_ok tc code type lang formats entry filename spirv hs hr hm
    refine ⟨b, _, _, hb, compile_of_blob big szt _ _ _ _ _ _ _ b hb, run_save_some _ _, ?_⟩
    intro hnone
    obtain ⟨spirv', hs', hv, hn, _⟩ := compile_blob_some _ _ _ _ _ _ _ _ hb
    rw [hs] at hs'
    cases hs'
    have ho := compile_variants_order _ _ _ _ _ _ hv
    have hnil : [SDL_GPU_SHADERFORMAT_DXIL, SDL_GPU_SHADERFORMAT_DXBC,
        SDL_GPU_SHADERFORMAT_MSL, SDL_GPU_SHADERFORMAT_SPIRV].filter
        (fun f => decide (formats &&& f ≠ 0) &&
          produced tc (compile_spirv_info type entry spirv) f) = [] := by
      rw [List.filter_eq_nil_iff]
      intro f hf
      have := hnone f hf
      simpa using this
    rw [hnil] at ho
    have hsh : b.shaders = [] := List.map_eq_nil_iff.mp ho
    exact ⟨hsh, by rw [hn, hsh]; rfl⟩

/-- C8 amended, at the request `DXIL | DXBC` with both translators failing. -/
theorem C8_blob_iff_spirv_witness :
    ∃ b bin size,
      compile_blob (tc_example none none none) [3, 2, 35, 7] SDL_SHADER_TYPE_VERTEX
        SDL_SHADER_LANG_SPIRV 12 str_main [] = .ok (some b) ∧
      compile false 8 (tc_example none none none) [3, 2, 35, 7] SDL_SHADER_TYPE_VERTEX
        SDL_SHADER_LANG_SPIRV 12 str_main [] = .ok (some bin, size) ∧
      run_save (some bin, size) ≠ none ∧
      ((∀ f ∈ [SDL_GPU_SHADERFORMAT_DXIL, SDL_GPU_SHADERFORMAT_DXBC,
          SDL_GPU_SHADERFORMAT_MSL, SDL_GPU_SHADERFORMAT_SPIRV],
          ¬ (12 &&& f ≠ 0 ∧ produced (tc_example none none none)
            (compile_spirv_info SDL_SHADER_TYPE_VERTEX str_main [3, 2, 35, 7]) f)) →
        b.shaders = [] ∧ b.num_shaders = 0) :=
  (C8_blob_iff_spirv false 8 (tc_example none none none) [3, 2, 35, 7]
    SDL_SHADER_TYPE_VERTEX SDL_SHADER_LANG_SPIRV 12 str_main []).2 [3, 2, 35, 7] rfl
    (by decide) (by decide)

/-- C9 (variant emission order). In every blob `compile` produces, the formats of the
variants are, in this order, those of DXIL, DXBC, MSL, SPIRV that were requested and
produced, whatever the requested mask; in particular a request for `SPIRV | MSL` that
produces a blob yields the declared mask `SPIRV | MSL` and exactly the two variants
(MSL, SPIRV). -/
theorem C9_emission_order (tc : Toolchain) (code : List Nat) (type lang formats : Nat)
    (entry filename : List Nat) (b : SDL_SHADER_Blob (List Nat))
    (h : compile_blob tc code type lang formats entry filename = .ok (some b)) :
    (∃ spirv, compile_spirv tc code type lang entry filename = some spirv ∧
      b.shaders.map (·.format) =
        [SDL_GPU_SHADERFORMAT_DXIL, SDL_GPU_SHADERFORMAT_DXBC, SDL_GPU_SHADERFORMAT_MSL,
          SDL_GPU_SHADERFORMAT_SPIRV].filter
          (fun f => decide (formats &&& f ≠ 0) &&
            produced tc (compile_spirv_info type entry spirv) f)) ∧
    (formats = SDL_GPU_SHADERFORMAT_SPIRV ||| SDL_GPU_SHADERFORMAT_MSL →
      b.formats = SDL_GPU_SHADERFORMAT_SPIRV ||| SDL_GPU_SHADERFORMAT_MSL ∧
      b.shaders.map (·.format) = [SDL_GPU_SHADERFORMAT_MSL, SDL_GPU_SHADERFORMAT_SPIRV]) := by
  obtain ⟨spirv, hs, hv, _⟩ := compile_blob_some _ _ _ _ _ _ _ _ h
  have ho := compile_variants_order _ _ _ _ _ _ hv
  refine ⟨⟨spirv, hs, ho⟩, ?_⟩
  intro hf
  have h30 : formats &&& 30 = formats := by rw [hf]; decide
  have h16 : formats &&& SDL_GPU_SHADERFORMAT_MSL ≠ 0 := by rw [hf]; decide
  have hmask := compile_variants_mask _ _ _ _ _ _ h30 hv
  have hmsl := compile_variants_msl _ _ _ _ _ _ h16 hv
  obtain ⟨cm, hcm⟩ := Option.ne_none_iff_exists'.mp hmsl
  have hl : b.shaders.map (·.format) =
      [SDL_GPU_SHADERFORMAT_MSL, SDL_GPU_SHADERFORMAT_SPIRV] := by
    rw [ho, hf]
    simp +decide [produced, hcm, List.filter, SDL_GPU_SHADERFORMAT_DXIL,
      SDL_GPU_SHADERFORMAT_DXBC, SDL_GPU_SHADERFORMAT_MSL, SDL_GPU_SHADERFORMAT_SPIRV]
  refine ⟨?_, hl⟩
  rw [hmask, formats_union, hl]
  decide

/-- C9, at the request `SPIRV | MSL` on a GLSL vertex shader with entry point `"main"`. -/
theorem C9_emission_order_witness :
    ∃ b, compile_blob (tc_example none none (some [65])) [118] SDL_SHADER_TYPE_VERTEX
        SDL_SHADER_LANG_GLSL 18 str_main [] = .ok (some b) ∧
      b.formats = 18 ∧ b.shaders.map (·.format) = [16, 2] ∧ b.entry_size = 5 :=
  ⟨_, rfl,
    ((C9_emission_order (tc_example none none (some [65])) [118] SDL_SHADER_TYPE_VERTEX
      SDL_SHADER_LANG_GLSL 18 str_main [] _ rfl).2 (by decide)).1,
    ((C9_emission_order (tc_example none none (some [65])) [118] SDL_SHADER_TYPE_VERTEX
      SDL_SHADER_LANG_GLSL 18 str_main [] _ rfl).2 (by decide)).2, rfl⟩

/-! ## The loader on truncated buffers -/

theorem read_le32_cases (big : Bool) (data : List Nat) (p : Nat) :
    (¬ p + 4 ≤ data.length ∧ read_le32 big data p = .error .out_of_bounds) ∨
    (p + 4 ≤ data.length ∧ ∃ v, read_le32 big data p = .ok (v, p + 4)) := by
  by_cases h : p + 4 ≤ data.length
  · right
    exact ⟨h, SDL_SwapLE big 4 (host_value big ((data.drop p).take 4)),
      by simp [read_le32, load_bytes, h, bind, Except.bind, pure, Except.pure]⟩
  · left
    exact ⟨h, by simp [read_le32, load_bytes, h, bind, Except.bind]⟩

theorem Load_decode_short (big : Bool) (data : List Nat) (h0 : 0 < data.length)
    (h32 : data.length < 32) :
    SDL_SHADER_Load_decode big data = .error .out_of_bounds ∨
    (∃ p, read_le32 big data 4 = .ok (SDL_SHADER_TYPE_COMPUTE, p) ∧
      SDL_SHADER_Load_decode big data = .ok none) := by
  have hne : ¬ data.length = 0 := by omega
  unfold SDL_SHADER_Load_decode
  simp only [hne, if_false, bind, Except.bind, pure, Except.pure]
  rcases read_le32_cases big data 0 with ⟨_, e⟩ | ⟨_, v, e⟩ <;> simp only [e]
  · exact Or.inl trivial
  rcases read_le32_cases big data (0 + 4) with ⟨_, e⟩ | ⟨_, v, e⟩ <;> simp only [e]
  · exact Or.inl trivial
  by_cases ht : v = SDL_SHADER_TYPE_COMPUTE
  · simp only [ht, if_true]
    exact Or.inr ⟨_, rfl, trivial⟩
  simp only [ht, if_false]
  rcases read_le32_cases big data (0 + 4 + 4) with ⟨_, e⟩ | ⟨_, v, e⟩ <;> simp only [e]
  · exact Or.inl trivial
  rcases read_le32_cases big data (0 + 4 + 4 + 4) with ⟨_, e⟩ | ⟨_, v, e⟩ <;> simp only [e]
  · exact Or.inl trivial
  rcases read_le32_cases big data (0 + 4 + 4 + 4 + 4) with ⟨_, e⟩ | ⟨_, v, e⟩ <;>
    simp only [e]
  · exact Or.inl trivial
  rcases read_le32_cases big data (0 + 4 + 4 + 4 + 4 + 4) with ⟨_, e⟩ | ⟨_, v, e⟩ <;>
    simp only [e]
  · exact Or.inl trivial
  rcases read_le32_cases big data (0 + 4 + 4 + 4 + 4 + 4 + 4) with ⟨_, e⟩ | ⟨_, v, e⟩ <;>
    simp only [e]
  · exact Or.inl trivial
  rcases read_le32_cases big data (0 + 4 + 4 + 4 + 4 + 4 + 4 + 4) with ⟨_, e⟩ | ⟨hl, v, e⟩
  · simp only [e]
    exact Or.inl trivial
  · omega

theorem LoadCompute_decode_short (big : Bool) (data : List Nat) (h0 : 0 < data.length)
    (h52 : data.length < 52) :
    SDL_SHADER_LoadCompute_decode big data = .error .out_of_bounds ∨
    (∃ t p, read_le32 big data 4 = .ok (t, p) ∧ t ≠ SDL_SHADER_TYPE_COMPUTE ∧
      SDL_SHADER_LoadCompute_decode big data = .ok none) := by
  have hne : ¬ data.length = 0 := by omega
  unfold SDL_SHADER_LoadCompute_decode
  simp only [hne, if_false, bind, Except.bind, pure, Except.pure]
  rcases read_le32_cases big data 0 with ⟨_, e⟩ | ⟨_, v, e⟩ <;> simp only [e]
  · exact Or.inl trivial
  rcases read_le32_cases big data (0 + 4) with ⟨_, e⟩ | ⟨_, v, e⟩ <;> simp only [e]
  · exact Or.inl trivial
  by_cases ht : v = SDL_SHADER_TYPE_COMPUTE
  swap
  · simp only [ne_eq, ht, not_false_eq_true, if_true]
    exact Or.inr ⟨_, _, rfl, ht, trivial⟩
  simp only [ne_eq, ht, not_true_eq_false, if_false]
  rcases read_le32_cases big data (0 + 4 + 4) with ⟨_, e⟩ | ⟨_, v, e⟩ <;> simp only [e]
  · exact Or.inl trivial
  rcases read_le32_cases big data (0 + 4 + 4 + 4) with ⟨_, e⟩ | ⟨_, v, e⟩ <;> simp only [e]
  · exact Or.inl trivial
  rcases read_le32_cases big data (0 + 4 + 4 + 4 + 4) with ⟨_, e⟩ | ⟨_, v, e⟩ <;>
    simp only [e]
  · exact Or.inl trivial
  rcases read_le32_cases big data (0 + 4 + 4 + 4 + 4 + 4) with ⟨_, e⟩ | ⟨_, v, e⟩ <;>
    simp only [e]
  · exact Or.inl trivial
  rcases read_le32_cases big data (0 + 4 + 4 + 4 + 4 + 4 + 4) with ⟨_, e⟩ | ⟨_, v, e⟩ <;>
    simp only [e]
  · exact Or.inl trivial
  rcases read_le32_cases big data (0 + 4 + 4 + 4 + 4 + 4 + 4 + 4) with
    ⟨_, e⟩ | ⟨_, v, e⟩ <;> simp only [e]
  · exact Or.inl trivial
  rcases read_le32_cases big data (0 + 4 + 4 + 4 + 4 + 4 + 4 + 4 + 4) with
    ⟨_, e⟩ | ⟨_, v, e⟩ <;> simp only [e]
  · exact Or.inl trivial
  rcases read_le32_cases big data (0 + 4 + 4 + 4 + 4 + 4 + 4 + 4 + 4 + 4) with
    ⟨_, e⟩ | ⟨_, v, e⟩ <;> simp only [e]
  · exact Or.inl trivial
  rcases read_le32_cases big data (0 + 4 + 4 + 4 + 4 + 4 + 4 + 4 + 4 + 4 + 4) with
    ⟨_, e⟩ | ⟨_, v, e⟩ <;> simp only [e]
  · exact Or.inl trivial
  rcases read_le32_cases big data (0 + 4 + 4 + 4 + 4 + 4 + 4 + 4 + 4 + 4 + 4 + 4) with
    ⟨_, e⟩ | ⟨_, v, e⟩ <;> simp only [e]
  · exact Or.inl trivial
  rcases read_le32_cases big data (0 + 4 + 4 + 4 + 4 + 4 + 4 + 4 + 4 + 4 + 4 + 4 + 4) with
    ⟨_, e⟩ | ⟨hl, v, e⟩
  · simp only [e]
    exact Or.inl trivial
  · omega

theorem Load_IO_of_decode (big : Bool) (device : SDL_GPUDevice) (data : List Nat) :
    (∀ e, SDL_SHADER_Load_decode big data = .error e →
       SDL_SHADER_Load_IO big device data = .error e) ∧
    (SDL_SHADER_Load_decode big data = .ok none →
       SDL_SHADER_Load_IO big device data = .ok none) := by
  constructor
  · intro e h
    simp [ SDL_SHADER_Load_IO, SDL_SHADER_Load_info, h, bind, Except.bind]
  · intro h
    simp [ SDL_SHADER_Load_IO, SDL_SHADER_Load_info, h, bind, Except.bind, pure, Except.pure]

theorem LoadCompute_IO_of_decode (big : Bool) (device : SDL_GPUDevice) (data : List Nat) :
    (∀ e, SDL_SHADER_LoadCompute_decode big data = .error e →
       SDL_SHADER_LoadCompute_IO big device data = .error e) ∧
    (SDL_SHADER_LoadCompute_decode big data = .ok none →
       SDL_SHADER_LoadCompute_IO big device data = .ok none) := by
  constructor
  · intro e h
    simp [ SDL_SHADER_LoadCompute_IO, SDL_SHADER_LoadCompute_info, h, bind, Except.bind]
  · intro h
    simp [ SDL_SHADER_LoadCompute_IO, SDL_SHADER_LoadCompute_info, h, bind, Except.bind, pure,
      Except.pure]

/-- C10 (truncated input), evaluated where it fails. The loaders test no length. On the
four bytes `18 0 0 0` (a header cut after the format mask) neither loader returns absent:
both read the stage at offsets 4 to 7, outside the buffer; the same on the 31 first bytes
of a vertex blob, whose `entry_size` field is incomplete. On the 68 bytes of a vertex blob
cut to 66 bytes (inside the bytecode of the last variant) the graphics loader does not
return absent either: it builds a descriptor whose code, 4 bytes at offset 64, ends past
the buffer, and returns what the device creates from it; the compute loader does the same
on the 88 bytes of a compute blob cut to 86. -/
theorem C10_truncated_input_not_rejected :
    SDL_SHADER_Load_IO false (device_example 2) [18, 0, 0, 0] = .error .out_of_bounds ∧
    SDL_SHADER_LoadCompute_IO false (device_example 2) [18, 0, 0, 0] =
      .error .out_of_bounds ∧
    SDL_SHADER_Load_IO false (device_example 2) (buf_graphics.take 31) =
      .error .out_of_bounds ∧
    buf_graphics.length = 68 ∧ (buf_graphics.take 66).length = 66 ∧
    (SDL_SHADER_Load_info false 2 (buf_graphics.take 66)).map
        (Option.map fun info => (info.code, info.code_size)) = .ok (some (some 64, 4)) ∧
    SDL_SHADER_Load_IO false (device_example 2) (buf_graphics.take 66) = .ok (some 1) ∧
    buf_compute.length = 88 ∧ (buf_compute.take 86).length = 86 ∧
    (SDL_SHADER_LoadCompute_info false 2 (buf_compute.take 86)).map
        (Option.map fun info => (info.code, info.code_size)) = .ok (some (some 84, 4)) ∧
    SDL_SHADER_LoadCompute_IO false (device_example 2) (buf_compute.take 86) =
      .ok (some 1) :=
  ⟨rfl, rfl, rfl, rfl, rfl, rfl, rfl, rfl, rfl, rfl, rfl⟩

/-- The extent of the missing length test on a cut header: a buffer of zero bytes makes
both loaders return `NULL`; on every non-empty buffer that ends before the `entry_size`
field is complete (fewer than 32 bytes for the graphics loader, fewer than 52 for the
compute loader) the loader reads outside the buffer, unless it returns `NULL` before, at
its stage test. -/
theorem Load_IO_short_header (big : Bool) (device : SDL_GPUDevice) (data : List Nat) :
    (data = [] → SDL_SHADER_Load_IO big device data = .ok none ∧
      SDL_SHADER_LoadCompute_IO big device data = .ok none) ∧
    (0 < data.length → data.length < 32 →
      SDL_SHADER_Load_IO big device data = .error .out_of_bounds ∨
      (∃ p, read_le32 big data 4 = .ok (SDL_SHADER_TYPE_COMPUTE, p) ∧
        SDL_SHADER_Load_IO big device data = .ok none)) ∧
    (0 < data.length → data.length < 52 →
      SDL_SHADER_LoadCompute_IO big device data = .error .out_of_bounds ∨
      (∃ t p, read_le32 big data 4 = .ok (t, p) ∧ t ≠ SDL_SHADER_TYPE_COMPUTE ∧
        SDL_SHADER_LoadCompute_IO big device data = .ok none)) := by
  refine ⟨?_, ?_, ?_⟩
  · intro h
    subst h
    exact ⟨rfl, rfl⟩
  · intro h0 h32
    rcases Load_decode_short big data h0 h32 with h | ⟨p, hp, h⟩
    · exact Or.inl ((Load_IO_of_decode big device data).1 _ h)
    · exact Or.inr ⟨p, hp, (Load_IO_of_decode big device data).2 h⟩
  · intro h0 h52
    rcases LoadCompute_decode_short big data h0 h52 with h | ⟨t, p, hp, ht, h⟩
    · exact Or.inl ((LoadCompute_IO_of_decode big device data).1 _ h)
    · exact Or.inr ⟨t, p, hp, ht, (LoadCompute_IO_of_decode big device data).2 h⟩

/-! ## The loader: stage mismatch, no matching variant, rejected descriptors -/

theorem read_stage_ok (big : Bool) (data : List Nat) (t q : Nat)
    (h : read_le32 big data 4 = .ok (t, q)) :
    ¬ data.length = 0 ∧ ∃ f, read_le32 big data 0 = .ok (f, 0 + 4) := by
  have h8 : 4 + 4 ≤ data.length := by
    rcases read_le32_cases big data 4 with ⟨_, e⟩ | ⟨hl, _⟩
    · rw [h] at e; exact absurd e (by simp)
    · exact hl
  refine ⟨by omega, ?_⟩
  rcases read_le32_cases big data 0 with ⟨hn, _⟩ | ⟨_, v, e⟩
  · omega
  · exact ⟨v, e⟩

theorem Load_decode_compute (big : Bool) (data : List Nat) (q : Nat)
    (h : read_le32 big data 4 = .ok (SDL_SHADER_TYPE_COMPUTE, q)) :
    SDL_SHADER_Load_decode big data = .ok none := by
  obtain ⟨hne, f, hf⟩ := read_stage_ok big data _ q h
  have h' : read_le32 big data (0 + 4) = .ok (SDL_SHADER_TYPE_COMPUTE, q) := h
  simp only [SDL_SHADER_Load_decode, hne, if_false, hf, h', bind, Except.bind, pure,
    Except.pure, if_true]

theorem LoadCompute_decode_other (big : Bool) (data : List Nat) (t q : Nat)
    (h : read_le32 big data 4 = .ok (t, q)) (ht : t ≠ SDL_SHADER_TYPE_COMPUTE) :
    SDL_SHADER_LoadCompute_decode big data = .ok none := by
  obtain ⟨hne, f, hf⟩ := read_stage_ok big data _ q h
  have h' : read_le32 big data (0 + 4) = .ok (t, q) := h
  simp only [SDL_SHADER_LoadCompute_decode, hne, if_false, hf, h', bind, Except.bind, pure,
    Except.pure, ne_eq, ht, not_false_eq_true, if_true]

theorem Load_info_of_decode_none (big : Bool) (formats : Nat) (data : List Nat)
    (h : SDL_SHADER_Load_decode big data = .ok none) :
    SDL_SHADER_Load_info big formats data = .ok none := by
  simp [SDL_SHADER_Load_info, h, bind, Except.bind, pure, Except.pure]

theorem LoadCompute_info_of_decode_none (big : Bool) (formats : Nat) (data : List Nat)
    (h : SDL_SHADER_LoadCompute_decode big data = .ok none) :
    SDL_SHADER_LoadCompute_info big formats data = .ok none := by
  simp [SDL_SHADER_LoadCompute_info, h, bind, Except.bind, pure, Except.pure]

/-- C11 (stage mismatch at load). For every buffer whose stage field (the four bytes at
offset 4) reads Compute, `SDL_SHADER_Load_IO` builds no descriptor, so the device is not
asked to create a shader, and returns `NULL`; for every buffer whose stage field reads
anything else (Vertex and Fragment in particular), `SDL_SHADER_LoadCompute_IO` builds no
descriptor and returns `NULL`; whatever the device, its mask and the rest of the buffer. -/
theorem C11_stage_mismatch (big : Bool) (device : SDL_GPUDevice) (data : List Nat)
    (t q : Nat) (h : read_le32 big data 4 = .ok (t, q)) :
    (t = SDL_SHADER_TYPE_COMPUTE →
      SDL_SHADER_Load_info big device.SDL_GetGPUShaderFormats data = .ok none ∧
      SDL_SHADER_Load_IO big device data = .ok none) ∧
    (t ≠ SDL_SHADER_TYPE_COMPUTE →
      SDL_SHADER_LoadCompute_info big device.SDL_GetGPUShaderFormats data = .ok none ∧
      SDL_SHADER_LoadCompute_IO big device data = .ok none) := by
  constructor
  · intro ht
    subst ht
    have hd := Load_decode_compute big data q h
    exact ⟨Load_info_of_decode_none big _ data hd, (Load_IO_of_decode big device data).2 hd⟩
  · intro ht'
    have hd := LoadCompute_decode_other big data t q h ht'
    exact ⟨LoadCompute_info_of_decode_none big _ data hd,
      (LoadCompute_IO_of_decode big device data).2 hd⟩

/-- C11, at a compute blob given to the graphics loader and a vertex blob given to the
compute loader, on a device that supports every format of the blobs. -/
theorem C11_stage_mismatch_witness :
    (SDL_SHADER_Load_info false (device_example 18).SDL_GetGPUShaderFormats buf_compute =
        .ok none ∧
      SDL_SHADER_Load_IO false (device_example 18) buf_compute = .ok none) ∧
    (SDL_SHADER_LoadCompute_info false (device_example 18).SDL_GetGPUShaderFormats
        buf_graphics = .ok none ∧
      SDL_SHADER_LoadCompute_IO false (device_example 18) buf_graphics = .ok none) :=
  ⟨(C11_stage_mismatch false (device_example 18) buf_compute 2 8 rfl).1 rfl,
   (C11_stage_mismatch false (device_example 18) buf_graphics 0 8 rfl).2 (by decide)⟩

theorem Load_build_none (formats : Nat) (data : List Nat) (d : SDL_SHADER_Blob Nat)
    (hn : d.num_shaders = d.shaders.length)
    (hno : ∀ s ∈ d.shaders, formats &&& s.format = 0) :
    SDL_SHADER_Load_build formats data d = .ok none := by
  have hsel : select_loop formats d.shaders d.num_shaders 0 = .ok none := by
    rw [select_loop_eq formats d.shaders d.num_shaders 0 (by omega), List.drop_zero,
      find_none_no_match formats d.shaders hno]
  simp [SDL_SHADER_Load_build, hsel, bind, Except.bind, pure, Except.pure]

theorem LoadCompute_build_none (formats : Nat) (data : List Nat) (d : SDL_SHADER_Blob Nat)
    (hn : d.num_shaders = d.shaders.length)
    (hno : ∀ s ∈ d.shaders, formats &&& s.format = 0) :
    SDL_SHADER_LoadCompute_build formats data d = .ok none := by
  have hsel : select_loop formats d.shaders d.num_shaders 0 = .ok none := by
    rw [select_loop_eq formats d.shaders d.num_shaders 0 (by omega), List.drop_zero,
      find_none_no_match formats d.shaders hno]
  simp [SDL_SHADER_LoadCompute_build, hsel, bind, Except.bind, pure, Except.pure]

theorem Load_IO_of_info_none (big : Bool) (device : SDL_GPUDevice) (data : List Nat)
    (h : SDL_SHADER_Load_info big device.SDL_GetGPUShaderFormats data = .ok none) :
    SDL_SHADER_Load_IO big device data = .ok none := by
  simp [ SDL_SHADER_Load_IO, h, bind, Except.bind, pure, Except.pure]

theorem LoadCompute_IO_of_info_none (big : Bool) (device : SDL_GPUDevice) (data : List Nat)
    (h : SDL_SHADER_LoadCompute_info big device.SDL_GetGPUShaderFormats data = .ok none) :
    SDL_SHADER_LoadCompute_IO big device data = .ok none := by
  simp [ SDL_SHADER_LoadCompute_IO, h, bind, Except.bind, pure, Except.pure]

/-- C12 (selection absence). For every buffer that a loader decodes to a blob `d` in which
no variant's format shares a bit with the device mask (a blob without variants included),
the loader builds no descriptor, so that no bytecode reaches the device and no creation is
requested, and returns `NULL`. This holds for both loaders. -/
theorem C12_selection_absence (big : Bool) (device : SDL_GPUDevice) (data : List Nat)
    (d : SDL_SHADER_Blob Nat)
    (hno : ∀ s ∈ d.shaders, device.SDL_GetGPUShaderFormats &&& s.format = 0) :
    (SDL_SHADER_Load_decode big data = .ok (some d) →
      SDL_SHADER_Load_info big device.SDL_GetGPUShaderFormats data = .ok none ∧
      SDL_SHADER_Load_IO big device data = .ok none) ∧
    (SDL_SHADER_LoadCompute_decode big data = .ok (some d) →
      SDL_SHADER_LoadCompute_info big device.SDL_GetGPUShaderFormats data = .ok none ∧
      SDL_SHADER_LoadCompute_IO big device data = .ok none) := by
  constructor
  · intro hd
    have hi : SDL_SHADER_Load_info big device.SDL_GetGPUShaderFormats data = .ok none := by
      simp only [SDL_SHADER_Load_info, hd, bind, Except.bind]
      exact Load_build_none _ data d (Load_decode_num_shaders big data d hd) hno
    exact ⟨hi, Load_IO_of_info_none big device data hi⟩
  · intro hd
    have hi : SDL_SHADER_LoadCompute_info big device.SDL_GetGPUShaderFormats data =
        .ok none := by
      simp only [SDL_SHADER_LoadCompute_info, hd, bind, Except.bind]
      exact LoadCompute_build_none _ data d (LoadCompute_decode_num_shaders big data d hd)
        hno
    exact ⟨hi, LoadCompute_IO_of_info_none big device data hi⟩

/-- C12, at a device that supports DXBC and DXIL only, for blobs with an MSL and a SPIR-V
variant. -/
theorem C12_selection_absence_witness :
    (SDL_SHADER_Load_info false (device_example 12).SDL_GetGPUShaderFormats buf_graphics =
        .ok none ∧
      SDL_SHADER_Load_IO false (device_example 12) buf_graphics = .ok none) ∧
    (SDL_SHADER_LoadCompute_info false (device_example 12).SDL_GetGPUShaderFormats
        buf_compute = .ok none ∧
      SDL_SHADER_LoadCompute_IO false (device_example 12) buf_compute = .ok none) :=
  ⟨(C12_selection_absence false (device_example 12) buf_graphics dec_graphics
      (by decide)).1 rfl,
   (C12_selection_absence false (device_example 12) buf_compute dec_compute
      (by decide)).2 rfl⟩

/-- C13, as stated, fails. On the same vertex blob the graphics loader returns `NULL` both
on a device that supports SPIR-V and rejects the descriptor (a variant matched: a
descriptor is built) and on a device that supports DXBC and DXIL only (no variant matched:
no descriptor); the compute loader does the same on the compute blob. -/
theorem C13_counterexample :
    (SDL_SHADER_Load_info false 2 buf_graphics).map Option.isSome = .ok true ∧
    SDL_SHADER_Load_IO false (device_reject 2) buf_graphics = .ok none ∧
    SDL_SHADER_Load_info false 12 buf_graphics = .ok none ∧
    SDL_SHADER_Load_IO false (device_reject 12) buf_graphics = .ok none ∧
    (SDL_SHADER_LoadCompute_info false 2 buf_compute).map Option.isSome = .ok true ∧
    SDL_SHADER_LoadCompute_IO false (device_reject 2) buf_compute = .ok none ∧
    SDL_SHADER_LoadCompute_info false 12 buf_compute = .ok none ∧
    SDL_SHADER_LoadCompute_IO false (device_reject 12) buf_compute = .ok none :=
  ⟨rfl, rfl, rfl, rfl, rfl, rfl, rfl, rfl⟩

/-- C13 (creation failure and no matching variant), amended. For every buffer and device,
each loader returns `NULL` exactly when it builds no descriptor (nothing read, stage
mismatch, no matching variant) or the device returns `NULL` for the descriptor it is
given: no matching variant and a rejected descriptor give the same result. -/
theorem C13_null_result (big : Bool) (device : SDL_GPUDevice) (data : List Nat) :
    ( SDL_SHADER_Load_IO big device data = .ok none ↔
      SDL_SHADER_Load_info big device.SDL_GetGPUShaderFormats data = .ok none ∨
      ∃ info, SDL_SHADER_Load_info big device.SDL_GetGPUShaderFormats data =
          .ok (some info) ∧ device.SDL_CreateGPUShader data info = none) ∧
    ( SDL_SHADER_LoadCompute_IO big device data = .ok none ↔
      SDL_SHADER_LoadCompute_info big device.SDL_GetGPUShaderFormats data = .ok none ∨
      ∃ info, SDL_SHADER_LoadCompute_info big device.SDL_GetGPUShaderFormats data =
          .ok (some info) ∧ device.SDL_CreateGPUComputePipeline data info = none) := by
  constructor
  · unfold SDL_SHADER_Load_IO
    rcases h : SDL_SHADER_Load_info big device.SDL_GetGPUShaderFormats data with e | r
    · simp [bind, Except.bind]
    · cases r <;> simp [bind, Except.bind, pure, Except.pure]
  · unfold SDL_SHADER_LoadCompute_IO
    rcases h : SDL_SHADER_LoadCompute_info big device.SDL_GetGPUShaderFormats data with e | r
    · simp [bind, Except.bind]
    · cases r <;> simp [bind, Except.bind, pure, Except.pure]

/-! ## `compile`: front-end failure, the SPIR-V variant, one variant per format -/

theorem compile_spirv_front_end (tc : Toolchain) (code : List Nat) (type lang : Nat)
    (entry filename : List Nat) :
    (lang = SDL_SHADER_LANG_GLSL →
      compile_spirv tc code type lang entry filename =
        tc.shaderc_compile_into_spv code (compile_stage type) filename entry) ∧
    (lang = SDL_SHADER_LANG_HLSL →
      compile_spirv tc code type lang entry filename =
        tc.SDL_ShaderCross_CompileSPIRVFromHLSL code entry (compile_stage type)) ∧
    (lang ≠ SDL_SHADER_LANG_GLSL → lang ≠ SDL_SHADER_LANG_HLSL →
      compile_spirv tc code type lang entry filename = some code) := by
  refine ⟨?_, ?_, ?_⟩
  · intro h
    simp [compile_spirv, compile_stage, h]
  · intro h
    simp +decide [compile_spirv, h]
  · intro h1 h2
    simp [compile_spirv, h1, h2]

theorem compile_none_of_spirv (big : Bool) (szt : Nat) (tc : Toolchain) (code : List Nat)
    (type lang formats : Nat) (entry filename : List Nat)
    (h : compile_spirv tc code type lang entry filename = none) :
    compile_blob tc code type lang formats entry filename = .ok none ∧
    compile big szt tc code type lang formats entry filename = .ok (none, 0) := by
  have hb : compile_blob tc code type lang formats entry filename = .ok none := by
    simp [compile_blob, h, bind, Except.bind, pure, Except.pure]
  exact ⟨hb, by simp [compile, hb, bind, Except.bind, pure, Except.pure]⟩

/-- C15 (front-end failure). When the language is GLSL and `shaderc_compile_into_spv`
fails, or the language is HLSL and `SDL_ShaderCross_CompileSPIRVFromHLSL` fails, `compile`
produces no blob and no variant, returns `NULL` and reports size 0 (so `run` saves
nothing); this holds whatever the reflector and the translators of the tool chain would
return, none of them being called. -/
theorem C15_front_end_failure (big : Bool) (szt : Nat) (tc : Toolchain) (code : List Nat)
    (type lang formats : Nat) (entry filename : List Nat)
    (h : (lang = SDL_SHADER_LANG_GLSL ∧
        tc.shaderc_compile_into_spv code (compile_stage type) filename entry = none) ∨
      (lang = SDL_SHADER_LANG_HLSL ∧
        tc.SDL_ShaderCross_CompileSPIRVFromHLSL code entry (compile_stage type) = none)) :
    compile_blob tc code type lang formats entry filename = .ok none ∧
    compile big szt tc code type lang formats entry filename = .ok (none, 0) ∧
    run_save (none, 0) = none ∧
    ∀ tc' : Toolchain,
      tc'.shaderc_compile_into_spv = tc.shaderc_compile_into_spv →
      tc'.SDL_ShaderCross_CompileSPIRVFromHLSL = tc.SDL_ShaderCross_CompileSPIRVFromHLSL →
      compile big szt tc' code type lang formats entry filename = .ok (none, 0) := by
  have key : ∀ tc' : Toolchain,
      tc'.shaderc_compile_into_spv = tc.shaderc_compile_into_spv →
      tc'.SDL_ShaderCross_CompileSPIRVFromHLSL = tc.SDL_ShaderCross_CompileSPIRVFromHLSL →
      compile_spirv tc' code type lang entry filename = none := by
    intro tc' h1 h2
    obtain ⟨hg, hh, _⟩ := compile_spirv_front_end tc' code type lang entry filename
    rcases h with ⟨hl, hf⟩ | ⟨hl, hf⟩
    · rw [hg hl, h1, hf]
    · rw [hh hl, h2, hf]
  have h0 := key tc rfl rfl
  refine ⟨(compile_none_of_spirv big szt tc _ _ _ formats _ _ h0).1,
    (compile_none_of_spirv big szt tc _ _ _ formats _ _ h0).2, rfl, ?_⟩
  intro tc' h1 h2
  exact (compile_none_of_spirv big szt tc' _ _ _ formats _ _ (key tc' h1 h2)).2

/-- C15, at a GLSL fragment shader whose compilation fails, all formats requested. -/
theorem C15_front_end_failure_witness :
    compile_blob tc_front_end_fails [118] SDL_SHADER_TYPE_FRAGMENT SDL_SHADER_LANG_GLSL 30
        str_main [] = .ok none ∧
    compile false 8 tc_front_end_fails [118] SDL_SHADER_TYPE_FRAGMENT SDL_SHADER_LANG_GLSL
        30 str_main [] = .ok (none, 0) :=
  ⟨(C15_front_end_failure false 8 tc_front_end_fails [118] SDL_SHADER_TYPE_FRAGMENT
      SDL_SHADER_LANG_GLSL 30 str_main [] (Or.inl ⟨rfl, rfl⟩)).1,
   (C15_front_end_failure false 8 tc_front_end_fails [118] SDL_SHADER_TYPE_FRAGMENT
      SDL_SHADER_LANG_GLSL 30 str_main [] (Or.inl ⟨rfl, rfl⟩)).2.1⟩

theorem compile_variants_last (tc : Toolchain) (info : SDL_ShaderCross_SPIRV_Info)
    (spirv : List Nat) (formats f' : Nat) (l : List (SDL_SHADER_Code (List Nat)))
    (h2 : formats &&& SDL_GPU_SHADERFORMAT_SPIRV ≠ 0)
    (h : compile_variants tc info spirv formats = .ok (f', l)) :
    l.getLast? = some ⟨spirv.length, SDL_GPU_SHADERFORMAT_SPIRV, spirv⟩ := by
  unfold compile_variants at h
  simp only [SDL_GPU_SHADERFORMAT_DXIL, SDL_GPU_SHADERFORMAT_DXBC, SDL_GPU_SHADERFORMAT_MSL,
    SDL_GPU_SHADERFORMAT_SPIRV] at h h2 ⊢
  by_cases h8 : formats &&& 8 = 0 <;> by_cases h4 : formats &&& 4 = 0 <;>
    by_cases h16 : formats &&& 16 = 0 <;>
    rcases hd : tc.SDL_ShaderCross_CompileDXILFromSPIRV info with _ | cd <;>
    rcases hb : tc.SDL_ShaderCross_CompileDXBCFromSPIRV info with _ | cb <;>
    rcases hm : tc.SDL_ShaderCross_TranspileMSLFromSPIRV info with _ | cm <;>
    simp [hd, hb, hm, h8, h4, h16, h2, clear_8_and_4, clear_8_and_16, clear_8_and_2,
      clear_4_and_16, clear_4_and_2, SDL_strlen_ptr, bind, Except.bind, pure,
      Except.pure] at h <;>
    (obtain ⟨-, rfl⟩ := h) <;>
    simp

theorem filter_formats_count (p : Nat → Bool) (hp : p 2 = true) :
    ([8, 4, 16, 2].filter p).count 2 = 1 := by
  cases h8 : p 8 <;> cases h4 : p 4 <;> cases h16 : p 16 <;>
    simp +decide [List.filter, h8, h4, h16, hp]

/-- The SPIR-V variant where `compile` produces a blob. When the language is SPIR-V the
SPIR-V that `compile` uses is the input, byte for byte, whatever the tool chain (the front
end is not called). When SPIR-V is obtained and the SPIRV format is requested, `compile`
produces a blob provided the reflection returns a result and the MSL translator does not
fail on a request for MSL; and in every blob it produces on such a request exactly one
variant has the format SPIRV, it is the last variant, its size is the length of the SPIR-V
and its code is the SPIR-V, byte for byte. -/
theorem compile_blob_spirv_variant (tc : Toolchain) (code : List Nat)
    (type lang formats : Nat) (entry filename : List Nat) :
    (lang = SDL_SHADER_LANG_SPIRV →
      compile_spirv tc code type lang entry filename = some code) ∧
    (∀ spirv, compile_spirv tc code type lang entry filename = some spirv →
      formats &&& SDL_GPU_SHADERFORMAT_SPIRV ≠ 0 →
      (reflection_ok tc type spirv →
        (formats &&& SDL_GPU_SHADERFORMAT_MSL ≠ 0 →
          tc.SDL_ShaderCross_TranspileMSLFromSPIRV (compile_spirv_info type entry spirv)
            ≠ none) →
        ∃ b, compile_blob tc code type lang formats entry filename = .ok (some b)) ∧
      ∀ b, compile_blob tc code type lang formats entry filename = .ok (some b) →
        b.shaders.getLast? = some ⟨spirv.length, SDL_GPU_SHADERFORMAT_SPIRV, spirv⟩ ∧
        (b.shaders.map (·.format)).count SDL_GPU_SHADERFORMAT_SPIRV = 1) := by
  constructor
  · intro hl
    exact (compile_spirv_front_end tc code type lang entry filename).2.2
      (by rw [hl]; decide) (by rw [hl]; decide)
  · intro spirv hs h2
    refine ⟨fun hr hm => compile_blob_ok tc code type lang formats entry filename spirv
      hs hr hm, ?_⟩
    intro b hb
    obtain ⟨spirv', hs', hv, _⟩ := compile_blob_some _ _ _ _ _ _ _ _ hb
    rw [hs] at hs'
    cases hs'
    refine ⟨compile_variants_last _ _ _ _ _ _ h2 hv, ?_⟩
    rw [compile_variants_order _ _ _ _ _ _ hv]
    apply filter_formats_count
    simp only [SDL_GPU_SHADERFORMAT_SPIRV] at h2
    simp +decide [produced, h2, SDL_GPU_SHADERFORMAT_DXIL, SDL_GPU_SHADERFORMAT_DXBC,
      SDL_GPU_SHADERFORMAT_MSL, SDL_GPU_SHADERFORMAT_SPIRV]

/-- C17 (IR pass-through), evaluated where it fails. For SPIR-V input the SPIR-V `compile`
uses is the input, so the IR is available, and `MSL | SPIRV` holds the SPIRV bit; when the
MSL translator returns `NULL`, `compile` hands the `NULL` to `SDL_strlen` in the MSL block,
before the SPIRV block is reached, and returns no blob, hence no SPIRV variant. The same
happens, for a request of SPIRV alone, when the reflection returns `NULL`. When the MSL
translator succeeds, the SPIRV variant is the last one, with the input as its code. -/
theorem C17_spirv_variant_lost :
    compile_spirv (tc_example none none none) [3, 2, 35, 7] SDL_SHADER_TYPE_VERTEX
      SDL_SHADER_LANG_SPIRV str_main [] = some [3, 2, 35, 7] ∧
    (SDL_GPU_SHADERFORMAT_MSL ||| SDL_GPU_SHADERFORMAT_SPIRV) &&&
      SDL_GPU_SHADERFORMAT_SPIRV ≠ 0 ∧
    compile_blob (tc_example none none none) [3, 2, 35, 7] SDL_SHADER_TYPE_VERTEX
      SDL_SHADER_LANG_SPIRV (SDL_GPU_SHADERFORMAT_MSL ||| SDL_GPU_SHADERFORMAT_SPIRV)
      str_main [] = .error .null_deref ∧
    compile false 8 (tc_example none none none) [3, 2, 35, 7] SDL_SHADER_TYPE_VERTEX
      SDL_SHADER_LANG_SPIRV (SDL_GPU_SHADERFORMAT_MSL ||| SDL_GPU_SHADERFORMAT_SPIRV)
      str_main [] = .error .null_deref ∧
    compile_blob tc_front_end_fails [3, 2, 35, 7] SDL_SHADER_TYPE_VERTEX
      SDL_SHADER_LANG_SPIRV SDL_GPU_SHADERFORMAT_SPIRV str_main [] = .error .null_deref ∧
    (compile_blob (tc_example none none (some [65])) [3, 2, 35, 7] SDL_SHADER_TYPE_VERTEX
      SDL_SHADER_LANG_SPIRV (SDL_GPU_SHADERFORMAT_MSL ||| SDL_GPU_SHADERFORMAT_SPIRV)
      str_main []).map (Option.map fun b => b.shaders) =
      .ok (some [⟨2, SDL_GPU_SHADERFORMAT_MSL, [65, 0]⟩,
        ⟨4, SDL_GPU_SHADERFORMAT_SPIRV, [3, 2, 35, 7]⟩]) :=
  ⟨rfl, by decide, rfl, rfl, rfl, rfl⟩

/-- C18 (one variant per format). Every blob `compile` produces, for every requested mask
(bits outside the four formats included), has at most four variants (so the variant count
stays within the four slots allocated for `blob.shaders`), each of format DXIL, DXBC, MSL
or SPIRV, and the formats of its variants are pairwise distinct. -/
theorem C18_one_variant_per_format (tc : Toolchain) (code : List Nat)
    (type lang formats : Nat) (entry filename : List Nat) (b : SDL_SHADER_Blob (List Nat))
    (h : compile_blob tc code type lang formats entry filename = .ok (some b)) :
    b.shaders.length ≤ 4 ∧ b.num_shaders ≤ 4 ∧
    (∀ s ∈ b.shaders, s.format = SDL_GPU_SHADERFORMAT_DXIL ∨
      s.format = SDL_GPU_SHADERFORMAT_DXBC ∨ s.format = SDL_GPU_SHADERFORMAT_MSL ∨
      s.format = SDL_GPU_SHADERFORMAT_SPIRV) ∧
    (b.shaders.map (·.format)).Nodup := by
  obtain ⟨spirv, _, hv, hn, _⟩ := compile_blob_some _ _ _ _ _ _ _ _ h
  have ho := compile_variants_order _ _ _ _ _ _ hv
  have hsub : (b.shaders.map (·.format)).Sublist
      [SDL_GPU_SHADERFORMAT_DXIL, SDL_GPU_SHADERFORMAT_DXBC, SDL_GPU_SHADERFORMAT_MSL,
        SDL_GPU_SHADERFORMAT_SPIRV] := by
    rw [ho]; exact List.filter_sublist _
  have hlen : b.shaders.length ≤ 4 := by
    have := hsub.length_le
    simpa using this
  refine ⟨hlen, by rw [hn]; exact hlen, ?_, hsub.nodup (by decide)⟩
  intro s hs
  have hm : s.format ∈ [SDL_GPU_SHADERFORMAT_DXIL, SDL_GPU_SHADERFORMAT_DXBC,
      SDL_GPU_SHADERFORMAT_MSL, SDL_GPU_SHADERFORMAT_SPIRV] :=
    hsub.subset (List.mem_map_of_mem _ hs)
  simpa using hm

/-- C18, at the request 63 (the four formats and two other bits), every translator
succeeding. -/
theorem C18_one_variant_per_format_witness :
    ∃ b, compile_blob (tc_example (some [1]) (some [2]) (some [65])) [3, 2, 35, 7]
        SDL_SHADER_TYPE_VERTEX SDL_SHADER_LANG_SPIRV 63 str_main [] = .ok (some b) ∧
      b.shaders.length = 4 ∧ b.shaders.length ≤ 4 ∧ b.num_shaders ≤ 4 ∧
      (b.shaders.map (·.format)).Nodup :=
  ⟨_, rfl, rfl,
    (C18_one_variant_per_format (tc_example (some [1]) (some [2]) (some [65])) [3, 2, 35, 7]
      SDL_SHADER_TYPE_VERTEX SDL_SHADER_LANG_SPIRV 63 str_main [] _ rfl).1,
    (C18_one_variant_per_format (tc_example (some [1]) (some [2]) (some [65])) [3, 2, 35, 7]
      SDL_SHADER_TYPE_VERTEX SDL_SHADER_LANG_SPIRV 63 str_main [] _ rfl).2.1,
    (C18_one_variant_per_format (tc_example (some [1]) (some [2]) (some [65])) [3, 2, 35, 7]
      SDL_SHADER_TYPE_VERTEX SDL_SHADER_LANG_SPIRV 63 str_main [] _ rfl).2.2.2⟩

/-! ## From `compile` to the descriptor: lemmas -/

theorem spec_variants_trim (l : List (SDL_SHADER_Code (List Nat))) :
    spec_variants (l.map fun s => { s with code := s.code.take s.code_size }) =
      spec_variants l := by
  induction l with
  | nil => rfl
  | cons s ss ih => simp [spec_variants, spec_variant, ih, List.take_take]

theorem spec_layout_trim (b : SDL_SHADER_Blob (List Nat)) :
    spec_layout (trim_blob b) = spec_layout b := by
  simp [spec_layout, spec_tail, spec_compute_fields, trim_blob, spec_variants_trim,
    List.take_take]

theorem trim_wellformed (b : SDL_SHADER_Blob (List Nat)) (hv : b.Valid) :
    (trim_blob b).WellFormed := by
  obtain ⟨he, hn, hs⟩ := hv
  refine ⟨?_, ?_, ?_⟩
  · simp [trim_blob, he]
  · simp [trim_blob, hn]
  · intro s hs'
    simp only [trim_blob, List.mem_map] at hs'
    obtain ⟨t, ht, rfl⟩ := hs'
    simp [hs t ht]

theorem trim_inrange (b : SDL_SHADER_Blob (List Nat)) (hr : b.InRange) :
    (trim_blob b).InRange := by
  obtain ⟨r1, r2, r3, r4, r5, r6, r7, r8, r9, r10, r11, r12, r13, rs⟩ := hr
  refine ⟨r1, r2, r3, r4, r5, r6, r7, r8, r9, r10, r11, r12, r13, ?_⟩
  intro s hs'
  simp only [trim_blob, List.mem_map] at hs'
  obtain ⟨t, ht, rfl⟩ := hs'
  exact rs t ht

theorem c_string_of_append (e rest : List Nat) (hnul : ∀ c ∈ e, c ≠ 0) :
    c_string_of (e ++ 0 :: rest) = some e := by
  induction e with
  | nil => simp [c_string_of]
  | cons x xs ih =>
    have hx : x ≠ 0 := hnul x (List.mem_cons_self _ _)
    simp [c_string_of, hx, ih (fun c hc => hnul c (List.mem_cons_of_mem _ hc))]

theorem strlen_of_no_nul (e : List Nat) (hnul : ∀ c ∈ e, c ≠ 0) : SDL_strlen e = e.length := by
  unfold SDL_strlen
  rw [List.takeWhile_eq_self_iff.mpr]
  intro c hc
  simpa using hnul c hc

theorem compile_blob_reflect (tc : Toolchain) (code : List Nat) (type lang formats : Nat)
    (entry filename : List Nat) (b : SDL_SHADER_Blob (List Nat))
    (h : compile_blob tc code type lang formats entry filename = .ok (some b)) :
    ∃ spirv, compile_spirv tc code type lang entry filename = some spirv ∧
      (type ≠ SDL_SHADER_TYPE_COMPUTE →
        ∃ m, tc.SDL_ShaderCross_ReflectGraphicsSPIRV spirv = some m ∧
          b.num_samplers = m.num_samplers ∧
          b.num_uniform_buffers = m.num_uniform_buffers ∧
          b.num_storage_buffers = m.num_storage_buffers ∧
          b.num_storage_textures = m.num_storage_textures) ∧
      (type = SDL_SHADER_TYPE_COMPUTE →
        ∃ m, tc.SDL_ShaderCross_ReflectComputeSPIRV spirv = some m ∧
          b.num_samplers = m.num_samplers ∧
          b.num_uniform_buffers = m.num_uniform_buffers ∧
          b.num_storage_buffers = m.num_readwrite_storage_buffers ∧
          b.num_storage_textures = m.num_readwrite_storage_textures ∧
          b.num_storage_buffers_readonly = m.num_readonly_storage_buffers ∧
          b.num_storage_textures_readonly = m.num_readonly_storage_textures ∧
          b.thread_x = m.threadcount_x ∧ b.thread_y = m.threadcount_y ∧
          b.thread_z = m.threadcount_z) := by
  unfold compile_blob at h
  simp only [bind, Except.bind, pure, Except.pure] at h
  split at h
  · simp at h
  · rename_i spirv hs
    refine ⟨spirv, hs, ?_⟩
    by_cases ht : type = SDL_SHADER_TYPE_COMPUTE
    · simp only [ht, if_true] at h
      rcases hm : tc.SDL_ShaderCross_ReflectComputeSPIRV spirv with _ | m
      · simp [hm] at h
      · simp only [hm] at h
        split at h
        · simp at h
        · simp only [Except.ok.injEq, Option.some.injEq] at h
          subst h
          exact ⟨fun hne => absurd ht hne,
            fun _ => ⟨m, rfl, rfl, rfl, rfl, rfl, rfl, rfl, rfl, rfl, rfl⟩⟩
    · simp only [ht, if_false] at h
      rcases hm : tc.SDL_ShaderCross_ReflectGraphicsSPIRV spirv with _ | m
      · simp [hm] at h
      · simp only [hm] at h
        split at h
        · simp at h
        · simp only [Except.ok.injEq, Option.some.injEq] at h
          subst h
          exact ⟨fun _ => ⟨m, rfl, rfl, rfl, rfl, rfl⟩, fun he => absurd he ht⟩

theorem Load_build_sel (formats : Nat) (data : List Nat) (d : SDL_SHADER_Blob Nat)
    (s : SDL_SHADER_Code Nat)
    (hsel : select_loop formats d.shaders d.num_shaders 0 = .ok (some s)) :
    SDL_SHADER_Load_build formats data d =
      (if s.format = SDL_GPU_SHADERFORMAT_MSL then SDL_strcmp_eq data d.entry str_main
        else .ok false).map (fun is_main => some (graphics_info d s is_main)) := by
  by_cases h0 : d.type = 0 <;> by_cases h1 : d.type = 1 <;>
    by_cases hf : s.format = SDL_GPU_SHADERFORMAT_MSL <;>
    simp only [SDL_SHADER_Load_build, hsel, bind,
      Except.bind, pure, Except.pure, graphics_info, SDL_SHADER_TYPE_VERTEX,
      SDL_SHADER_TYPE_FRAGMENT, SDL_GPU_SHADERSTAGE_VERTEX, SDL_GPU_SHADERSTAGE_FRAGMENT,
      Except.map, h0, h1, hf, if_true, if_false] <;>
    (cases SDL_strcmp_eq data d.entry str_main with
      | error e => simp
      | ok r => cases r <;> simp)

theorem LoadCompute_build_sel (formats : Nat) (data : List Nat) (d : SDL_SHADER_Blob Nat)
    (s : SDL_SHADER_Code Nat)
    (hsel : select_loop formats d.shaders d.num_shaders 0 = .ok (some s)) :
    SDL_SHADER_LoadCompute_build formats data d =
      (if s.format = SDL_GPU_SHADERFORMAT_MSL then SDL_strcmp_eq data d.entry str_main
        else .ok false).map (fun is_main => some (compute_info d s is_main)) := by
  simp only [SDL_SHADER_LoadCompute_build, hsel, bind,
    Except.bind, pure, Except.pure, compute_info, Except.map]
  by_cases hf : s.format = SDL_GPU_SHADERFORMAT_MSL
  · simp only [hf, if_true]
    cases SDL_strcmp_eq data d.entry str_main with
    | error e => simp
    | ok r => cases r <;> simp
  · simp only [hf, if_false]
    simp

theorem select_loop_some (formats : Nat) (d : SDL_SHADER_Blob Nat)
    (hn : d.num_shaders = d.shaders.length)
    (hm : ∃ s ∈ d.shaders, formats &&& s.format ≠ 0) :
    ∃ s, select_loop formats d.shaders d.num_shaders 0 = .ok (some s) := by
  rw [select_loop_eq formats d.shaders d.num_shaders 0 (by omega), List.drop_zero]
  obtain ⟨s, hs, hf⟩ := hm
  have : (d.shaders.find? (fun s => decide (formats &&& s.format ≠ 0))).isSome = true := by
    rw [List.find?_isSome]
    exact ⟨s, hs, by simpa using hf⟩
  obtain ⟨t, ht⟩ := Option.isSome_iff_exists.mp this
  exact ⟨t, by rw [ht]⟩

/-- The pipeline from `compile` to the decode sequence of the loader: the bytes `compile`
returns decode to a blob that denotes the blob handed to `encode`, cut to its declared
sizes. -/
theorem compile_decode (big_tool big_loader : Bool) (szt : Nat) (tc : Toolchain)
    (code : List Nat) (type lang formats : Nat) (entry filename : List Nat)
    (b : SDL_SHADER_Blob (List Nat)) (tail : List Nat)
    (hb : compile_blob tc code type lang formats entry filename = .ok (some b))
    (hr : b.InRange) :
    ∃ bin size, compile big_tool szt tc code type lang formats entry filename =
        .ok (some bin, size) ∧
      (type ≠ SDL_SHADER_TYPE_COMPUTE →
        ∃ d, SDL_SHADER_Load_decode big_loader (bin ++ tail) = .ok (some d) ∧
          deref_blob (bin ++ tail) d = graphics_part (trim_blob b)) ∧
      (type = SDL_SHADER_TYPE_COMPUTE →
        ∃ d, SDL_SHADER_LoadCompute_decode big_loader (bin ++ tail) = .ok (some d) ∧
          deref_blob (bin ++ tail) d = trim_blob b) := by
  have hv := compile_blob_valid _ _ _ _ _ _ _ _ hb
  obtain ⟨_, _, _, _, _, _, ht⟩ := compile_blob_some _ _ _ _ _ _ _ _ hb
  refine ⟨_, _, compile_of_blob big_tool szt _ _ _ _ _ _ _ b hb, ?_, ?_⟩
  · intro hne
    have := Load_decode_layout big_loader (trim_blob b) tail (trim_wellformed b hv)
      (trim_inrange b hr) (by simpa [trim_blob, ht] using hne)
    rwa [spec_layout_trim] at this
  · intro he
    have := LoadCompute_decode_layout big_loader (trim_blob b) tail (trim_wellformed b hv)
      (trim_inrange b hr) (by simpa [trim_blob, ht] using he)
    rwa [spec_layout_trim] at this

theorem compile_blob_entry (tc : Toolchain) (code : List Nat) (type lang formats : Nat)
    (entry filename : List Nat) (b : SDL_SHADER_Blob (List Nat))
    (hb : compile_blob tc code type lang formats entry filename = .ok (some b))
    (hnul : ∀ c ∈ entry, c ≠ 0) (hlen : entry.length + 1 < 2 ^ 32) :
    b.entry_size = entry.length + 1 ∧ b.entry = entry ++ [0] ∧
    b.entry.take b.entry_size = entry ++ [0] := by
  obtain ⟨_, _, _, _, he, hes, _⟩ := compile_blob_some _ _ _ _ _ _ _ _ hb
  have h1 : b.entry_size = entry.length + 1 := by
    rw [hes, strlen_of_no_nul entry hnul, Nat.mod_eq_of_lt hlen]
  refine ⟨h1, he, ?_⟩
  rw [h1, he]
  simp [c_object]

theorem c_string_of_take (data : List Nat) (p n : Nat) (e : List Nat)
    (htake : (data.drop p).take n = e ++ [0])
    (hnul : ∀ c ∈ e, c ≠ 0) : c_string data p = some e := by
  have h := List.take_append_drop n (data.drop p)
  rw [htake] at h
  unfold c_string
  rw [← h, List.append_assoc]
  exact c_string_of_append e _ hnul

/-- C14 (entry-point length). For every entry-point string `e` (a C string: no NUL inside,
its length and the NUL fitting a `Uint32`), in every blob `compile` produces whose fields
fit their C types: `entry_size` is the length of `e` plus one and the entry object is `e`
followed by one NUL; the bytes `compile` returns decode, by the loader of the blob's stage,
to an `entry_size` field of that value, entry bytes `e` followed by a NUL, and the entry
point `e`; for `"main"` the field is 5. -/
theorem C14_entry_length (big_tool big_loader : Bool) (szt : Nat) (tc : Toolchain)
    (code : List Nat) (type lang formats : Nat) (entry filename : List Nat)
    (b : SDL_SHADER_Blob (List Nat)) (tail : List Nat)
    (hb : compile_blob tc code type lang formats entry filename = .ok (some b))
    (hnul : ∀ c ∈ entry, c ≠ 0) (hlen : entry.length + 1 < 2 ^ 32) (hr : b.InRange) :
    b.entry_size = entry.length + 1 ∧ b.entry = entry ++ [0] ∧
    (entry = str_main → b.entry_size = 5) ∧
    ∃ bin size, compile big_tool szt tc code type lang formats entry filename =
        .ok (some bin, size) ∧
      (type ≠ SDL_SHADER_TYPE_COMPUTE →
        ∃ d, SDL_SHADER_Load_decode big_loader (bin ++ tail) = .ok (some d) ∧
          d.entry_size = entry.length + 1 ∧
          ((bin ++ tail).drop d.entry).take d.entry_size = entry ++ [0] ∧
          c_string (bin ++ tail) d.entry = some entry) ∧
      (type = SDL_SHADER_TYPE_COMPUTE →
        ∃ d, SDL_SHADER_LoadCompute_decode big_loader (bin ++ tail) = .ok (some d) ∧
          d.entry_size = entry.length + 1 ∧
          ((bin ++ tail).drop d.entry).take d.entry_size = entry ++ [0] ∧
          c_string (bin ++ tail) d.entry = some entry) := by
  obtain ⟨h1, h2, h3⟩ := compile_blob_entry _ _ _ _ _ _ _ _ hb hnul hlen
  obtain ⟨bin, size, hc, hg, hcmp⟩ := compile_decode big_tool big_loader szt _ _ _ _ _ _ _ b
    tail hb hr
  refine ⟨h1, h2, fun he => by rw [h1, he]; rfl, bin, size, hc, ?_, ?_⟩
  · intro hne
    obtain ⟨d, hd, hdf⟩ := hg hne
    have e1 : d.entry_size = b.entry_size := by
      simpa [deref_blob, graphics_part, trim_blob] using
        congrArg SDL_SHADER_Blob.entry_size hdf
    have e2 : ((bin ++ tail).drop d.entry).take d.entry_size = b.entry.take b.entry_size := by
      simpa [deref_blob, graphics_part, trim_blob] using congrArg SDL_SHADER_Blob.entry hdf
    rw [h3] at e2
    exact ⟨d, hd, e1.trans h1, e2, c_string_of_take _ _ _ _ e2 hnul⟩
  · intro he
    obtain ⟨d, hd, hdf⟩ := hcmp he
    have e1 : d.entry_size = b.entry_size := by
      simpa [deref_blob, trim_blob] using congrArg SDL_SHADER_Blob.entry_size hdf
    have e2 : ((bin ++ tail).drop d.entry).take d.entry_size = b.entry.take b.entry_size := by
      simpa [deref_blob, trim_blob] using congrArg SDL_SHADER_Blob.entry hdf
    rw [h3] at e2
    exact ⟨d, hd, e1.trans h1, e2, c_string_of_take _ _ _ _ e2 hnul⟩

/-- C14, at a GLSL vertex shader with entry point `"main"` and the request `MSL | SPIRV`:
the length field is 5. -/
theorem C14_entry_length_witness :
    ∃ bin size d,
      compile false 8 (tc_example none none (some [65])) [118] SDL_SHADER_TYPE_VERTEX
        SDL_SHADER_LANG_GLSL 18 str_main [] = .ok (some bin, size) ∧
      SDL_SHADER_Load_decode true (bin ++ [7]) = .ok (some d) ∧
      d.entry_size = 5 ∧ c_string (bin ++ [7]) d.entry = some str_main := by
  obtain ⟨-, -, -, bin, size, hc, hg, -⟩ :=
    C14_entry_length false true 8 (tc_example none none (some [65])) [118]
      SDL_SHADER_TYPE_VERTEX SDL_SHADER_LANG_GLSL 18 str_main [] blob_msl_spirv [7] rfl
      (by decide) (by decide) (by decide)
  obtain ⟨d, hd, e1, -, e3⟩ := hg (by decide)
  exact ⟨bin, size, d, hc, hd, e1, e3⟩

theorem decoded_match (data : List Nat) (formats : Nat) (d : SDL_SHADER_Blob Nat)
    (l : List (SDL_SHADER_Code (List Nat)))
    (hmap : d.shaders.map (deref_code data) =
      l.map fun s => { s with code := s.code.take s.code_size })
    (hm : ∃ s ∈ l, formats &&& s.format ≠ 0) :
    ∃ s ∈ d.shaders, formats &&& s.format ≠ 0 := by
  obtain ⟨s, hs, hf⟩ := hm
  have hmem : ({ s with code := s.code.take s.code_size } : SDL_SHADER_Code (List Nat)) ∈
      d.shaders.map (deref_code data) := by
    rw [hmap]; exact List.mem_map_of_mem _ hs
  obtain ⟨t, ht, hts⟩ := List.mem_map.mp hmem
  refine ⟨t, ht, ?_⟩
  have : t.format = s.format := by
    simpa [deref_code] using congrArg SDL_SHADER_Code.format hts
  rwa [this]

/-- C16 (resource usage reaches the descriptor). For every blob `compile` produces whose
fields fit their C types, for an entry point that is a C string, and every device mask
that matches one of its variants: the loader of the blob's stage, run on the bytes
`compile` returns, builds a descriptor that carries exactly what the reflector reported:
for Vertex and Fragment the sampler, uniform-buffer, storage-buffer and storage-texture
counts and the stage (Vertex for type 0, Fragment for type 1); for Compute the sampler and
uniform-buffer counts, the read-write and the read-only storage-buffer and storage-texture
counts and the thread counts x, y, z. -/
theorem C16_resource_usage (big_tool big_loader : Bool) (szt : Nat) (tc : Toolchain)
    (code : List Nat) (type lang formats : Nat) (entry filename : List Nat)
    (b : SDL_SHADER_Blob (List Nat)) (tail : List Nat) (mask : Nat)
    (hb : compile_blob tc code type lang formats entry filename = .ok (some b))
    (hnul : ∀ c ∈ entry, c ≠ 0) (hlen : entry.length + 1 < 2 ^ 32) (hr : b.InRange)
    (hmatch : ∃ s ∈ b.shaders, mask &&& s.format ≠ 0) :
    ∃ spirv bin size, compile_spirv tc code type lang entry filename = some spirv ∧
      compile big_tool szt tc code type lang formats entry filename =
        .ok (some bin, size) ∧
      (type ≠ SDL_SHADER_TYPE_COMPUTE →
        ∃ m info, tc.SDL_ShaderCross_ReflectGraphicsSPIRV spirv = some m ∧
          SDL_SHADER_Load_info big_loader mask (bin ++ tail) = .ok (some info) ∧
          info.num_samplers = m.num_samplers ∧
          info.num_uniform_buffers = m.num_uniform_buffers ∧
          info.num_storage_buffers = m.num_storage_buffers ∧
          info.num_storage_textures = m.num_storage_textures ∧
          (type = SDL_SHADER_TYPE_VERTEX → info.stage = SDL_GPU_SHADERSTAGE_VERTEX) ∧
          (type = SDL_SHADER_TYPE_FRAGMENT → info.stage = SDL_GPU_SHADERSTAGE_FRAGMENT)) ∧
      (type = SDL_SHADER_TYPE_COMPUTE →
        ∃ m info, tc.SDL_ShaderCross_ReflectComputeSPIRV spirv = some m ∧
          SDL_SHADER_LoadCompute_info big_loader mask (bin ++ tail) = .ok (some info) ∧
          info.num_samplers = m.num_samplers ∧
          info.num_uniform_buffers = m.num_uniform_buffers ∧
          info.num_readwrite_storage_buffers = m.num_readwrite_storage_buffers ∧
          info.num_readwrite_storage_textures = m.num_readwrite_storage_textures ∧
          info.num_readonly_storage_buffers = m.num_readonly_storage_buffers ∧
          info.num_readonly_storage_textures = m.num_readonly_storage_textures ∧
          info.threadcount_x = m.threadcount_x ∧ info.threadcount_y = m.threadcount_y ∧
          info.threadcount_z = m.threadcount_z) := by
  obtain ⟨-, -, h3⟩ := compile_blob_entry _ _ _ _ _ _ _ _ hb hnul hlen
  obtain ⟨bin, size, hc, hg, hcmp⟩ := compile_decode big_tool big_loader szt _ _ _ _ _ _ _ b
    tail hb hr
  obtain ⟨spirv, hs, hrg, hrc⟩ := compile_blob_reflect _ _ _ _ _ _ _ _ hb
  obtain ⟨-, -, -, -, -, -, hty⟩ := compile_blob_some _ _ _ _ _ _ _ _ hb
  refine ⟨spirv, bin, size, hs, hc, ?_, ?_⟩
  · intro hne
    obtain ⟨d, hd, hdf⟩ := hg hne
    obtain ⟨m, hm, m1, m2, m3, m4⟩ := hrg hne
    have e2 : ((bin ++ tail).drop d.entry).take d.entry_size = b.entry.take b.entry_size := by
      simpa [deref_blob, graphics_part, trim_blob] using congrArg SDL_SHADER_Blob.entry hdf
    rw [h3] at e2
    have hcs := c_string_of_take _ _ _ _ e2 hnul
    have hmap : d.shaders.map (deref_code (bin ++ tail)) =
        b.shaders.map fun s => { s with code := s.code.take s.code_size } := by
      simpa [deref_blob, graphics_part, trim_blob] using
        congrArg SDL_SHADER_Blob.shaders hdf
    obtain ⟨s, hsel⟩ := select_loop_some mask d (Load_decode_num_shaders _ _ d hd)
      (decoded_match _ _ d _ hmap hmatch)
    have f1 : d.num_samplers = b.num_samplers := by
      simpa [deref_blob, graphics_part, trim_blob] using
        congrArg SDL_SHADER_Blob.num_samplers hdf
    have f2 : d.num_uniform_buffers = b.num_uniform_buffers := by
      simpa [deref_blob, graphics_part, trim_blob] using
        congrArg SDL_SHADER_Blob.num_uniform_buffers hdf
    have f3 : d.num_storage_buffers = b.num_storage_buffers := by
      simpa [deref_blob, graphics_part, trim_blob] using
        congrArg SDL_SHADER_Blob.num_storage_buffers hdf
    have f4 : d.num_storage_textures = b.num_storage_textures := by
      simpa [deref_blob, graphics_part, trim_blob] using
        congrArg SDL_SHADER_Blob.num_storage_textures hdf
    have f5 : d.type = type := by
      have : d.type = b.type := by
        simpa [deref_blob, graphics_part, trim_blob] using congrArg SDL_SHADER_Blob.type hdf
      rw [this, hty]
    have hinfo : SDL_SHADER_Load_info big_loader mask (bin ++ tail) =
        .ok (some (graphics_info d s (decide (entry = str_main) &&
          decide (s.format = SDL_GPU_SHADERFORMAT_MSL)))) := by
      simp only [SDL_SHADER_Load_info, hd, bind, Except.bind]
      rw [Load_build_sel mask _ d s hsel,
        strcmp_eq_c_string _ str_main d.entry entry (by decide) hcs]
      by_cases hf : s.format = SDL_GPU_SHADERFORMAT_MSL <;> simp [hf, Except.map]
    refine ⟨m, _, hm, hinfo, ?_, ?_, ?_, ?_, ?_, ?_⟩
    · simp [graphics_info, f1, m1]
    · simp [graphics_info, f2, m2]
    · simp [graphics_info, f3, m3]
    · simp [graphics_info, f4, m4]
    · intro h0
      simp +decide [graphics_info, f5, h0]
    · intro h1
      simp +decide [graphics_info, f5, h1]
  · intro he
    obtain ⟨d, hd, hdf⟩ := hcmp he
    obtain ⟨m, hm, m1, m2, m3, m4, m5, m6, m7, m8, m9⟩ := hrc he
    have e2 : ((bin ++ tail).drop d.entry).take d.entry_size = b.entry.take b.entry_size := by
      simpa [deref_blob, trim_blob] using congrArg SDL_SHADER_Blob.entry hdf
    rw [h3] at e2
    have hcs := c_string_of_take _ _ _ _ e2 hnul
    have hmap : d.shaders.map (deref_code (bin ++ tail)) =
        b.shaders.map fun s => { s with code := s.code.take s.code_size } := by
      simpa [deref_blob, trim_blob] using congrArg SDL_SHADER_Blob.shaders hdf
    obtain ⟨s, hsel⟩ := select_loop_some mask d (LoadCompute_decode_num_shaders _ _ d hd)
      (decoded_match _ _ d _ hmap hmatch)
    have f1 : d.num_samplers = b.num_samplers := by
      simpa [deref_blob, trim_blob] using congrArg SDL_SHADER_Blob.num_samplers hdf
    have f2 : d.num_uniform_buffers = b.num_uniform_buffers := by
      simpa [deref_blob, trim_blob] using congrArg SDL_SHADER_Blob.num_uniform_buffers hdf
    have f3 : d.num_storage_buffers = b.num_storage_buffers := by
      simpa [deref_blob, trim_blob] using congrArg SDL_SHADER_Blob.num_storage_buffers hdf
    have f4 : d.num_storage_textures = b.num_storage_textures := by
      simpa [deref_blob, trim_blob] using congrArg SDL_SHADER_Blob.num_storage_textures hdf
    have f5 : d.num_storage_buffers_readonly = b.num_storage_buffers_readonly := by
      simpa [deref_blob, trim_blob] using
        congrArg SDL_SHADER_Blob.num_storage_buffers_readonly hdf
    have f6 : d.num_storage_textures_readonly = b.num_storage_textures_readonly := by
      simpa [deref_blob, trim_blob] using
        congrArg SDL_SHADER_Blob.num_storage_textures_readonly hdf
    have f7 : d.thread_x = b.thread_x := by
      simpa [deref_blob, trim_blob] using congrArg SDL_SHADER_Blob.thread_x hdf
    have f8 : d.thread_y = b.thread_y := by
      simpa [deref_blob, trim_blob] using congrArg SDL_SHADER_Blob.thread_y hdf
    have f9 : d.thread_z = b.thread_z := by
      simpa [deref_blob, trim_blob] using congrArg SDL_SHADER_Blob.thread_z hdf
    have hinfo : SDL_SHADER_LoadCompute_info big_loader mask (bin ++ tail) =
        .ok (some (compute_info d s (decide (entry = str_main) &&
          decide (s.format = SDL_GPU_SHADERFORMAT_MSL)))) := by
      simp only [SDL_SHADER_LoadCompute_info, hd, bind, Except.bind]
      rw [LoadCompute_build_sel mask _ d s hsel,
        strcmp_eq_c_string _ str_main d.entry entry (by decide) hcs]
      by_cases hf : s.format = SDL_GPU_SHADERFORMAT_MSL <;> simp [hf, Except.map]
    refine ⟨m, _, hm, hinfo, ?_, ?_, ?_, ?_, ?_, ?_, ?_, ?_, ?_⟩
    · simp [compute_info, f1, m1]
    · simp [compute_info, f2, m2]
    · simp [compute_info, f3, m3]
    · simp [compute_info, f4, m4]
    · simp [compute_info, f5, m5]
    · simp [compute_info, f6, m6]
    · simp [compute_info, f7, m7]
    · simp [compute_info, f8, m8]
    · simp [compute_info, f9, m9]

/-- C16, at a compute shader whose reflection reports pairwise different values, loaded on
a device that takes SPIR-V. -/
theorem C16_resource_usage_witness :
    ∃ bin size info,
      compile false 8 tc_counts [3, 2, 35, 7] SDL_SHADER_TYPE_COMPUTE SDL_SHADER_LANG_SPIRV
        2 str_main [] = .ok (some bin, size) ∧
      SDL_SHADER_LoadCompute_info true 2 (bin ++ [7]) = .ok (some info) ∧
      info.num_samplers = 1 ∧ info.num_uniform_buffers = 6 ∧
      info.num_readwrite_storage_buffers = 5 ∧ info.num_readwrite_storage_textures = 4 ∧
      info.num_readonly_storage_buffers = 3 ∧ info.num_readonly_storage_textures = 2 ∧
      info.threadcount_x = 7 ∧ info.threadcount_y = 8 ∧ info.threadcount_z = 9 := by
  obtain ⟨spirv, bin, size, hs, hc, -, hcmp⟩ :=
    C16_resource_usage false true 8 tc_counts [3, 2, 35, 7] SDL_SHADER_TYPE_COMPUTE
      SDL_SHADER_LANG_SPIRV 2 str_main [] blob_counts [7] 2 rfl (by decide) (by decide)
      (by decide) (by decide)
  obtain ⟨m, info, hm, hi, h1, h2, h3, h4, h5, h6, h7, h8, h9⟩ := hcmp rfl
  have hm' : m = ⟨1, 2, 3, 4, 5, 6, 7, 8, 9⟩ := by
    simpa [tc_counts] using hm.symm
  subst hm'
  exact ⟨bin, size, info, hc, hi, h1, h2, h3, h4, h5, h6, h7, h8, h9⟩

/-! ## The command line: formats and language -/

theorem parse_inputs_formats {W : Type} (fs : FileSystem W) (w : W) (arg : List Char)
    (globbed : Bool) (files : Option (List (List Char))) :
    ∀ (k i : Nat) (s s' : SDL_SHADER_State),
      parse_inputs fs w arg globbed files k i s = .ok s' →
      s'.shader_formats = s.shader_formats := by
  intro k
  induction k with
  | zero =>
    intro i s s' h
    simp only [parse_inputs, Except.ok.injEq] at h
    rw [h]
  | succ k ih =>
    intro i s s' h
    simp only [parse_inputs, bind, Except.bind, pure, Except.pure] at h
    repeat' split at h
    all_goals first
      | (simp at h; done)
      | (simp only [Except.ok.injEq] at h; rw [h])
      | (have hk := ih _ _ _ h; simpa using hk)

theorem parse_arg_formats {W : Type} (fs : FileSystem W) (w : W) (s s' : SDL_SHADER_State)
    (arg : List Char) (h : parse_arg fs w s arg = .ok s') :
    s'.shader_formats = s.shader_formats ||| flag_bit arg := by
  unfold parse_arg at h
  by_cases c1 : arg = "-h".toList ∨ arg = "--help".toList
  · have hb : flag_bit arg = 0 := by rcases c1 with rfl | rfl <;> decide
    rw [if_pos c1] at h; cases h; rw [hb, Nat.or_zero]
  rw [if_neg c1] at h
  by_cases c2 : arg = "-o".toList ∨ arg = "--out".toList ∨ arg = "--output".toList
  · have hb : flag_bit arg = 0 := by rcases c2 with rfl | rfl | rfl <;> decide
    rw [if_pos c2] at h; cases h; rw [hb, Nat.or_zero]
  rw [if_neg c2] at h
  by_cases c3 : arg = "-e".toList ∨ arg = "--entry".toList
  · have hb : flag_bit arg = 0 := by rcases c3 with rfl | rfl <;> decide
    rw [if_pos c3] at h; cases h; rw [hb, Nat.or_zero]
  rw [if_neg c3] at h
  by_cases c4 : arg = "--extension".toList
  · have hb : flag_bit arg = 0 := by rw [c4]; decide
    rw [if_pos c4] at h; cases h; rw [hb, Nat.or_zero]
  rw [if_neg c4] at h
  by_cases c5 : arg = "--silent".toList
  · have hb : flag_bit arg = 0 := by rw [c5]; decide
    rw [if_pos c5] at h; cases h; rw [hb, Nat.or_zero]
  rw [if_neg c5] at h
  by_cases c6 : arg = "--recompile".toList
  · have hb : flag_bit arg = 0 := by rw [c6]; decide
    rw [if_pos c6] at h; cases h; rw [hb, Nat.or_zero]
  rw [if_neg c6] at h
  by_cases c7 : arg = "--sync-folders".toList
  · have hb : flag_bit arg = 0 := by rw [c7]; decide
    rw [if_pos c7] at h; cases h; rw [hb, Nat.or_zero]
  rw [if_neg c7] at h
  by_cases h1 : arg = "--spv".toList
  · have hb : flag_bit arg = SDL_GPU_SHADERFORMAT_SPIRV := by rw [h1]; decide
    rw [if_pos h1] at h; cases h; rw [hb]
  rw [if_neg h1] at h
  by_cases h2 : arg = "--msl".toList
  · have hb : flag_bit arg = SDL_GPU_SHADERFORMAT_MSL := by rw [h2]; decide
    rw [if_pos h2] at h; cases h; rw [hb]
  rw [if_neg h2] at h
  by_cases h3 : arg = "--dxil".toList
  · have hb : flag_bit arg = SDL_GPU_SHADERFORMAT_DXIL := by rw [h3]; decide
    rw [if_pos h3] at h; cases h; rw [hb]
  rw [if_neg h3] at h
  by_cases h4 : arg = "--dxbc".toList
  · have hb : flag_bit arg = SDL_GPU_SHADERFORMAT_DXBC := by rw [h4]; decide
    rw [if_pos h4] at h; cases h; rw [hb]
  rw [if_neg h4] at h
  have hb : flag_bit arg = 0 := by
    rw [flag_bit, if_neg h1, if_neg h2, if_neg h3, if_neg h4]
  rw [hb, Nat.or_zero]
  by_cases c8 : arg = "-v".toList ∨ arg = "--vert".toList ∨ arg = "--vertex".toList
  · rw [if_pos c8] at h; cases h; rfl
  rw [if_neg c8] at h
  by_cases c9 : arg = "-f".toList ∨ arg = "--frag".toList ∨ arg = "--fragment".toList
  · rw [if_pos c9] at h; cases h; rfl
  rw [if_neg c9] at h
  by_cases c10 : arg = "-c".toList ∨ arg = "--comp".toList ∨ arg = "--compute".toList
  · rw [if_pos c10] at h; cases h; rfl
  rw [if_neg c10] at h
  by_cases c11 : arg.head? = some '-'
  · rw [if_pos c11] at h; cases h; rfl
  rw [if_neg c11] at h
  by_cases c12 : s.is_entry = true
  · rw [if_pos c12] at h; cases h; rfl
  rw [if_neg c12] at h
  by_cases c13 : s.is_extension = true
  · rw [if_pos c13] at h; cases h; rfl
  rw [if_neg c13] at h
  cases hl : arg.getLast? with
  | none => rw [hl] at h; cases h
  | some last =>
    rw [hl] at h
    simp only at h
    by_cases c14 : s.is_output = true
    · rw [if_pos c14] at h; cases h; rfl
    rw [if_neg c14] at h
    exact parse_inputs_formats fs w _ _ _ _ _ _ _ h

theorem or_bits_cons {α : Type} [DecidableEq α] (x1 x2 x3 x4 a : α) (rest : List α)
    (h12 : x1 ≠ x2) (h13 : x1 ≠ x3) (h14 : x1 ≠ x4) (h23 : x2 ≠ x3) (h24 : x2 ≠ x4)
    (h34 : x3 ≠ x4) :
    ((if x1 ∈ a :: rest then 2 else 0) ||| (if x2 ∈ a :: rest then 16 else 0) |||
      (if x3 ∈ a :: rest then 8 else 0) ||| (if x4 ∈ a :: rest then 4 else 0) : Nat) =
    (if a = x1 then 2 else if a = x2 then 16 else if a = x3 then 8 else if a = x4 then 4
      else 0) |||
    ((if x1 ∈ rest then 2 else 0) ||| (if x2 ∈ rest then 16 else 0) |||
      (if x3 ∈ rest then 8 else 0) ||| (if x4 ∈ rest then 4 else 0)) := by
  by_cases m1 : x1 ∈ rest <;> by_cases m2 : x2 ∈ rest <;> by_cases m3 : x3 ∈ rest <;>
    by_cases m4 : x4 ∈ rest <;>
    by_cases e1 : a = x1 <;> by_cases e2 : a = x2 <;> by_cases e3 : a = x3 <;>
    by_cases e4 : a = x4 <;>
    first
    | (exfalso; subst e1; first | exact h12 e2 | exact h13 e3 | exact h14 e4)
    | (exfalso; subst e2; first | exact h23 e3 | exact h24 e4)
    | (exfalso; subst e3; exact h34 e4)
    | (simp +decide [List.mem_cons, m1, m2, m3, m4, e1, e2, e3, e4, @eq_comm _ x1 a,
        @eq_comm _ x2 a, @eq_comm _ x3 a, @eq_comm _ x4 a, h12, h13, h14, h23, h24, h34,
        Ne.symm h12, Ne.symm h13, Ne.symm h14, Ne.symm h23, Ne.symm h24, Ne.symm h34])

theorem flag_formats_cons (a : List Char) (rest : List (List Char)) :
    flag_formats (a :: rest) = flag_bit a ||| flag_formats rest := by
  unfold flag_formats flag_bit
  convert or_bits_cons "--spv".toList "--msl".toList "--dxil".toList "--dxbc".toList a rest
    (by decide) (by decide) (by decide) (by decide) (by decide) (by decide)

theorem parse_args_formats {W : Type} (fs : FileSystem W) (w : W) :
    ∀ (args : List (List Char)) (s s' : SDL_SHADER_State),
      parse_args fs w s args = .ok s' →
      s'.shader_formats = s.shader_formats ||| flag_formats args := by
  intro args
  induction args with
  | nil =>
    intro s s' h
    simp only [parse_args, Except.ok.injEq] at h
    rw [← h]
    exact (Nat.or_zero _).symm
  | cons a rest ih =>
    intro s s' h
    simp only [parse_args, bind, Except.bind] at h
    cases h1 : parse_arg fs w s a with
    | error e => rw [h1] at h; cases h
    | ok s1 =>
      rw [h1] at h
      rw [ih s1 s' h, parse_arg_formats fs w s s1 a h1, flag_formats_cons, Nat.lor_assoc]

/-- C20 (language by extension), evaluated on one-character file names. The guards
`len > 6` and `len > 5` of `parse_arg` leave the existing files `a.glsl`, `a.hlsl` and
`a.spv` unclassified, although their paths end in `.glsl`, `.hlsl`, `.spv`; names one
character longer are classified. For the command line `a.glsl -o out/` the input is
recorded with the unknown language and `run` reports its extension as unknown, without
compiling it. -/
theorem C20_short_name_rejected :
    detect_lang "a.glsl".toList = SDL_SHADER_LANG_UNKNOWN ∧
    detect_lang "a.hlsl".toList = SDL_SHADER_LANG_UNKNOWN ∧
    detect_lang "a.spv".toList = SDL_SHADER_LANG_UNKNOWN ∧
    detect_lang "ab.glsl".toList = SDL_SHADER_LANG_GLSL ∧
    detect_lang "ab.hlsl".toList = SDL_SHADER_LANG_HLSL ∧
    detect_lang "ab.spv".toList = SDL_SHADER_LANG_SPIRV ∧
    (main_state (fs_example ["a.glsl".toList]) ()
        ["a.glsl".toList, "-o".toList, "out/".toList]).map (fun state => state.inputs) =
      .ok [{ path := "a.glsl".toList, base := ".glsl".toList, type := SDL_SHADER_TYPE_VERTEX,
             lang := SDL_SHADER_LANG_UNKNOWN, last_modified := 0 }] ∧
    main false 8 (tc_example none none none) (fs_example ["a.glsl".toList]) ()
        ["a.glsl".toList, "-o".toList, "out/".toList] =
      .ok ((), [Event.unknown_extension "a.glsl".toList]) := by
  refine ⟨by decide, by decide, by decide, by decide, by decide, by decide, ?_, ?_⟩
  · rfl
  · rfl

/-! ## The command line: type, base name, globbing, outputs -/

/-- C21 (type by file-name suffix), evaluated. The type tests of `parse_arg` read
`&input->base[base_size - 6]`, which lies in front of the base-name buffer when the base
name has fewer than five characters: for the existing files `ab.glsl` and `dir/ab.glsl`,
and for the entry `ab.glsl` of a globbed folder, the read is outside the buffer. With base
names of five characters or more the type is that of the suffix `.vert`, `.frag`, `.comp`
whatever flag preceded, and otherwise that of the most recent type flag (Vertex when there
is none). -/
theorem C21_short_base_reads_before_buffer :
    detect_type SDL_SHADER_TYPE_VERTEX "b".toList 2 = .error .out_of_bounds ∧
    main_state (fs_example ["ab.glsl".toList]) () ["ab.glsl".toList] =
      .error .out_of_bounds ∧
    main_state (fs_example ["dir/ab.glsl".toList]) () ["-f".toList, "dir/ab.glsl".toList] =
      .error .out_of_bounds ∧
    main_state (fs_tree "sh/".toList ["ab.glsl".toList] [] [("sh/ab.glsl".toList, 0)]) ()
      ["sh/".toList] = .error .out_of_bounds ∧
    input_names (main_state
      (fs_example ["dir/x.vert.glsl".toList, "dir/y.frag.hlsl".toList,
        "dir/z.comp.spv".toList, "dir/plain.glsl".toList]) ()
      ["dir/plain.glsl".toList, "-f".toList, "dir/x.vert.glsl".toList, "-c".toList,
        "dir/y.frag.hlsl".toList, "-v".toList, "dir/z.comp.spv".toList, "-f".toList,
        "-c".toList, "dir/plain.glsl".toList]) =
      .ok [("dir/plain.glsl".toList, "plain".toList, SDL_SHADER_TYPE_VERTEX),
        ("dir/x.vert.glsl".toList, "x.vert".toList, SDL_SHADER_TYPE_VERTEX),
        ("dir/y.frag.hlsl".toList, "y.frag".toList, SDL_SHADER_TYPE_FRAGMENT),
        ("dir/z.comp.spv".toList, "z.comp".toList, SDL_SHADER_TYPE_COMPUTE),
        ("dir/plain.glsl".toList, "plain".toList, SDL_SHADER_TYPE_COMPUTE)] :=
  ⟨rfl, rfl, rfl, rfl, rfl⟩

/-- C22 (respective outputs), evaluated. For the command line
`notes.txt dir/b.vert.spv --spv -o o1.bin o2.bin` the first input is skipped for its
unknown extension without `output_index` being advanced, and the second input is compiled
into `o1.bin`, the output of the first position, not into `o2.bin`. An input that is
skipped because its target is up to date does use up its output: for
`dir/a.vert.spv dir/b.vert.spv --spv -o o1.bin o2.bin` with a newer `o1.bin`, the second
input is compiled into `o2.bin`. With one file output for two inputs the second input is
reported as having no output; a folder output serves every input. -/
theorem C22_skipped_input_shifts_outputs :
    (∃ bytes, main false 8 (tc_example none none none)
        (fs_tree [] [] [] [("notes.txt".toList, 0), ("dir/b.vert.spv".toList, 0)]) ()
        ["notes.txt".toList, "dir/b.vert.spv".toList, "--spv".toList, "-o".toList,
          "o1.bin".toList, "o2.bin".toList] =
      .ok ((), [Event.unknown_extension "notes.txt".toList,
        Event.compiling "dir/b.vert.spv".toList "o1.bin".toList,
        Event.save_file "o1.bin".toList bytes true])) ∧
    (∃ bytes, main false 8 (tc_example none none none)
        (fs_tree [] [] [] [("dir/a.vert.spv".toList, 0), ("dir/b.vert.spv".toList, 0),
          ("o1.bin".toList, 5)]) ()
        ["dir/a.vert.spv".toList, "dir/b.vert.spv".toList, "--spv".toList, "-o".toList,
          "o1.bin".toList, "o2.bin".toList] =
      .ok ((), [Event.compiling "dir/b.vert.spv".toList "o2.bin".toList,
        Event.save_file "o2.bin".toList bytes true])) ∧
    (∃ bytes, main false 8 (tc_example none none none)
        (fs_tree [] [] [] [("dir/a.vert.spv".toList, 0), ("dir/b.vert.spv".toList, 0)]) ()
        ["dir/a.vert.spv".toList, "dir/b.vert.spv".toList, "--spv".toList, "-o".toList,
          "o1.bin".toList] =
      .ok ((), [Event.compiling "dir/a.vert.spv".toList "o1.bin".toList,
        Event.save_file "o1.bin".toList bytes true,
        Event.no_output "dir/b.vert.spv".toList])) ∧
    (∃ bytes, main false 8 (tc_example none none none)
        (fs_tree [] [] [] [("dir/a.vert.spv".toList, 0), ("dir/b.vert.spv".toList, 0)]) ()
        ["dir/a.vert.spv".toList, "dir/b.vert.spv".toList, "--spv".toList, "-o".toList,
          "out/".toList, "o1.bin".toList] =
      .ok ((), [Event.compiling "dir/a.vert.spv".toList "out/a.vert.bin".toList,
        Event.save_file "out/a.vert.bin".toList bytes true,
        Event.compiling "dir/b.vert.spv".toList "out/b.vert.bin".toList,
        Event.save_file "out/b.vert.bin".toList bytes true])) :=
  ⟨⟨_, rfl⟩, ⟨_, rfl⟩, ⟨_, rfl⟩, ⟨_, rfl⟩⟩

/-- C24 (base name of a single input), evaluated. For the path `shader.vert.glsl`, which
has no `/` or `\`, `filename_start` stays 0 and the copy starts at `filename_start + 1`:
the base name is `hader.vert`, the first character lost, and with the folder output `out/`
the target is `out/hader.vert.bin`. With a directory in front, `dir/shader.vert.glsl`
gives `shader.vert` and the target `out/shader.vert.bin`. -/
theorem C24_bare_name_loses_first_character :
    input_names (main_state
      (fs_example ["shader.vert.glsl".toList, "dir/shader.vert.glsl".toList]) ()
      ["shader.vert.glsl".toList, "dir/shader.vert.glsl".toList]) =
      .ok [("shader.vert.glsl".toList, "hader.vert".toList, SDL_SHADER_TYPE_VERTEX),
        ("dir/shader.vert.glsl".toList, "shader.vert".toList, SDL_SHADER_TYPE_VERTEX)] ∧
    (∃ bytes, main false 8 (tc_example none none none)
        (fs_example ["shader.vert.glsl".toList, "dir/shader.vert.glsl".toList]) ()
        ["shader.vert.glsl".toList, "dir/shader.vert.glsl".toList, "--spv".toList,
          "-o".toList, "out/".toList] =
      .ok ((), [Event.compiling "shader.vert.glsl".toList "out/hader.vert.bin".toList,
        Event.save_file "out/hader.vert.bin".toList bytes true,
        Event.compiling "dir/shader.vert.glsl".toList "out/shader.vert.bin".toList,
        Event.save_file "out/shader.vert.bin".toList bytes true])) :=
  ⟨rfl, ⟨_, rfl⟩⟩

/-- C25 (globbing), evaluated. For the folder `sh/` with the listing `a.vert.glsl`, `sub`,
`b.frag.glsl`, where `sh/sub` is a directory, `parse_arg` returns at `sub`: the inputs are
`sh/a.vert.glsl` alone, `sh/b.frag.glsl` is not added. The same happens at an entry that
does not exist (`gone.glsl`). Without such an entry both files are added, in listing
order. -/
theorem C25_glob_stops_at_skipped_entry :
    input_names (main_state
      (fs_tree "sh/".toList ["a.vert.glsl".toList, "sub".toList, "b.frag.glsl".toList]
        ["sh/sub".toList] [("sh/a.vert.glsl".toList, 0), ("sh/b.frag.glsl".toList, 0)]) ()
      ["sh/".toList]) =
      .ok [("sh/a.vert.glsl".toList, "a.vert".toList, SDL_SHADER_TYPE_VERTEX)] ∧
    input_names (main_state
      (fs_tree "sh/".toList ["a.vert.glsl".toList, "gone.glsl".toList, "b.frag.glsl".toList]
        [] [("sh/a.vert.glsl".toList, 0), ("sh/b.frag.glsl".toList, 0)]) ()
      ["sh/".toList]) =
      .ok [("sh/a.vert.glsl".toList, "a.vert".toList, SDL_SHADER_TYPE_VERTEX)] ∧
    input_names (main_state
      (fs_tree "sh/".toList ["a.vert.glsl".toList, "b.frag.glsl".toList]
        [] [("sh/a.vert.glsl".toList, 0), ("sh/b.frag.glsl".toList, 0)]) ()
      ["sh/".toList]) =
      .ok [("sh/a.vert.glsl".toList, "a.vert".toList, SDL_SHADER_TYPE_VERTEX),
        ("sh/b.frag.glsl".toList, "b.frag".toList, SDL_SHADER_TYPE_FRAGMENT)] :=
  ⟨rfl, rfl, rfl⟩

/-! ## `encode`: the computed size and the bytes written -/

theorem spec_variants_length (l : List (SDL_SHADER_Code (List Nat)))
    (h : ∀ s ∈ l, s.code_size ≤ s.code.length) :
    (spec_variants l).length = 12 * l.length + (l.map (·.code_size)).sum := by
  induction l with
  | nil => rfl
  | cons s ss ih =>
    have hs := h s (List.mem_cons_self _ _)
    have ih' := ih fun t ht => h t (List.mem_cons_of_mem _ ht)
    simp only [spec_variants, spec_variant, List.length_append, le_bytes_length,
      List.length_take, ih', List.length_cons, List.map_cons, List.sum_cons]
    omega

theorem size_sum_mod (szt : Nat) (l : List (SDL_SHADER_Code (List Nat))) :
    ∀ start, start < 2 ^ (8 * szt) →
      size_sum szt start l = (start + (l.map (·.code_size)).sum) % 2 ^ (8 * szt) := by
  induction l with
  | nil =>
    intro start h
    simp [size_sum, Nat.mod_eq_of_lt h]
  | cons s ss ih =>
    intro start _
    have hlt : (start + s.code_size) % 2 ^ (8 * szt) < 2 ^ (8 * szt) :=
      Nat.mod_lt _ (by positivity)
    have := ih _ hlt
    simp only [size_sum, List.foldl_cons, size_t] at this ⊢
    rw [this, List.map_cons, List.sum_cons, Nat.mod_add_mod, Nat.add_assoc]

theorem size_header_mod (szt : Nat) (b : SDL_SHADER_Blob (List Nat)) :
    size_header szt b =
      (33 + b.entry_size + b.num_shaders * (szt + 4) +
        (if b.type = SDL_SHADER_TYPE_COMPUTE then 20 else 0)) % 2 ^ (8 * szt) := by
  unfold size_header size_t
  by_cases h : b.type = SDL_SHADER_TYPE_COMPUTE
  · simp only [h, if_true, Nat.mod_add_mod]
    congr 1
    omega
  · simp only [h, if_false, Nat.mod_add_mod]
    congr 1
    omega

theorem spec_layout_length (b : SDL_SHADER_Blob (List Nat)) (hv : b.Valid) :
    (spec_layout b).length =
      32 + b.entry_size + 12 * b.num_shaders + (b.shaders.map (·.code_size)).sum +
        (if b.type = SDL_SHADER_TYPE_COMPUTE then 20 else 0) := by
  obtain ⟨he, hn, hs⟩ := hv
  have ht : (b.type = 2) = (b.type = SDL_SHADER_TYPE_COMPUTE) := rfl
  by_cases h : b.type = SDL_SHADER_TYPE_COMPUTE
  · have h2 : b.type = 2 := h
    simp only [spec_layout, spec_tail, spec_compute_fields, h2, if_true, List.length_append,
      le_bytes_length, List.length_take, spec_variants_length _ hs, hn]
    simp [SDL_SHADER_TYPE_COMPUTE]
    omega
  · have h2 : ¬ b.type = 2 := h
    simp only [spec_layout, spec_tail, h2, h, if_false, List.length_append,
      le_bytes_length, List.length_take, spec_variants_length _ hs, hn, List.length_nil]
    omega

theorem encode_size_eq (big : Bool) (szt : Nat) (b : SDL_SHADER_Blob (List Nat))
    (hv : b.Valid) :
    ∃ p size, encode big szt b = .ok (p, size) ∧ p = spec_layout b ∧
      12 * b.num_shaders ≤ p.length ∧
      size = (p.length + 1 + b.num_shaders * (szt + 4) - 12 * b.num_shaders) %
        2 ^ (8 * szt) := by
  refine ⟨_, _, encode_ok big szt b hv, rfl, ?_, ?_⟩
  · rw [spec_layout_length b hv]; omega
  · rw [size_sum_mod szt _ _ (by rw [size_header_mod]; exact Nat.mod_lt _ (by positivity)),
      size_header_mod, Nat.mod_add_mod, spec_layout_length b hv]
    congr 1
    omega

/-- C23 (size accounting on a 4-byte `size_t`). For every blob whose pointers are valid,
`encode` writes the same bytes `p` for either width of `size_t`. With a 4-byte `size_t`
the size it computes is the number of bytes written plus 1 minus `4 * num_shaders`,
reduced to 32 bits, so it is smaller than the number of bytes written as soon as the blob
has a variant (the writes then run past the allocation). With an 8-byte `size_t` the
computed size is the number of bytes written plus 1 (reduced to 64 bits), never
smaller. -/
theorem C23_size_accounting (big : Bool) (b : SDL_SHADER_Blob (List Nat)) (hv : b.Valid) :
    ∃ p size4 size8, encode big 4 b = .ok (p, size4) ∧ encode big 8 b = .ok (p, size8) ∧
      4 * b.num_shaders ≤ p.length + 1 ∧
      size4 = (p.length + 1 - 4 * b.num_shaders) % 2 ^ 32 ∧
      (1 ≤ b.num_shaders → size4 < p.length) ∧
      (p.length + 1 < 2 ^ 32 → size4 = p.length + 1 - 4 * b.num_shaders) ∧
      size8 = (p.length + 1) % 2 ^ 64 ∧
      (p.length + 1 < 2 ^ 64 → size8 = p.length + 1 ∧ p.length ≤ size8) := by
  obtain ⟨p, size4, h4, hp4, hle, hs4⟩ := encode_size_eq big 4 b hv
  obtain ⟨p', size8, h8, hp8, -, hs8⟩ := encode_size_eq big 8 b hv
  subst hp4 hp8
  have e4 : (spec_layout b).length + 1 + b.num_shaders * (4 + 4) - 12 * b.num_shaders =
      (spec_layout b).length + 1 - 4 * b.num_shaders := by omega
  have e8 : (spec_layout b).length + 1 + b.num_shaders * (8 + 4) - 12 * b.num_shaders =
      (spec_layout b).length + 1 := by omega
  rw [e4] at hs4
  rw [e8] at hs8
  refine ⟨_, size4, size8, h4, h8, by omega, hs4, ?_, ?_, hs8, ?_⟩
  · intro h1
    have := Nat.mod_le ((spec_layout b).length + 1 - 4 * b.num_shaders) (2 ^ 32)
    omega
  · intro hlt
    rw [hs4, Nat.mod_eq_of_lt (by omega)]
  · intro hlt
    rw [hs8, Nat.mod_eq_of_lt hlt]
    exact ⟨rfl, by omega⟩

/-- C23, at a vertex blob with one SPIR-V variant of four bytes: 53 bytes are written, the
computed size is 50 with a 4-byte `size_t` and 54 with an 8-byte `size_t`. -/
theorem C23_size_accounting_witness :
    ∃ p size4 size8, encode false 4 blob_vertex = .ok (p, size4) ∧
      encode false 8 blob_vertex = .ok (p, size8) ∧ p.length = 53 ∧ size4 = 50 ∧
      size8 = 54 ∧ size4 < p.length ∧ p.length ≤ size8 := by
  obtain ⟨p, size4, size8, h4, h8, -, -, hlt, -, -, hge⟩ :=
    C23_size_accounting false blob_vertex (by decide)
  have e4 : encode false 4 blob_vertex = .ok (spec_layout blob_vertex, 50) := rfl
  have e8 : encode false 8 blob_vertex = .ok (spec_layout blob_vertex, 54) := rfl
  rw [e4] at h4
  rw [e8] at h8
  cases h4
  cases h8
  exact ⟨_, _, _, e4, e8, rfl, rfl, rfl, hlt (by decide), (hge (by decide)).2⟩

/-! ## The graphics loader on stage values other than Vertex, Fragment, Compute -/

theorem Load_build_stage (formats : Nat) (data : List Nat) (d : SDL_SHADER_Blob Nat)
    (info : SDL_GPUShaderCreateInfo)
    (h : SDL_SHADER_Load_build formats data d = .ok (some info)) :
    info.stage = if d.type = SDL_SHADER_TYPE_FRAGMENT then SDL_GPU_SHADERSTAGE_FRAGMENT
      else SDL_GPU_SHADERSTAGE_VERTEX := by
  rcases hsel : select_loop formats d.shaders d.num_shaders 0 with e | (_ | s)
  · simp [SDL_SHADER_Load_build, hsel, bind, Except.bind] at h
  · simp [SDL_SHADER_Load_build, hsel, bind, Except.bind, pure, Except.pure] at h
  · rw [Load_build_sel formats data d s hsel] at h
    rcases hc : (if s.format = SDL_GPU_SHADERFORMAT_MSL then
        SDL_strcmp_eq data d.entry str_main else .ok false) with e | m
    · rw [hc] at h; simp [Except.map] at h
    · rw [hc] at h
      simp only [Except.map, Except.ok.injEq, Option.some.injEq] at h
      rw [← h]
      rfl

theorem layout_stage (big : Bool) (b : SDL_SHADER_Blob (List Nat)) (tail : List Nat)
    (hr : b.InRange) :
    read_le32 big (spec_layout b ++ tail) 4 = .ok (b.type, 8) := by
  obtain ⟨r1, r2, -⟩ := hr
  have h0 : (spec_layout b ++ tail).drop 0 = le_bytes 4 b.formats ++ (le_bytes 4 b.type ++
      ((spec_layout b ++ tail).drop 8)) := by
    have e8 : (spec_layout b ++ tail).drop 8 =
        ((spec_layout b ++ tail).drop 4).drop 4 := by rw [List.drop_drop]
    rw [e8]
    simp only [spec_layout, List.append_assoc, List.drop_zero]
    rw [List.drop_left' (le_bytes_length 4 _), List.drop_left' (le_bytes_length 4 _)]
  obtain ⟨-, h1⟩ := read_le32_drop big _ 0 _ _ h0 r1
  exact (read_le32_drop big _ _ _ _ h1 r2).1

/-- C26 (stage values other than Compute in the graphics loader). For every well-formed
blob whose stage field is any value other than 2, the values outside 0, 1, 2 included,
`SDL_SHADER_Load_IO` on its bytes does not return at the stage test: it decodes the blob
with the graphics layout (the compute-only fields stay zero), every descriptor it builds
has the stage Fragment when the stage field is 1 and the zero-initialised stage, Vertex,
for every other value, and it does build a descriptor and hands it to the device when a
variant matches the device mask (the entry being a C string).
`SDL_SHADER_LoadCompute_IO` builds no descriptor and returns `NULL` on the same bytes. -/
theorem C26_unknown_stage (big : Bool) (device : SDL_GPUDevice)
    (b : SDL_SHADER_Blob (List Nat)) (tail : List Nat)
    (hwf : b.WellFormed) (hr : b.InRange) (ht : b.type ≠ SDL_SHADER_TYPE_COMPUTE) :
    (∃ d, SDL_SHADER_Load_decode big (spec_layout b ++ tail) = .ok (some d) ∧
      deref_blob (spec_layout b ++ tail) d = graphics_part b) ∧
    (∀ mask info, SDL_SHADER_Load_info big mask (spec_layout b ++ tail) = .ok (some info) →
      (b.type = SDL_SHADER_TYPE_FRAGMENT → info.stage = SDL_GPU_SHADERSTAGE_FRAGMENT) ∧
      (b.type ≠ SDL_SHADER_TYPE_FRAGMENT → info.stage = SDL_GPU_SHADERSTAGE_VERTEX)) ∧
    (∀ e, b.entry = e ++ [0] → (∀ c ∈ e, c ≠ 0) →
      (∃ s ∈ b.shaders, device.SDL_GetGPUShaderFormats &&& s.format ≠ 0) →
      ∃ info, SDL_SHADER_Load_info big device.SDL_GetGPUShaderFormats
          (spec_layout b ++ tail) = .ok (some info) ∧
        SDL_SHADER_Load_IO big device (spec_layout b ++ tail) =
          .ok (device.SDL_CreateGPUShader (spec_layout b ++ tail) info)) ∧
    SDL_SHADER_LoadCompute_info big device.SDL_GetGPUShaderFormats (spec_layout b ++ tail) =
      .ok none ∧
    SDL_SHADER_LoadCompute_IO big device (spec_layout b ++ tail) = .ok none := by
  obtain ⟨d, hd, hdf⟩ := Load_decode_layout big b tail hwf hr ht
  have hty : d.type = b.type := by
    simpa [deref_blob, graphics_part] using congrArg SDL_SHADER_Blob.type hdf
  have hdc := LoadCompute_decode_other big _ _ _ (layout_stage big b tail hr) ht
  refine ⟨⟨d, hd, hdf⟩, ?_, ?_, LoadCompute_info_of_decode_none big _ _ hdc,
    (LoadCompute_IO_of_decode big device _).2 hdc⟩
  · intro mask info hi
    simp only [SDL_SHADER_Load_info, hd, bind, Except.bind] at hi
    have hs := Load_build_stage mask _ d info hi
    rw [hty] at hs
    constructor
    · intro hf; rw [hs, if_pos hf]
    · intro hf; rw [hs, if_neg hf]
  · intro e he hnul hmatch
    have e2 : ((spec_layout b ++ tail).drop d.entry).take d.entry_size = e ++ [0] := by
      have : ((spec_layout b ++ tail).drop d.entry).take d.entry_size = b.entry := by
        simpa [deref_blob, graphics_part] using congrArg SDL_SHADER_Blob.entry hdf
      rw [this, he]
    have hcs := c_string_of_take _ _ _ _ e2 hnul
    have hmap : d.shaders.map (deref_code (spec_layout b ++ tail)) =
        b.shaders.map fun s => { s with code := s.code.take s.code_size } := by
      have h1 : d.shaders.map (deref_code (spec_layout b ++ tail)) = b.shaders := by
        simpa [deref_blob, graphics_part] using congrArg SDL_SHADER_Blob.shaders hdf
      rw [h1]
      refine (List.map_congr_left ?_).symm.trans (List.map_id _) |>.symm
      intro s hs
      have hcs := hwf.2.2 s hs
      cases s
      simp only at hcs
      simp [hcs]
    obtain ⟨s, hsel⟩ := select_loop_some device.SDL_GetGPUShaderFormats d
      (Load_decode_num_shaders _ _ d hd) (decoded_match _ _ d _ hmap hmatch)
    have hinfo : SDL_SHADER_Load_info big device.SDL_GetGPUShaderFormats
        (spec_layout b ++ tail) =
        .ok (some (graphics_info d s (decide (e = str_main) &&
          decide (s.format = SDL_GPU_SHADERFORMAT_MSL)))) := by
      simp only [SDL_SHADER_Load_info, hd, bind, Except.bind]
      rw [Load_build_sel _ _ d s hsel,
        strcmp_eq_c_string _ str_main d.entry e (by decide) hcs]
      by_cases hf : s.format = SDL_GPU_SHADERFORMAT_MSL <;> simp [hf, Except.map]
    refine ⟨_, hinfo, ?_⟩
    simp [ SDL_SHADER_Load_IO, hinfo, bind, Except.bind, pure, Except.pure]

/-- C26, at a blob with the stage value 7 on a device that supports SPIR-V: the graphics
loader builds a descriptor with the stage Vertex and returns what the device creates; the
compute loader returns `NULL`. -/
theorem C26_unknown_stage_witness :
    (∃ info, SDL_SHADER_Load_info false 2 (spec_layout blob_stage7 ++ [9]) =
        .ok (some info) ∧ info.stage = SDL_GPU_SHADERSTAGE_VERTEX) ∧
    SDL_SHADER_Load_IO false (device_example 2) (spec_layout blob_stage7 ++ [9]) =
      .ok (some 1) ∧
    SDL_SHADER_LoadCompute_IO false (device_example 2) (spec_layout blob_stage7 ++ [9]) =
      .ok none := by
  have h := C26_unknown_stage false (device_example 2) blob_stage7 [9]
    (by decide) (by decide) (by decide)
  obtain ⟨info, hi, hio⟩ := h.2.2.1 str_main rfl (by decide) (by decide)
  exact ⟨⟨info, hi, ((h.2.1 2 info hi).2 (by decide))⟩, hio, h.2.2.2.2⟩

/-! ## `compile` as `run` calls it: the declared mask -/

theorem four_bits_within (p1 p2 p3 p4 : Prop) [Decidable p1] [Decidable p2] [Decidable p3]
    [Decidable p4] :
    ((if p1 then 2 else 0) ||| (if p2 then 16 else 0) ||| (if p3 then 8 else 0) |||
      (if p4 then 4 else 0) : Nat) &&& (8 ||| 4 ||| 16 ||| 2) =
    ((if p1 then 2 else 0) ||| (if p2 then 16 else 0) ||| (if p3 then 8 else 0) |||
      (if p4 then 4 else 0) : Nat) := by
  by_cases h1 : p1 <;> by_cases h2 : p2 <;> by_cases h3 : p3 <;> by_cases h4 : p4 <;>
    simp +decide [h1, h2, h3, h4]

theorem flag_formats_within (args : List (List Char)) :
    flag_formats args &&& (SDL_GPU_SHADERFORMAT_DXIL ||| SDL_GPU_SHADERFORMAT_DXBC |||
      SDL_GPU_SHADERFORMAT_MSL ||| SDL_GPU_SHADERFORMAT_SPIRV) = flag_formats args := by
  unfold flag_formats
  exact four_bits_within _ _ _ _

theorem main_state_formats_within {W : Type} (fs : FileSystem W) (w : W)
    (args : List (List Char)) (state : SDL_SHADER_State)
    (h : main_state fs w args = .ok state) :
    state.shader_formats &&& (SDL_GPU_SHADERFORMAT_DXIL ||| SDL_GPU_SHADERFORMAT_DXBC |||
      SDL_GPU_SHADERFORMAT_MSL ||| SDL_GPU_SHADERFORMAT_SPIRV) = state.shader_formats := by
  simp only [main_state, bind, Except.bind, pure, Except.pure] at h
  cases h1 : parse_args fs w state_init args with
  | error e => rw [h1] at h; cases h
  | ok s1 =>
    rw [h1] at h
    have hf : s1.shader_formats = flag_formats args := by
      rw [parse_args_formats fs w args state_init s1 h1]
      exact Nat.zero_or _
    dsimp only at h
    by_cases hz : s1.shader_formats = 0
    · rw [if_pos hz] at h
      cases h
      show (0 ||| SDL_GPU_SHADERFORMAT_SPIRV ||| SDL_GPU_SHADERFORMAT_MSL |||
          SDL_GPU_SHADERFORMAT_DXIL ||| SDL_GPU_SHADERFORMAT_DXBC) &&&
        (SDL_GPU_SHADERFORMAT_DXIL ||| SDL_GPU_SHADERFORMAT_DXBC |||
          SDL_GPU_SHADERFORMAT_MSL ||| SDL_GPU_SHADERFORMAT_SPIRV) =
        0 ||| SDL_GPU_SHADERFORMAT_SPIRV ||| SDL_GPU_SHADERFORMAT_MSL |||
          SDL_GPU_SHADERFORMAT_DXIL ||| SDL_GPU_SHADERFORMAT_DXBC
      decide
    · rw [if_neg hz] at h
      cases h
      rw [hf]
      exact flag_formats_within args

/-- C6 (mask consistency). For every command line that `main` gets through, the mask it
hands to `run`, which `run` passes to `compile`, holds no bit outside
`DXIL | DXBC | MSL | SPIRV`; and for every source, stage, language, entry point, every
combination of translator outcomes and every such requested mask: if `compile` produces a
blob, its declared mask is the bitwise OR of the formats of its variants, so no bit is set
for which the blob holds no variant. -/
theorem C6_mask_consistency {W : Type} (fs : FileSystem W) (w : W)
    (args : List (List Char)) (state : SDL_SHADER_State) (tc : Toolchain) (code : List Nat)
    (type lang : Nat) (entry filename : List Nat) (b : SDL_SHADER_Blob (List Nat))
    (hs : main_state fs w args = .ok state)
    (h : compile_blob tc code type lang state.shader_formats entry filename = .ok (some b)) :
    b.formats = formats_union b.shaders ∧
    ∀ (formats : Nat) (b' : SDL_SHADER_Blob (List Nat)),
      formats &&& (SDL_GPU_SHADERFORMAT_DXIL ||| SDL_GPU_SHADERFORMAT_DXBC |||
        SDL_GPU_SHADERFORMAT_MSL ||| SDL_GPU_SHADERFORMAT_SPIRV) = formats →
      compile_blob tc code type lang formats entry filename = .ok (some b') →
      b'.formats = formats_union b'.shaders := by
  have key : ∀ (formats : Nat) (b' : SDL_SHADER_Blob (List Nat)),
      formats &&& (SDL_GPU_SHADERFORMAT_DXIL ||| SDL_GPU_SHADERFORMAT_DXBC |||
        SDL_GPU_SHADERFORMAT_MSL ||| SDL_GPU_SHADERFORMAT_SPIRV) = formats →
      compile_blob tc code type lang formats entry filename = .ok (some b') →
      b'.formats = formats_union b'.shaders := by
    intro formats b' hreq hb
    obtain ⟨spirv, _, hv, _⟩ := compile_blob_some _ _ _ _ _ _ _ _ hb
    exact compile_variants_mask _ _ _ _ _ _ hreq hv
  exact ⟨key _ b (main_state_formats_within fs w args state hs) h, key⟩

/-- C6, at the command line `--dxil --msl --spv dir/shader.frag.spv -o out/` where the
DXIL translator fails: the declared mask is `MSL | SPIRV`, the union of the formats of the
two variants. -/
theorem C6_mask_consistency_witness :
    ∃ state b,
      main_state (fs_example ["dir/shader.frag.spv".toList]) ()
        ["--dxil".toList, "--msl".toList, "--spv".toList, "dir/shader.frag.spv".toList,
          "-o".toList, "out/".toList] = .ok state ∧
      state.shader_formats = 26 ∧
      compile_blob (tc_example none none (some [65])) [3, 2, 35, 7]
        SDL_SHADER_TYPE_FRAGMENT SDL_SHADER_LANG_SPIRV state.shader_formats str_main [] =
          .ok (some b) ∧
      b.formats = 18 ∧ b.formats = formats_union b.shaders :=
  ⟨_, _, rfl, rfl, rfl, rfl,
    (C6_mask_consistency (fs_example ["dir/shader.frag.spv".toList]) ()
      ["--dxil".toList, "--msl".toList, "--spv".toList, "dir/shader.frag.spv".toList,
        "-o".toList, "out/".toList] _ (tc_example none none (some [65])) [3, 2, 35, 7]
      SDL_SHADER_TYPE_FRAGMENT SDL_SHADER_LANG_SPIRV str_main [] _ rfl rfl).1⟩

end SDLShader
